import Mathlib

/-!
Verification development for the inventory/invoicing application:
the Jalaali calendar layer (src/lib/persian.ts and the jalaali-js
algorithm it wraps), the Rial-cardex valuation engine and the
product-movement summary (src/app/reports/page.tsx), the
fiscal-year boundary helper (persianDateUtils), and the
createDocument mutation (src/graphql/resolvers.ts).

Numbers: JavaScript numeric values are embedded as exact rationals
(ℚ) for prices/quantities and as ℤ for calendar arithmetic, with
the jalaali-js truncating division (~~(a / b)) embedded as Int.tdiv.
-/

/-! ## jalaali-js core (modelled from the spec)

Modelled from the spec: the repository imports the external
jalaali-js package (not part of the repository source tree) for the
"standard Jalaali intercalation algorithm" (spec 4.1); the
definitions below reproduce that algorithm: the breaks table, jalCal,
the Julian-day conversions g2d/d2g, and the date conversions
j2d/d2j/toJalaali/toGregorian.  jalaali-js `div(a,b)` is `~~(a/b)`
(truncation toward zero) and `mod(a,b)` is `a - ~~(a/b)*b`. -/

def jsDiv (a b : Int) : Int := Int.tdiv a b

def jsMod (a b : Int) : Int := a - (Int.tdiv a b) * b

def breaks : List Int :=
  [-61, 9, 38, 199, 426, 686, 756, 818, 1111, 1181, 1210, 1635, 2060, 2097,
   2192, 2262, 2324, 2394, 2456, 3178]

/-- The scanning loop of jalCal over the breaks table: carries
(leapJ, jp, jump) and stops at the first break above jy. -/
def jalCalLoop (jy : Int) : Int → Int → Int → List Int → (Int × Int × Int)
  | leapJ, jp, jump, [] => (leapJ, jp, jump)
  | leapJ, jp, _, jm :: rest =>
      let jump' := jm - jp
      if jy < jm then (leapJ, jp, jump')
      else jalCalLoop jy (leapJ + jsDiv jump' 33 * 8 + jsDiv (jsMod jump' 33) 4) jm jump' rest

structure JalCalResult where
  leap : Int
  gy : Int
  march : Int
  deriving DecidableEq, Repr

/-- jalCal: leap status, Gregorian year and the March day of
1 Farvardin for a Jalaali year.  Out-of-range years throw in
jalaali-js; embedded as `none`. -/
def jalCal (jy : Int) : Option JalCalResult :=
  if jy < -61 ∨ jy ≥ 3178 then none
  else
    let gy := jy + 621
    let rl := jalCalLoop jy (-14) (-61) 0 (breaks.drop 1)
    let leapJ := rl.1
    let jp := rl.2.1
    let jump := rl.2.2
    let n := jy - jp
    let leapJ := leapJ + jsDiv n 33 * 8 + jsDiv (jsMod n 33 + 3) 4
    let leapJ := if jsMod jump 33 = 4 ∧ jump - n = 4 then leapJ + 1 else leapJ
    let leapG := jsDiv gy 4 - jsDiv ((jsDiv gy 100 + 1) * 3) 4 - 150
    let march := 20 + leapJ - leapG
    let n' := if jump - n < 6 then n - jump + jsDiv (jump + 4) 33 * 33 else n
    let leap := jsMod (jsMod (n' + 1) 33 - 1) 4
    let leap := if leap = -1 then 4 else leap
    some ⟨leap, gy, march⟩

/-- Gregorian date to Julian day number. -/
def g2d (gy gm gd : Int) : Int :=
  let d := jsDiv ((gy + jsDiv (gm - 8) 6 + 100100) * 1461) 4
      + jsDiv (153 * jsMod (gm + 9) 12 + 2) 5
      + gd - 34840408
  d - jsDiv (jsDiv (gy + 100100 + jsDiv (gm - 8) 6) 100 * 3) 4 + 752

structure GregDate where
  gy : Int
  gm : Int
  gd : Int
  deriving DecidableEq, Repr

/-- Julian day number to Gregorian date. -/
def d2g (jdn : Int) : GregDate :=
  let j := 4 * jdn + 139361631
  let j := j + jsDiv (jsDiv (4 * jdn + 183187720) 146097 * 3) 4 * 4 - 3908
  let i := jsDiv (jsMod j 1461) 4 * 5 + 308
  let gd := jsDiv (jsMod i 153) 5 + 1
  let gm := jsMod (jsDiv i 153) 12 + 1
  let gy := jsDiv j 1461 - 100100 + jsDiv (8 - gm) 6
  ⟨gy, gm, gd⟩

structure JalaaliDate where
  jy : Int
  jm : Int
  jd : Int
  deriving DecidableEq, Repr

/-- Jalaali date to Julian day number (none when jalCal throws). -/
def j2d (jy jm jd : Int) : Option Int :=
  (jalCal jy).map fun r =>
    g2d r.gy 3 r.march + (jm - 1) * 31 - jsDiv jm 7 * (jm - 7) + jd - 1

/-- Julian day number to Jalaali date (none when jalCal throws). -/
def d2j (jdn : Int) : Option JalaaliDate :=
  let gy := (d2g jdn).gy
  let jy := gy - 621
  (jalCal jy).map fun r =>
    let jdn1f := g2d gy 3 r.march
    let k := jdn - jdn1f
    if k ≥ 0 then
      if k ≤ 185 then
        ⟨jy, 1 + jsDiv k 31, jsMod k 31 + 1⟩
      else
        let k2 := k - 186
        ⟨jy, 7 + jsDiv k2 30, jsMod k2 30 + 1⟩
    else
      let jy2 := jy - 1
      let k2 := k + 179
      let k3 := if r.leap = 1 then k2 + 1 else k2
      ⟨jy2, 7 + jsDiv k3 30, jsMod k3 30 + 1⟩

def toJalaali (gy gm gd : Int) : Option JalaaliDate := d2j (g2d gy gm gd)

def toGregorian (jy jm jd : Int) : Option GregDate := (j2d jy jm jd).map d2g

/-- isLeapJalaaliYear: leap counter of the year equals 0. -/
def isLeapJalaaliYear (jy : Int) : Option Bool := (jalCal jy).map fun r => r.leap = 0

/-! ## src/lib/persian.ts -/

def persianNumbers : List Char := ['۰', '۱', '۲', '۳', '۴', '۵', '۶', '۷', '۸', '۹']

def englishNumbers : List Char := ['0', '1', '2', '3', '4', '5', '6', '7', '8', '9']

/-- One global single-character replacement (the effect of
`str.replace(new RegExp(ch, 'g'), repl)` for a one-character pattern). -/
def replaceAllChar (p e : Char) (s : List Char) : List Char :=
  s.map fun c => if c = p then e else c

/-- persianToEnglish: the loop of ten global replacements ۰→0, …, ۹→9. -/
def persianToEnglish (s : String) : String :=
  ⟨(persianNumbers.zip englishNumbers).foldl (fun r pr => replaceAllChar pr.1 pr.2 r) s.data⟩

/-- englishToPersian: the loop of ten global replacements 0→۰, …, 9→۹. -/
def englishToPersian (s : String) : String :=
  ⟨(englishNumbers.zip persianNumbers).foldl (fun r pr => replaceAllChar pr.1 pr.2 r) s.data⟩

def isJsWhitespace (c : Char) : Bool :=
  c = ' ' ∨ c = '\t' ∨ c = '\n' ∨ c = '\r' ∨ c = '\x0b' ∨ c = '\x0c'

/-- JavaScript String.prototype.trim. -/
def jsTrim (s : String) : String :=
  ⟨(((s.data.dropWhile isJsWhitespace).reverse.dropWhile isJsWhitespace).reverse)⟩

def hexDigitVal (c : Char) : Int :=
  if c.isDigit then (c.toNat : Int) - 48
  else if 'a' ≤ c ∧ c ≤ 'f' then (c.toNat : Int) - 87
  else (c.toNat : Int) - 55

def isHexDigitChar (c : Char) : Bool :=
  c.isDigit ∨ ('a' ≤ c ∧ c ≤ 'f') ∨ ('A' ≤ c ∧ c ≤ 'F')

def digitsValue (base : Int) (val : Char → Int) (cs : List Char) : Int :=
  cs.foldl (fun acc c => acc * base + val c) 0

/-- JavaScript String.prototype.split with a one-character
separator, on the character list of the string. -/
def splitOnChar (sep : Char) : List Char → List (List Char)
  | [] => [[]]
  | c :: rest =>
      match splitOnChar sep rest with
      | [] => if c = sep then [[], []] else [[c]]
      | h :: t => if c = sep then [] :: h :: t else (c :: h) :: t

/-- JavaScript parseInt with radix unspecified: skip leading
whitespace, optional sign, optional 0x/0X hex prefix, then the
longest digit prefix; NaN (none) when no digit is read.  Trailing
non-digit characters are ignored. -/
def jsParseInt (s : List Char) : Option Int :=
  let t := s.dropWhile isJsWhitespace
  let (sign, u) : Int × List Char :=
    match t with
    | '+' :: u => (1, u)
    | '-' :: u => (-1, u)
    | u => (1, u)
  match u with
  | '0' :: 'x' :: v =>
      let ds := v.takeWhile isHexDigitChar
      if ds.isEmpty then none else some (sign * digitsValue 16 hexDigitVal ds)
  | '0' :: 'X' :: v =>
      let ds := v.takeWhile isHexDigitChar
      if ds.isEmpty then none else some (sign * digitsValue 16 hexDigitVal ds)
  | _ =>
      let ds := u.takeWhile Char.isDigit
      if ds.isEmpty then none else some (sign * digitsValue 10 (fun c => (c.toNat : Int) - 48) ds)

/-- gregorianToJalaali(date): toJalaali on the date components. -/
def gregorianToJalaali (date : GregDate) : Option JalaaliDate :=
  toJalaali date.gy date.gm date.gd

/-- jalaaliToGregorian(jy, jm, jd): toGregorian, repackaged as a Date. -/
def jalaaliToGregorian (jy jm jd : Int) : Option GregDate :=
  toGregorian jy jm jd

/-- isPersianLeapYear wraps jalaali.isLeapJalaaliYear. -/
def isPersianLeapYear (year : Int) : Option Bool := isLeapJalaaliYear year

/-- getPersianMonthDays: 31 for months ≤ 6, 30 for months ≤ 11, and
30/29 for month 12 depending on the leap test (which can throw, hence
Option). -/
def getPersianMonthDays (year month : Int) : Option Int :=
  if month ≤ 6 then some 31
  else if month ≤ 11 then some 30
  else (isPersianLeapYear year).map fun l => if l then 30 else 29

/-- parsePersianDate: normalize digits, split on '/', parseInt each
part, validate ranges and the month length, then convert.  The
surrounding try/catch (returning null on a jalaali-js throw) is the
Option plumbing. -/
def parsePersianDate (persianDateStr : String) : Option GregDate :=
  let normalizedStr := persianToEnglish (jsTrim persianDateStr)
  let parts := splitOnChar '/' normalizedStr.data
  match parts with
  | [p0, p1, p2] =>
    match jsParseInt p0, jsParseInt p1, jsParseInt p2 with
    | some jy, some jm, some jd =>
      if jm < 1 ∨ jm > 12 ∨ jd < 1 then none
      else
        match getPersianMonthDays jy jm with
        | none => none
        | some maxDaysInMonth =>
            if jd > maxDaysInMonth then none
            else jalaaliToGregorian jy jm jd
    | _, _, _ => none
  | _ => none

def validatePersianDate (dateStr : String) : Bool :=
  parsePersianDate dateStr ≠ none

/-! ## persianDateUtils.getPersianYearBoundaries (Persian date hooks file) -/

/-- getPersianYearBoundaries: 1 Farvardin to 29/30 Esfand of the
given Persian year (Option: the conversions throw out of range). -/
def getPersianYearBoundaries (persianYear : Int) : Option (GregDate × GregDate) :=
  match jalaaliToGregorian persianYear 1 1, isPersianLeapYear persianYear with
  | some start, some leap =>
      let lastDayOfEsfand : Int := if leap then 30 else 29
      (jalaaliToGregorian persianYear 12 lastDayOfEsfand).map fun e => (start, e)
  | _, _ => none

/-! ## Rial cardex and product movements (src/app/reports/page.tsx) -/

inductive DocumentType where
  | INITIAL_STOCK
  | PURCHASE_INVOICE
  | SALE_INVOICE
  | STOCK_ADJUSTMENT
  deriving DecidableEq, Repr

structure DocumentItem where
  product : Option String
  quantity : ℚ
  unitPrice : ℚ
  totalPrice : ℚ
  deriving DecidableEq, Repr

structure Document where
  documentType : DocumentType
  documentNumber : String
  date : Int
  items : List DocumentItem
  isFinalized : Bool
  deriving DecidableEq, Repr

structure CardexEntry where
  date : Int
  documentType : DocumentType
  documentNumber : String
  quantity : ℚ
  unitPrice : ℚ
  totalPrice : ℚ
  deriving DecidableEq, Repr

structure RialCardexItem where
  date : Int
  documentType : DocumentType
  documentNumber : String
  inQuantity : ℚ
  inUnitPrice : ℚ
  inTotalPrice : ℚ
  outQuantity : ℚ
  outUnitPrice : ℚ
  outTotalPrice : ℚ
  balanceQuantity : ℚ
  balanceUnitPrice : ℚ
  balanceTotalPrice : ℚ
  deriving DecidableEq, Repr

/-- Filter to documents containing an item of the product, then
flatten to one candidate entry per matching (document, item). -/
def cardexEntriesFor (productId : String) (documents : List Document) : List CardexEntry :=
  let productDocuments := documents.filter fun doc =>
    doc.items.any fun item => item.product = some productId
  productDocuments.flatMap fun doc =>
    (doc.items.filter fun item => item.product = some productId).map fun item =>
      { date := doc.date, documentType := doc.documentType,
        documentNumber := doc.documentNumber, quantity := item.quantity,
        unitPrice := item.unitPrice, totalPrice := item.totalPrice }

/-- `cardexEntries.sort((a, b) => a.date - b.date)`: a stable sort by
date (ES2019 Array.prototype.sort is stable; insertion sort computes
the same list as any stable sort under this total preorder). -/
def sortCardexEntries (entries : List CardexEntry) : List CardexEntry :=
  entries.insertionSort fun a b => a.date ≤ b.date

/-- One iteration of the running-balance loop: classify the entry,
update (balanceQuantity, balanceTotalPrice) and emit the row. -/
def cardexStep (bq bv : ℚ) (entry : CardexEntry) : (ℚ × ℚ) × RialCardexItem :=
  let isIncoming := entry.documentType = DocumentType.INITIAL_STOCK ∨
      entry.documentType = DocumentType.PURCHASE_INVOICE
  let isOutgoing := entry.documentType = DocumentType.SALE_INVOICE
  if isIncoming then
    let inQuantity := |entry.quantity|
    let inUnitPrice := entry.unitPrice
    let inTotalPrice := |entry.totalPrice|
    let bq' := bq + inQuantity
    let bv' := bv + inTotalPrice
    let balanceUnitPrice := if bq' > 0 then bv' / bq' else 0
    ((bq', bv'),
      { date := entry.date, documentType := entry.documentType,
        documentNumber := entry.documentNumber,
        inQuantity := inQuantity, inUnitPrice := inUnitPrice, inTotalPrice := inTotalPrice,
        outQuantity := 0, outUnitPrice := 0, outTotalPrice := 0,
        balanceQuantity := bq', balanceUnitPrice := balanceUnitPrice,
        balanceTotalPrice := bv' })
  else if isOutgoing then
    let outQuantity := |entry.quantity|
    let outUnitPrice := entry.unitPrice
    let averagePrice := if bq > 0 then bv / bq else 0
    let outTotalPrice := outQuantity * averagePrice
    let bq' := bq - outQuantity
    let bv' := bv - outTotalPrice
    let bq'' := if bq' < 0 then 0 else bq'
    let bv'' := if bv' < 0 then 0 else bv'
    let balanceUnitPrice := if bq'' > 0 then bv'' / bq'' else 0
    ((bq'', bv''),
      { date := entry.date, documentType := entry.documentType,
        documentNumber := entry.documentNumber,
        inQuantity := 0, inUnitPrice := 0, inTotalPrice := 0,
        outQuantity := outQuantity, outUnitPrice := outUnitPrice,
        outTotalPrice := outTotalPrice,
        balanceQuantity := bq'', balanceUnitPrice := balanceUnitPrice,
        balanceTotalPrice := bv'' })
  else
    let balanceUnitPrice := if bq > 0 then bv / bq else 0
    ((bq, bv),
      { date := entry.date, documentType := entry.documentType,
        documentNumber := entry.documentNumber,
        inQuantity := 0, inUnitPrice := 0, inTotalPrice := 0,
        outQuantity := 0, outUnitPrice := 0, outTotalPrice := 0,
        balanceQuantity := bq, balanceUnitPrice := balanceUnitPrice,
        balanceTotalPrice := bv })

/-- The forEach over sorted entries with the mutable running balance. -/
def processCardexEntries (bq bv : ℚ) : List CardexEntry → List RialCardexItem
  | [] => []
  | e :: es =>
      let s := cardexStep bq bv e
      s.2 :: processCardexEntries s.1.1 s.1.2 es

/-- calculateRialCardex for one product over the fetched documents. -/
def calculateRialCardex (productId : String) (documents : List Document) :
    List RialCardexItem :=
  processCardexEntries 0 0 (sortCardexEntries (cardexEntriesFor productId documents))

structure MovementTotals where
  quantity : ℚ
  unitPrice : ℚ
  totalPrice : ℚ
  deriving DecidableEq, Repr

structure Movements where
  initialStock : MovementTotals
  incoming : MovementTotals
  outgoing : MovementTotals
  balance : MovementTotals
  deriving DecidableEq, Repr

/-- The per-item accumulation of calculateProductMovements. -/
def applyMovementItem (m : Movements) (dt : DocumentType) (item : DocumentItem) :
    Movements :=
  let quantity := |item.quantity|
  let totalPrice := |item.totalPrice|
  if dt = DocumentType.INITIAL_STOCK then
    let q := m.initialStock.quantity + quantity
    let t := m.initialStock.totalPrice + totalPrice
    { m with initialStock := ⟨q, if q > 0 then t / q else 0, t⟩ }
  else if dt = DocumentType.PURCHASE_INVOICE then
    let q := m.incoming.quantity + quantity
    let t := m.incoming.totalPrice + totalPrice
    { m with incoming := ⟨q, if q > 0 then t / q else 0, t⟩ }
  else if dt = DocumentType.SALE_INVOICE then
    let q := m.outgoing.quantity + quantity
    let t := m.outgoing.totalPrice + totalPrice
    { m with outgoing := ⟨q, if q > 0 then t / q else 0, t⟩ }
  else m

/-- calculateProductMovements: the four aggregate buckets. -/
def calculateProductMovements (productId : String) (documents : List Document) :
    Movements :=
  let productDocuments := documents.filter fun doc =>
    doc.items.any fun item => item.product = some productId
  let m := productDocuments.foldl (fun m doc =>
    doc.items.foldl (fun m item =>
      if item.product = some productId then applyMovementItem m doc.documentType item
      else m) m)
    ⟨⟨0, 0, 0⟩, ⟨0, 0, 0⟩, ⟨0, 0, 0⟩, ⟨0, 0, 0⟩⟩
  let bq := m.initialStock.quantity + m.incoming.quantity - m.outgoing.quantity
  let bt := m.initialStock.totalPrice + m.incoming.totalPrice - m.outgoing.totalPrice
  { m with balance := ⟨bq, if bq > 0 then bt / bq else 0, bt⟩ }

/-! ## createDocument (src/graphql/resolvers.ts) -/

inductive MovementType where
  | INITIAL_STOCK
  | PURCHASE
  | SALE
  | ADJUSTMENT_IN
  | ADJUSTMENT_OUT
  deriving DecidableEq, Repr

structure DocumentItemInput where
  productId : String
  quantity : ℚ
  unitPrice : ℚ
  description : Option String
  deriving DecidableEq, Repr

structure CreateDocumentInput where
  documentType : DocumentType
  documentNumber : String
  supplierId : Option String
  customerId : Option String
  items : List DocumentItemInput
  date : Int
  description : Option String
  deriving DecidableEq, Repr

structure StoredItem where
  product : String
  quantity : ℚ
  unitPrice : ℚ
  totalPrice : ℚ
  description : String
  deriving DecidableEq, Repr

structure StoredDocument where
  documentType : DocumentType
  documentNumber : String
  supplier : Option String
  customer : Option String
  items : List StoredItem
  totalAmount : ℚ
  date : Int
  isFinalized : Bool
  deriving DecidableEq, Repr

structure InventoryMovement where
  product : String
  movementType : MovementType
  quantity : ℚ
  unitPrice : ℚ
  totalPrice : ℚ
  date : Int
  deriving DecidableEq, Repr

/-- The persistent state the mutation touches: documents and
inventory movements. -/
structure LedgerState where
  documents : List StoredDocument
  movements : List InventoryMovement
  deriving DecidableEq, Repr

/-- The validation errors createDocument throws before (or while)
writing; the duplicate-number case is the unique index violation
(error code 11000) on (documentNumber, documentType). -/
inductive CreateDocumentError where
  | noItems
  | missingProductId
  | invalidQuantity
  | negativeUnitPrice
  | invalidObjectId
  | missingSupplier
  | missingCustomer
  | duplicateDocumentNumber
  deriving DecidableEq, Repr

/-- The per-item validation loop (productId present, quantity > 0,
unitPrice ≥ 0), in source order. -/
def validateItems : List DocumentItemInput → Except CreateDocumentError Unit
  | [] => Except.ok ()
  | item :: rest =>
      if item.productId = "" then Except.error CreateDocumentError.missingProductId
      else if item.quantity ≤ 0 then Except.error CreateDocumentError.invalidQuantity
      else if item.unitPrice < 0 then Except.error CreateDocumentError.negativeUnitPrice
      else validateItems rest

/-- The /^[0-9a-fA-F]{24}$/ ObjectId check. -/
def isValidObjectId (s : String) : Bool :=
  s.length = 24 ∧ s.data.all isHexDigitChar

/-- The items.map that builds document items, failing on a malformed
productId. -/
def buildDocumentItems : List DocumentItemInput → Except CreateDocumentError (List StoredItem)
  | [] => Except.ok []
  | item :: rest =>
      if ¬ isValidObjectId item.productId then
        Except.error CreateDocumentError.invalidObjectId
      else do
        let tail ← buildDocumentItems rest
        Except.ok ({ product := item.productId, quantity := item.quantity,
                     unitPrice := item.unitPrice,
                     totalPrice := item.quantity * item.unitPrice,
                     description := item.description.getD "" } :: tail)

/-- The fixed documentType → movementType mapping with its sign rule. -/
def movementFor (dt : DocumentType) (item : DocumentItemInput) (date : Int) :
    InventoryMovement :=
  let quantity :=
    match dt with
    | DocumentType.INITIAL_STOCK => |item.quantity|
    | DocumentType.PURCHASE_INVOICE => |item.quantity|
    | DocumentType.SALE_INVOICE => -|item.quantity|
    | DocumentType.STOCK_ADJUSTMENT => item.quantity
  let movementType :=
    match dt with
    | DocumentType.INITIAL_STOCK => MovementType.INITIAL_STOCK
    | DocumentType.PURCHASE_INVOICE => MovementType.PURCHASE
    | DocumentType.SALE_INVOICE => MovementType.SALE
    | DocumentType.STOCK_ADJUSTMENT => MovementType.ADJUSTMENT_IN
  { product := item.productId, movementType := movementType, quantity := quantity,
    unitPrice := item.unitPrice, totalPrice := |quantity| * item.unitPrice, date := date }

/-- createDocument: validations in source order, then the document
write (which enforces the unique (documentNumber, documentType)
index) and one inventory movement per item.  On error, nothing is
written. -/
def createDocument (state : LedgerState) (input : CreateDocumentInput) :
    Except CreateDocumentError LedgerState :=
  if input.items.isEmpty then Except.error CreateDocumentError.noItems
  else
    match validateItems input.items with
    | Except.error e => Except.error e
    | Except.ok _ =>
      match buildDocumentItems input.items with
      | Except.error e => Except.error e
      | Except.ok documentItems =>
        let totalAmount := documentItems.foldl (fun sum item => sum + item.totalPrice) 0
        if input.documentType = DocumentType.PURCHASE_INVOICE ∧ input.supplierId = none then
          Except.error CreateDocumentError.missingSupplier
        else if input.documentType = DocumentType.SALE_INVOICE ∧ input.customerId = none then
          Except.error CreateDocumentError.missingCustomer
        else if state.documents.any fun d =>
            d.documentNumber = input.documentNumber ∧ d.documentType = input.documentType then
          Except.error CreateDocumentError.duplicateDocumentNumber
        else
          let newDocument : StoredDocument :=
            { documentType := input.documentType, documentNumber := input.documentNumber,
              supplier := input.supplierId, customer := input.customerId,
              items := documentItems, totalAmount := totalAmount, date := input.date,
              isFinalized := input.documentType = DocumentType.INITIAL_STOCK }
          let newMovements := input.items.map fun item =>
            movementFor input.documentType item input.date
          Except.ok { documents := state.documents ++ [newDocument],
                      movements := state.movements ++ newMovements }

/-! ## Cardex lemmas -/

/-- Net quantity an entry contributes, as the claim counts it. -/
def cardexNetQuantity (e : CardexEntry) : ℚ :=
  if e.documentType = DocumentType.INITIAL_STOCK ∨
      e.documentType = DocumentType.PURCHASE_INVOICE then |e.quantity|
  else if e.documentType = DocumentType.SALE_INVOICE then -|e.quantity|
  else 0

def cardexStepState (s : ℚ × ℚ) (e : CardexEntry) : ℚ × ℚ := (cardexStep s.1 s.2 e).1

def cardexFinalState (s : ℚ × ℚ) (es : List CardexEntry) : ℚ × ℚ :=
  es.foldl cardexStepState s

/-- A run is clean when every sale fits in the running balance and is
stated at the running weighted-average cost: exactly the situation in
which no clamping occurs and the stated sale totals agree with the
average-costed ones. -/
def CleanRun : (ℚ × ℚ) → List CardexEntry → Prop
  | _, [] => True
  | s, e :: es =>
      (e.documentType = DocumentType.SALE_INVOICE →
        |e.quantity| ≤ s.1 ∧
          |e.totalPrice| = |e.quantity| * (if s.1 > 0 then s.2 / s.1 else 0)) ∧
      CleanRun (cardexStepState s e) es

def entriesOfType (dt : DocumentType) (es : List CardexEntry) : List CardexEntry :=
  es.filter fun e => e.documentType = dt

def sumAbsQty (es : List CardexEntry) : ℚ := (es.map fun e => |e.quantity|).sum

def sumAbsVal (es : List CardexEntry) : ℚ := (es.map fun e => |e.totalPrice|).sum

/-- The entry-level accumulation equivalent to the per-item branches
of calculateProductMovements. -/
def summaryFold (pid : String) (es : List CardexEntry) (m : Movements) : Movements :=
  es.foldl (fun m e => applyMovementItem m e.documentType
    ⟨some pid, e.quantity, e.unitPrice, e.totalPrice⟩) m

def marchOf (C jp jump jy : Int) : Int :=
  20 + (C + (jy - jp) / 33 * 8 + ((jy - jp) % 33 + 3) / 4
    + (if jump % 33 = 4 ∧ jump - (jy - jp) = 4 then 1 else 0))
    - ((jy + 621) / 4 - ((jy + 621) / 100 + 1) * 3 / 4 - 150)


def nprimeOf (jp jump jy : Int) : Int :=
  if jump - (jy - jp) < 6 then jy - jp - jump + (jump + 4) / 33 * 33 else jy - jp


def leapOf (jp jump jy : Int) : Int :=
  if (nprimeOf jp jump jy + 1) % 33 = 0 then 4
  else ((nprimeOf jp jump jy + 1) % 33 - 1) % 4

def gregValid (y m d : Int) : Prop :=
  1 ≤ m ∧ m ≤ 12 ∧ 1 ≤ d ∧ d ≤ 31 ∧
    (m = 2 → d ≤ 28 ∨ (d ≤ 29 ∧ ((y % 4 = 0 ∧ y % 100 ≠ 0) ∨ y % 400 = 0))) ∧
    ((m = 4 ∨ m = 6 ∨ m = 9 ∨ m = 11) → d ≤ 30)


/-- The new running state and the row balance agree, and the state
stays componentwise nonnegative. -/
lemma cardexStep_inv (bq bv : ℚ) (e : CardexEntry) (h1 : 0 ≤ bq) (h2 : 0 ≤ bv) :
    0 ≤ (cardexStep bq bv e).1.1 ∧ 0 ≤ (cardexStep bq bv e).1.2 ∧
      (cardexStep bq bv e).2.balanceQuantity = (cardexStep bq bv e).1.1 ∧
      (cardexStep bq bv e).2.balanceTotalPrice = (cardexStep bq bv e).1.2 := by
  simp only [cardexStep]
  split_ifs <;>
    refine ⟨?_, ?_, rfl, rfl⟩ <;>
    dsimp only <;>
    (try simp only [mul_zero]) <;>
    first
      | positivity
      | linarith [abs_nonneg e.quantity, abs_nonneg e.totalPrice]

/-- Every row's balance fields are nonnegative, from any
componentwise-nonnegative start state. -/
lemma processCardexEntries_nonneg (es : List CardexEntry) :
    ∀ bq bv : ℚ, 0 ≤ bq → 0 ≤ bv →
      ∀ row ∈ processCardexEntries bq bv es,
        0 ≤ row.balanceQuantity ∧ 0 ≤ row.balanceTotalPrice := by
  induction es with
  | nil => intro bq bv _ _ row hrow; simp [processCardexEntries] at hrow
  | cons e es ih =>
      intro bq bv h1 h2 row hrow
      obtain ⟨hs1, hs2, hb1, hb2⟩ := cardexStep_inv bq bv e h1 h2
      simp only [processCardexEntries, List.mem_cons] at hrow
      rcases hrow with rfl | hrow
      · exact ⟨hb1 ▸ hs1, hb2 ▸ hs2⟩
      · exact ih _ _ hs1 hs2 row hrow

/-- C6: in calculateRialCardex, for every input sequence whose
cumulative net quantity is nonnegative at every prefix, the running
state satisfies balanceQuantity ≥ 0 and balanceTotalPrice ≥ 0 after
every processed entry (negative values are clamped to zero). -/
theorem rialCardex_balances_nonneg (productId : String) (documents : List Document)
    (hnet : ∀ n ≤ (sortCardexEntries (cardexEntriesFor productId documents)).length,
      0 ≤ (((sortCardexEntries (cardexEntriesFor productId documents)).take n).map
        cardexNetQuantity).sum) :
    ∀ row ∈ calculateRialCardex productId documents,
      0 ≤ row.balanceQuantity ∧ 0 ≤ row.balanceTotalPrice := by
  intro row hrow
  exact processCardexEntries_nonneg _ 0 0 le_rfl le_rfl row hrow

/-- C6 witness. -/
theorem rialCardex_balances_nonneg_witness :
    (∀ n ≤ (sortCardexEntries (cardexEntriesFor "P"
        [⟨DocumentType.INITIAL_STOCK, "D1", 1, [⟨some "P", 10, 100, 1000⟩], true⟩])).length,
      0 ≤ (((sortCardexEntries (cardexEntriesFor "P"
        [⟨DocumentType.INITIAL_STOCK, "D1", 1, [⟨some "P", 10, 100, 1000⟩], true⟩])).take n).map
        cardexNetQuantity).sum) ∧
    ∀ row ∈ calculateRialCardex "P"
        [⟨DocumentType.INITIAL_STOCK, "D1", 1, [⟨some "P", 10, 100, 1000⟩], true⟩],
      0 ≤ row.balanceQuantity ∧ 0 ≤ row.balanceTotalPrice := by
  have hes : sortCardexEntries (cardexEntriesFor "P"
      [⟨DocumentType.INITIAL_STOCK, "D1", 1, [⟨some "P", 10, 100, 1000⟩], true⟩]) =
      [⟨1, DocumentType.INITIAL_STOCK, "D1", 10, 100, 1000⟩] := rfl
  have hb : ∀ n ≤ (sortCardexEntries (cardexEntriesFor "P"
      [⟨DocumentType.INITIAL_STOCK, "D1", 1, [⟨some "P", 10, 100, 1000⟩], true⟩])).length,
      0 ≤ (((sortCardexEntries (cardexEntriesFor "P"
        [⟨DocumentType.INITIAL_STOCK, "D1", 1, [⟨some "P", 10, 100, 1000⟩], true⟩])).take n).map
        cardexNetQuantity).sum := by
    rw [hes]
    intro n hn
    simp only [List.length_cons, List.length_nil] at hn
    interval_cases n <;> norm_num [cardexNetQuantity]
  exact ⟨hb, rialCardex_balances_nonneg _ _ hb⟩

/-- C1: an outgoing (SALE_INVOICE) entry is costed at the current
weighted average, not at its own stated unitPrice: outTotalPrice is
outQuantity times balanceTotalPrice/balanceQuantity (0 when the
balance quantity is not positive), the stated price only lands in the
display field outUnitPrice; and on the concrete scenario
INITIAL_STOCK 10 @ 100, PURCHASE 10 @ 200, then SALE of 5 units, the
sale row has outTotalPrice 750 and balance (15, 150, 2250) whatever
the sale's stated unitPrice and totalPrice are. -/
theorem sale_costed_at_weighted_average :
    (∀ (bq bv : ℚ) (e : CardexEntry), e.documentType = DocumentType.SALE_INVOICE →
      (cardexStep bq bv e).2.outTotalPrice =
          |e.quantity| * (if bq > 0 then bv / bq else 0) ∧
        (cardexStep bq bv e).2.outUnitPrice = e.unitPrice) ∧
    ∀ p tp : ℚ,
      (calculateRialCardex "P"
        [⟨DocumentType.INITIAL_STOCK, "D1", 1, [⟨some "P", 10, 100, 1000⟩], true⟩,
         ⟨DocumentType.PURCHASE_INVOICE, "D2", 2, [⟨some "P", 10, 200, 2000⟩], false⟩,
         ⟨DocumentType.SALE_INVOICE, "D3", 3, [⟨some "P", 5, p, tp⟩], false⟩]).map
          (fun row => (row.outTotalPrice, row.balanceQuantity, row.balanceUnitPrice,
            row.balanceTotalPrice)) =
        [(0, 10, 100, 1000), (0, 20, 150, 3000), (750, 15, 150, 2250)] := by
  constructor
  · intro bq bv e h
    simp only [cardexStep]
    rw [if_neg (by simp [h]), if_pos (by simp [h])]
    exact ⟨rfl, rfl⟩
  · intro p tp
    simp only [calculateRialCardex, cardexEntriesFor, sortCardexEntries,
      List.insertionSort, List.orderedInsert, List.filter, List.flatMap, List.map,
      List.any, processCardexEntries, cardexStep]
    norm_num
    simp

/-- C1 witness (the first conjunct has a hypothesis). -/
theorem sale_costed_at_weighted_average_witness :
    (cardexStep 20 3000 ⟨3, DocumentType.SALE_INVOICE, "D3", 5, 77, 888⟩).2.outTotalPrice =
        |(5 : ℚ)| * (if (20 : ℚ) > 0 then (3000 : ℚ) / 20 else 0) ∧
      (cardexStep 20 3000 ⟨3, DocumentType.SALE_INVOICE, "D3", 5, 77, 888⟩).2.outUnitPrice = 77 :=
  sale_costed_at_weighted_average.1 20 3000 ⟨3, DocumentType.SALE_INVOICE, "D3", 5, 77, 888⟩ rfl

/-- C8: a STOCK_ADJUSTMENT entry still yields a cardex row, with all
in/out fields zero and the balance fields exactly the pre-row state;
and the cardex emits one row per entry. -/
theorem adjustment_entries_are_frame_neutral :
    (∀ (bq bv : ℚ) (e : CardexEntry), e.documentType = DocumentType.STOCK_ADJUSTMENT →
      cardexStep bq bv e = ((bq, bv),
        { date := e.date, documentType := e.documentType,
          documentNumber := e.documentNumber,
          inQuantity := 0, inUnitPrice := 0, inTotalPrice := 0,
          outQuantity := 0, outUnitPrice := 0, outTotalPrice := 0,
          balanceQuantity := bq, balanceUnitPrice := if bq > 0 then bv / bq else 0,
          balanceTotalPrice := bv })) ∧
    ∀ (bq bv : ℚ) (es : List CardexEntry),
      (processCardexEntries bq bv es).length = es.length := by
  constructor
  · intro bq bv e h
    simp only [cardexStep]
    rw [if_neg (by simp [h]), if_neg (by simp [h])]
  · intro bq bv es
    induction es generalizing bq bv with
    | nil => rfl
    | cons e es ih => simp [processCardexEntries, ih]

/-- C8 witness. -/
theorem adjustment_entries_are_frame_neutral_witness :
    cardexStep 7 21 ⟨5, DocumentType.STOCK_ADJUSTMENT, "A1", 4, 9, 36⟩ = ((7, 21),
      { date := 5, documentType := DocumentType.STOCK_ADJUSTMENT,
        documentNumber := "A1",
        inQuantity := 0, inUnitPrice := 0, inTotalPrice := 0,
        outQuantity := 0, outUnitPrice := 0, outTotalPrice := 0,
        balanceQuantity := 7, balanceUnitPrice := if (7 : ℚ) > 0 then 21 / 7 else 0,
        balanceTotalPrice := 21 }) :=
  adjustment_entries_are_frame_neutral.1 7 21 ⟨5, DocumentType.STOCK_ADJUSTMENT, "A1", 4, 9, 36⟩ rfl

/-! ## createDocument lemmas -/

/-- The item-validation loop accepts only positive quantities and
nonnegative unit prices. -/
lemma validateItems_ok_forall (items : List DocumentItemInput) :
    validateItems items = Except.ok () →
      ∀ item ∈ items, 0 < item.quantity ∧ 0 ≤ item.unitPrice := by
  induction items with
  | nil => intro _ item hm; simp at hm
  | cons it rest ih =>
      intro h item hm
      unfold validateItems at h
      split_ifs at h with h1 h2 h3
      rcases List.mem_cons.1 hm with rfl | hm
      · exact ⟨not_le.1 h2, not_lt.1 h3⟩
      · exact ih h item hm

/-- What a successful createDocument implies about its input. -/
lemma createDocument_ok_sound (state : LedgerState) (input : CreateDocumentInput)
    (out : LedgerState) (h : createDocument state input = Except.ok out) :
    input.items ≠ [] ∧
      (∀ item ∈ input.items, 0 < item.quantity ∧ 0 ≤ item.unitPrice) ∧
      ¬ (∃ d ∈ state.documents, d.documentNumber = input.documentNumber ∧
          d.documentType = input.documentType) ∧
      ¬ (input.documentType = DocumentType.PURCHASE_INVOICE ∧ input.supplierId = none) ∧
      ¬ (input.documentType = DocumentType.SALE_INVOICE ∧ input.customerId = none) := by
  unfold createDocument at h
  by_cases hemp : input.items.isEmpty
  · rw [if_pos hemp] at h; cases h
  · rw [if_neg hemp] at h
    rcases hval : validateItems input.items with ev | u
    · rw [hval] at h; cases h
    · rw [hval] at h
      rcases hbuild : buildDocumentItems input.items with eb | its
      · rw [hbuild] at h
        cases h
      · rw [hbuild] at h
        dsimp only at h
        split_ifs at h with hA hB hdup <;> try cases h
        refine ⟨fun hc => hemp (by simp [hc]), ?_, ?_, hA, hB⟩
        · cases u; exact validateItems_ok_forall input.items hval
        · intro hex
          exact hdup (by simpa [List.any_eq_true] using hex)

/-- C7: createDocument fails with a ValidationError, writing no
document and no inventory movements, whenever the items list is
empty, or some item has quantity ≤ 0 or unitPrice < 0, or the
documentNumber already exists for that document type, or a
PURCHASE_INVOICE lacks a supplier, or a SALE_INVOICE lacks a
customer. -/
theorem createDocument_rejects_invalid (state : LedgerState) (input : CreateDocumentInput)
    (h : input.items = [] ∨
      (∃ item ∈ input.items, item.quantity ≤ 0 ∨ item.unitPrice < 0) ∨
      (∃ d ∈ state.documents, d.documentNumber = input.documentNumber ∧
        d.documentType = input.documentType) ∨
      (input.documentType = DocumentType.PURCHASE_INVOICE ∧ input.supplierId = none) ∨
      (input.documentType = DocumentType.SALE_INVOICE ∧ input.customerId = none)) :
    ∃ e, createDocument state input = Except.error e := by
  rcases hres : createDocument state input with e | out
  · exact ⟨e, rfl⟩
  · exfalso
    obtain ⟨hne, hitems, hnodup, hsup, hcust⟩ := createDocument_ok_sound state input out hres
    rcases h with h | ⟨item, hm, hbad⟩ | hex | h | h
    · exact hne h
    · rcases hbad with h | h
      · exact absurd (hitems item hm).1 (not_lt.2 h)
      · exact absurd (hitems item hm).2 (not_le.2 h)
    · exact hnodup hex
    · exact hsup h
    · exact hcust h

/-- C7 witness: the empty-items case on an empty ledger. -/
theorem createDocument_rejects_invalid_witness :
    ∃ e, createDocument ⟨[], []⟩
        ⟨DocumentType.INITIAL_STOCK, "1", none, none, [], 0, none⟩ = Except.error e :=
  createDocument_rejects_invalid ⟨[], []⟩
    ⟨DocumentType.INITIAL_STOCK, "1", none, none, [], 0, none⟩ (Or.inl rfl)

/-! ## Digit translation lemmas -/

lemma zip_persian_english : persianNumbers.zip englishNumbers =
    [('۰', '0'), ('۱', '1'), ('۲', '2'), ('۳', '3'), ('۴', '4'),
     ('۵', '5'), ('۶', '6'), ('۷', '7'), ('۸', '8'), ('۹', '9')] := rfl

lemma zip_english_persian : englishNumbers.zip persianNumbers =
    [('0', '۰'), ('1', '۱'), ('2', '۲'), ('3', '۳'), ('4', '۴'),
     ('5', '۵'), ('6', '۶'), ('7', '۷'), ('8', '۸'), ('9', '۹')] := rfl

/-- A left fold of single-character global replacements acts
characterwise. -/
lemma foldl_replaceAllChar (prs : List (Char × Char)) (l : List Char) :
    prs.foldl (fun r pr => replaceAllChar pr.1 pr.2 r) l =
      l.map (fun c => prs.foldl (fun x pr => if x = pr.1 then pr.2 else x) c) := by
  induction prs generalizing l with
  | nil => simp
  | cons pr prs ih =>
      rw [List.foldl_cons, ih]
      simp only [replaceAllChar, List.map_map]
      rfl

/-- On a character that is not a Persian digit glyph, the
english→persian then persian→english character substitutions cancel. -/
lemma digit_char_roundtrip (c : Char) (h : c ∉ persianNumbers) :
    (persianNumbers.zip englishNumbers).foldl (fun x pr => if x = pr.1 then pr.2 else x)
      ((englishNumbers.zip persianNumbers).foldl
        (fun x pr => if x = pr.1 then pr.2 else x) c) = c := by
  by_cases hc : c ∈ englishNumbers
  · fin_cases hc <;> rfl
  · simp only [persianNumbers, List.mem_cons, List.not_mem_nil, or_false, not_or] at h
    simp only [englishNumbers, List.mem_cons, List.not_mem_nil, or_false, not_or] at hc
    obtain ⟨p0, p1, p2, p3, p4, p5, p6, p7, p8, p9⟩ := h
    obtain ⟨e0, e1, e2, e3, e4, e5, e6, e7, e8, e9⟩ := hc
    simp only [zip_persian_english, zip_english_persian, List.foldl_cons, List.foldl_nil,
      if_neg e0, if_neg e1, if_neg e2, if_neg e3, if_neg e4, if_neg e5, if_neg e6,
      if_neg e7, if_neg e8, if_neg e9,
      if_neg p0, if_neg p1, if_neg p2, if_neg p3, if_neg p4, if_neg p5, if_neg p6,
      if_neg p7, if_neg p8, if_neg p9]

/-- Mapping f then g is the identity when g cancels f on every
element. -/
lemma map_map_cancel (l : List Char) (f g : Char → Char)
    (h : ∀ c ∈ l, g (f c) = c) : (l.map f).map g = l := by
  induction l with
  | nil => rfl
  | cons c l ih =>
      simp only [List.map_cons, List.cons.injEq]
      exact ⟨h c (List.mem_cons_self c l), ih fun x hx => h x (List.mem_cons_of_mem c hx)⟩

/-- C10: on every string with no Persian digit glyphs,
persianToEnglish inverts englishToPersian, so digit normalization at
the parse boundary loses no information. -/
theorem persian_digit_translation_roundtrip (s : String)
    (h : ∀ c ∈ s.data, c ∉ persianNumbers) :
    persianToEnglish (englishToPersian s) = s := by
  have h1 : ∀ t : String, (persianToEnglish t).data =
      (persianNumbers.zip englishNumbers).foldl
        (fun r pr => replaceAllChar pr.1 pr.2 r) t.data := fun t => rfl
  have h2 : ∀ t : String, (englishToPersian t).data =
      (englishNumbers.zip persianNumbers).foldl
        (fun r pr => replaceAllChar pr.1 pr.2 r) t.data := fun t => rfl
  apply String.ext
  rw [h1, h2, foldl_replaceAllChar, foldl_replaceAllChar]
  exact map_map_cancel s.data _ _ fun c hc => digit_char_roundtrip c (h c hc)

set_option maxHeartbeats 1000000 in
/-- C10 witness. -/
theorem persian_digit_translation_roundtrip_witness :
    (∀ c ∈ ("a1".data), c ∉ persianNumbers) ∧
      persianToEnglish (englishToPersian "a1") = "a1" :=
  ⟨by decide, persian_digit_translation_roundtrip "a1" (by decide)⟩

/-! ## parsePersianDate lemmas -/

lemma jalCal_ne_none_iff (jy : Int) : jalCal jy ≠ none ↔ (-61 ≤ jy ∧ jy < 3178) := by
  unfold jalCal
  split_ifs with h <;> simp <;> omega

lemma jalaaliToGregorian_ne_none_iff (jy jm jd : Int) :
    jalaaliToGregorian jy jm jd ≠ none ↔ (-61 ≤ jy ∧ jy < 3178) := by
  unfold jalaaliToGregorian toGregorian j2d
  cases hc : jalCal jy with
  | none =>
      have hr : ¬ (-61 ≤ jy ∧ jy < 3178) := fun h => (jalCal_ne_none_iff jy).2 h hc
      simp [hr]
  | some r =>
      have hr := (jalCal_ne_none_iff jy).1 (by simp [hc])
      simp [hr]

set_option maxHeartbeats 2000000 in
/-- C9: parsePersianDate accepts inputs that are not three numeric
parts: parseInt ignores trailing non-numeric characters, so
"1403/01/05abc" parses like "1403/01/05" to a non-null date. -/
theorem parse_accepts_trailing_garbage :
    parsePersianDate "1403/01/05abc" ≠ none ∧
      parsePersianDate "1403/01/05abc" = parsePersianDate "1403/01/05" ∧
      parsePersianDate "1403/01/05abc" = some ⟨2024, 3, 24⟩ ∧
      ¬ (∀ p ∈ splitOnChar '/' (persianToEnglish (jsTrim "1403/01/05abc")).data,
          p ≠ [] ∧ ∀ c ∈ p, c.isDigit) := by
  refine ⟨by decide, by decide, by decide, ?_⟩
  intro hall
  have := (hall ['0', '5', 'a', 'b', 'c'] (by decide)).2 'a' (by decide)
  exact absurd this (by decide)

/-- Packaging of the success conditions of parsePersianDate once the
three parts and their parseInt values are fixed. -/
lemma parse_exists_iff (p0 p1 p2 : List Char) (jy jm jd : Int)
    (h0 : jsParseInt p0 = some jy) (h1 : jsParseInt p1 = some jm)
    (h2 : jsParseInt p2 = some jd) :
    (∃ (a b c : List Char) (jy' jm' jd' L : Int),
        ([p0, p1, p2] : List (List Char)) = [a, b, c] ∧
        jsParseInt a = some jy' ∧ jsParseInt b = some jm' ∧ jsParseInt c = some jd' ∧
        1 ≤ jm' ∧ jm' ≤ 12 ∧ 1 ≤ jd' ∧
        getPersianMonthDays jy' jm' = some L ∧ jd' ≤ L ∧ -61 ≤ jy' ∧ jy' < 3178) ↔
      (1 ≤ jm ∧ jm ≤ 12 ∧ 1 ≤ jd ∧
        ∃ L, getPersianMonthDays jy jm = some L ∧ jd ≤ L ∧ -61 ≤ jy ∧ jy < 3178) := by
  constructor
  · rintro ⟨a, b, c, jy', jm', jd', L, heq, ha, hb, hc, hm1, hm2, hd1, hL, hdL, hy1, hy2⟩
    obtain ⟨rfl, rfl, rfl⟩ : p0 = a ∧ p1 = b ∧ p2 = c := by simpa using heq
    rw [h0] at ha; rw [h1] at hb; rw [h2] at hc
    obtain rfl : jy = jy' := by simpa using ha
    obtain rfl : jm = jm' := by simpa using hb
    obtain rfl : jd = jd' := by simpa using hc
    exact ⟨hm1, hm2, hd1, L, hL, hdL, hy1, hy2⟩
  · rintro ⟨hm1, hm2, hd1, L, hL, hdL, hy1, hy2⟩
    exact ⟨p0, p1, p2, jy, jm, jd, L, rfl, h0, h1, h2, hm1, hm2, hd1, hL, hdL, hy1, hy2⟩

set_option maxHeartbeats 2000000 in
/-- C4 (amended): parsePersianDate is total (never throws) and
returns null exactly when: the trimmed, digit-normalized input does
not split on '/' into exactly three parts from each of which parseInt
reads a number, or the month is outside 1-12, or the day is < 1, or
the day exceeds getPersianMonthDays(year, month), or the year is
outside the jalaali-supported range -61 <= y < 3178; on the four
cited inputs it behaves exactly as claimed. -/
theorem parsePersianDate_none_characterization :
    (∀ s : String, parsePersianDate s = none ↔
      ¬ ∃ (p0 p1 p2 : List Char) (jy jm jd L : Int),
        splitOnChar '/' (persianToEnglish (jsTrim s)).data = [p0, p1, p2] ∧
        jsParseInt p0 = some jy ∧ jsParseInt p1 = some jm ∧ jsParseInt p2 = some jd ∧
        1 ≤ jm ∧ jm ≤ 12 ∧ 1 ≤ jd ∧
        getPersianMonthDays jy jm = some L ∧ jd ≤ L ∧ -61 ≤ jy ∧ jy < 3178) ∧
    parsePersianDate "1403/12/30" ≠ none ∧ parsePersianDate "1403/12/31" = none ∧
      parsePersianDate "1402/12/30" = none ∧ parsePersianDate "1402/12/29" ≠ none := by
  refine ⟨?_, by decide, by decide, by decide, by decide⟩
  intro s
  simp only [parsePersianDate]
  rcases hp : splitOnChar '/' (persianToEnglish (jsTrim s)).data with _ | ⟨p0, _ | ⟨p1, _ | ⟨p2, _ | ⟨p3, rest⟩⟩⟩⟩ <;>
    simp only [hp]
  · simp
  · simp
  · simp
  · rcases h0 : jsParseInt p0 with _ | jy
    · simp [h0]
    rcases h1 : jsParseInt p1 with _ | jm
    · simp [h0, h1]
    rcases h2 : jsParseInt p2 with _ | jd
    · simp [h0, h1, h2]
    simp only [h0, h1, h2]
    rw [not_congr (parse_exists_iff p0 p1 p2 jy jm jd h0 h1 h2)]
    split_ifs with hrange
    · refine ⟨fun _ => ?_, fun _ => rfl⟩
      rintro ⟨hm1, hm2, hd1, _⟩
      omega
    · cases hm : getPersianMonthDays jy jm with
      | none =>
          refine ⟨fun _ => ?_, fun _ => rfl⟩
          rintro ⟨_, _, _, L, hL, _⟩
          cases hL
      | some L =>
          dsimp only
          split_ifs with hdL
          · refine ⟨fun _ => ?_, fun _ => rfl⟩
            rintro ⟨hm1, hm2, hd1, L2, hL2, hdL2, hy1, hy2⟩
            obtain rfl : L = L2 := by simpa using hL2
            omega
          · constructor
            · intro hnone hq
              obtain ⟨_, _, _, L2, hL2, _, hy1, hy2⟩ := hq
              exact (jalaaliToGregorian_ne_none_iff jy jm jd).2 ⟨hy1, hy2⟩ hnone
            · intro hne
              by_cases hsome : jalaaliToGregorian jy jm jd = none
              · exact hsome
              · exfalso
                have hr := (jalaaliToGregorian_ne_none_iff jy jm jd).1 hsome
                exact hne ⟨by omega, by omega, by omega, L, rfl, by omega, hr.1, hr.2⟩
  · refine ⟨fun _ => ?_, fun _ => trivial⟩
    rintro ⟨a, b, c, _, _, _, _, heq, _⟩
    simp at heq

set_option maxHeartbeats 2000000 in
/-- C4 (counterexample to the claim as stated): "1403/01/05x" does
not consist of three numeric parts, yet parsePersianDate accepts it;
and "9999/01/01" has three numeric parts, month 1 in 1-12, day 1 in
range for getPersianMonthDays 9999 1 = 31, yet parsePersianDate
returns null (jalaali-js throws on the out-of-range year, caught to
null). -/
theorem parsePersianDate_claim_counterexample :
    (parsePersianDate "1403/01/05x" ≠ none ∧
      ¬ ∀ p ∈ splitOnChar '/' (persianToEnglish (jsTrim "1403/01/05x")).data,
          p ≠ [] ∧ ∀ c ∈ p, c.isDigit) ∧
    (parsePersianDate "9999/01/01" = none ∧
      (∀ p ∈ splitOnChar '/' (persianToEnglish (jsTrim "9999/01/01")).data,
          p ≠ [] ∧ ∀ c ∈ p, c.isDigit) ∧
      splitOnChar '/' (persianToEnglish (jsTrim "9999/01/01")).data =
        [['9', '9', '9', '9'], ['0', '1'], ['0', '1']] ∧
      jsParseInt ['9', '9', '9', '9'] = some 9999 ∧
      jsParseInt ['0', '1'] = some 1 ∧
      getPersianMonthDays 9999 1 = some 31 ∧ (1 : Int) ≤ 1 ∧ (1 : Int) ≤ 12 ∧
      (1 : Int) ≤ 31) := by
  refine ⟨⟨by decide, ?_⟩, by decide, by decide, by decide, by decide, by decide,
    by decide, by decide, by decide, by decide⟩
  intro hall
  have := (hall ['0', '5', 'x'] (by decide)).2 'x' (by decide)
  exact absurd this (by decide)

/-! ## Summary vs cardex (C2) -/

lemma cardexStepState_incoming (s : ℚ × ℚ) (e : CardexEntry)
    (h : e.documentType = DocumentType.INITIAL_STOCK ∨
      e.documentType = DocumentType.PURCHASE_INVOICE) :
    cardexStepState s e = (s.1 + |e.quantity|, s.2 + |e.totalPrice|) := by
  simp only [cardexStepState, cardexStep, if_pos h]

lemma cardexStepState_other (s : ℚ × ℚ) (e : CardexEntry)
    (h1 : ¬ (e.documentType = DocumentType.INITIAL_STOCK ∨
      e.documentType = DocumentType.PURCHASE_INVOICE))
    (h2 : ¬ e.documentType = DocumentType.SALE_INVOICE) :
    cardexStepState s e = s := by
  simp only [cardexStepState, cardexStep, if_neg h1, if_neg h2]

lemma cardexStepState_clean_sale (s : ℚ × ℚ) (e : CardexEntry)
    (hq1 : 0 ≤ s.1) (hq2 : 0 ≤ s.2)
    (hsale : e.documentType = DocumentType.SALE_INVOICE)
    (hfit : |e.quantity| ≤ s.1)
    (havg : |e.totalPrice| = |e.quantity| * (if s.1 > 0 then s.2 / s.1 else 0)) :
    cardexStepState s e = (s.1 - |e.quantity|, s.2 - |e.totalPrice|) := by
  have hnin : ¬ (e.documentType = DocumentType.INITIAL_STOCK ∨
      e.documentType = DocumentType.PURCHASE_INVOICE) := by simp [hsale]
  have hout : |e.quantity| * (if s.1 > 0 then s.2 / s.1 else 0) ≤ s.2 := by
    split_ifs with hpos
    · have h1 : |e.quantity| * (s.2 / s.1) ≤ s.1 * (s.2 / s.1) :=
        mul_le_mul_of_nonneg_right hfit (div_nonneg hq2 hq1)
      have h2 : s.1 * (s.2 / s.1) = s.2 := by
        rw [mul_comm, div_mul_cancel₀]
        exact ne_of_gt hpos
      linarith
    · simpa using hq2
  simp only [cardexStepState, cardexStep, if_neg hnin, if_pos hsale]
  rw [if_neg (by linarith), if_neg (by rw [← havg] at hout; linarith)]
  rw [← havg]

/-- Under a clean run from a nonnegative state, the final running
balance is the start state plus per-type sums: initial-stock and
purchase quantities/values in, sale quantities/values out. -/
lemma cardexFinalState_clean (es : List CardexEntry) :
    ∀ s : ℚ × ℚ, 0 ≤ s.1 → 0 ≤ s.2 → CleanRun s es →
      cardexFinalState s es =
        (s.1 + sumAbsQty (entriesOfType DocumentType.INITIAL_STOCK es)
            + sumAbsQty (entriesOfType DocumentType.PURCHASE_INVOICE es)
            - sumAbsQty (entriesOfType DocumentType.SALE_INVOICE es),
         s.2 + sumAbsVal (entriesOfType DocumentType.INITIAL_STOCK es)
            + sumAbsVal (entriesOfType DocumentType.PURCHASE_INVOICE es)
            - sumAbsVal (entriesOfType DocumentType.SALE_INVOICE es)) := by
  induction es with
  | nil =>
      intro s h1 h2 _
      simp [cardexFinalState, entriesOfType, sumAbsQty, sumAbsVal]
  | cons e es ih =>
      intro s h1 h2 hclean
      obtain ⟨hsalehyp, htail⟩ := hclean
      have hstep : cardexFinalState s (e :: es) =
          cardexFinalState (cardexStepState s e) es := rfl
      have habsq := abs_nonneg e.quantity
      have habsv := abs_nonneg e.totalPrice
      rcases hdt : e.documentType
      · have hin : e.documentType = DocumentType.INITIAL_STOCK ∨
            e.documentType = DocumentType.PURCHASE_INVOICE := Or.inl hdt
        rw [cardexStepState_incoming s e hin] at htail
        rw [hstep, cardexStepState_incoming s e hin,
          ih (s.1 + |e.quantity|, s.2 + |e.totalPrice|)
            (by dsimp only; linarith) (by dsimp only; linarith) htail]
        simp [entriesOfType, sumAbsQty, sumAbsVal, List.filter_cons, hdt, Prod.ext_iff]
        constructor <;> ring
      · have hin : e.documentType = DocumentType.INITIAL_STOCK ∨
            e.documentType = DocumentType.PURCHASE_INVOICE := Or.inr hdt
        rw [cardexStepState_incoming s e hin] at htail
        rw [hstep, cardexStepState_incoming s e hin,
          ih (s.1 + |e.quantity|, s.2 + |e.totalPrice|)
            (by dsimp only; linarith) (by dsimp only; linarith) htail]
        simp [entriesOfType, sumAbsQty, sumAbsVal, List.filter_cons, hdt, Prod.ext_iff]
        constructor <;> ring
      · obtain ⟨hfit, havg⟩ := hsalehyp hdt
        have hout : |e.totalPrice| ≤ s.2 := by
          rw [havg]
          split_ifs with hpos
          · have hmul : |e.quantity| * (s.2 / s.1) ≤ s.1 * (s.2 / s.1) :=
              mul_le_mul_of_nonneg_right hfit (div_nonneg h2 h1)
            have hcancel : s.1 * (s.2 / s.1) = s.2 := by
              rw [mul_comm, div_mul_cancel₀]
              exact ne_of_gt hpos
            linarith
          · simpa using h2
        rw [cardexStepState_clean_sale s e h1 h2 hdt hfit havg] at htail
        rw [hstep, cardexStepState_clean_sale s e h1 h2 hdt hfit havg,
          ih (s.1 - |e.quantity|, s.2 - |e.totalPrice|)
            (by dsimp only; linarith) (by dsimp only; linarith) htail]
        simp [entriesOfType, sumAbsQty, sumAbsVal, List.filter_cons, hdt, Prod.ext_iff]
        constructor <;> ring
      · have hnin : ¬ (e.documentType = DocumentType.INITIAL_STOCK ∨
            e.documentType = DocumentType.PURCHASE_INVOICE) := by simp [hdt]
        have hns : ¬ e.documentType = DocumentType.SALE_INVOICE := by simp [hdt]
        rw [cardexStepState_other s e hnin hns] at htail
        rw [hstep, cardexStepState_other s e hnin hns, ih s h1 h2 htail]
        simp [entriesOfType, sumAbsQty, sumAbsVal, List.filter_cons, hdt]

lemma cardexStep_row_balance (bq bv : ℚ) (e : CardexEntry) :
    (cardexStep bq bv e).2.balanceQuantity = (cardexStep bq bv e).1.1 ∧
      (cardexStep bq bv e).2.balanceTotalPrice = (cardexStep bq bv e).1.2 ∧
      (cardexStep bq bv e).2.balanceUnitPrice =
        (if (cardexStep bq bv e).1.1 > 0 then
          (cardexStep bq bv e).1.2 / (cardexStep bq bv e).1.1 else 0) := by
  simp only [cardexStep]
  split_ifs <;> simp_all

/-- The last cardex row carries exactly the final running balance. -/
lemma processCardexEntries_getLast (es : List CardexEntry) (h : es ≠ []) :
    ∀ bq bv : ℚ, ∃ last, (processCardexEntries bq bv es).getLast? = some last ∧
      last.balanceQuantity = (cardexFinalState (bq, bv) es).1 ∧
      last.balanceTotalPrice = (cardexFinalState (bq, bv) es).2 ∧
      last.balanceUnitPrice = (if (cardexFinalState (bq, bv) es).1 > 0 then
        (cardexFinalState (bq, bv) es).2 / (cardexFinalState (bq, bv) es).1 else 0) := by
  induction es with
  | nil => cases h rfl
  | cons e es ih =>
      intro bq bv
      cases es with
      | nil =>
          obtain ⟨hb1, hb2, hb3⟩ := cardexStep_row_balance bq bv e
          exact ⟨(cardexStep bq bv e).2, rfl, hb1, hb2, hb3⟩
      | cons e2 es2 =>
          obtain ⟨last, hl, hq, hv, hu⟩ :=
            ih (by simp) (cardexStep bq bv e).1.1 (cardexStep bq bv e).1.2
          refine ⟨last, ?_, hq, hv, hu⟩
          have h1 : processCardexEntries bq bv (e :: e2 :: es2) =
              (cardexStep bq bv e).2 ::
                processCardexEntries (cardexStep bq bv e).1.1 (cardexStep bq bv e).1.2
                  (e2 :: es2) := rfl
          have h2 : processCardexEntries (cardexStep bq bv e).1.1 (cardexStep bq bv e).1.2
              (e2 :: es2) =
              (cardexStep (cardexStep bq bv e).1.1 (cardexStep bq bv e).1.2 e2).2 ::
                processCardexEntries
                  (cardexStep (cardexStep bq bv e).1.1 (cardexStep bq bv e).1.2 e2).1.1
                  (cardexStep (cardexStep bq bv e).1.1 (cardexStep bq bv e).1.2 e2).1.2
                  es2 := rfl
          rw [h1, h2, List.getLast?_cons_cons, ← h2]
          exact hl

lemma items_fold_movements (pid : String) (dt : DocumentType) (dn : String) (date : Int) :
    ∀ (items : List DocumentItem) (m : Movements),
      items.foldl (fun m item =>
        if item.product = some pid then applyMovementItem m dt item else m) m
      = summaryFold pid
          ((items.filter fun item => item.product = some pid).map
            (fun item => ({ date := date, documentType := dt, documentNumber := dn,
                            quantity := item.quantity, unitPrice := item.unitPrice,
                            totalPrice := item.totalPrice } : CardexEntry))) m := by
  intro items
  induction items with
  | nil => intro m; rfl
  | cons it items ih =>
      intro m
      by_cases hmatch : it.product = some pid
      · obtain ⟨prod, q, up, tp⟩ := it
        simp only at hmatch
        subst hmatch
        simp only [List.foldl_cons, List.filter_cons,
          decide_eq_true (show (DocumentItem.mk (some pid) q up tp).product = some pid from rfl),
          if_true,
          if_pos (show (DocumentItem.mk (some pid) q up tp).product = some pid from rfl),
          List.map_cons]
        rw [ih]
        rfl
      · simp only [List.foldl_cons, List.filter_cons, decide_eq_false hmatch, if_neg hmatch,
          if_false]
        exact ih m

lemma summaryFold_append (pid : String) (l1 l2 : List CardexEntry) (m : Movements) :
    summaryFold pid (l1 ++ l2) m = summaryFold pid l2 (summaryFold pid l1 m) := by
  simp [summaryFold, List.foldl_append]

lemma docs_fold_movements (pid : String) :
    ∀ (docs : List Document) (m : Movements),
      docs.foldl (fun m doc =>
        doc.items.foldl (fun m item =>
          if item.product = some pid then applyMovementItem m doc.documentType item
          else m) m) m
      = summaryFold pid
          (docs.flatMap fun doc =>
            (doc.items.filter fun item => item.product = some pid).map fun item =>
              { date := doc.date, documentType := doc.documentType,
                documentNumber := doc.documentNumber, quantity := item.quantity,
                unitPrice := item.unitPrice, totalPrice := item.totalPrice }) m := by
  intro docs
  induction docs with
  | nil => intro m; rfl
  | cons doc docs ih =>
      intro m
      simp only [List.foldl_cons, List.flatMap_cons]
      rw [summaryFold_append,
        items_fold_movements pid doc.documentType doc.documentNumber doc.date doc.items m,
        ih]

/-- The nested document/item fold of calculateProductMovements equals the
entry-level fold over the flattened cardex entries. -/
lemma productDocs_fold_movements (pid : String) (docs : List Document) (m : Movements) :
    (docs.filter fun doc => doc.items.any fun item => item.product = some pid).foldl
      (fun m doc => doc.items.foldl (fun m item =>
        if item.product = some pid then applyMovementItem m doc.documentType item
        else m) m) m
    = summaryFold pid (cardexEntriesFor pid docs) m := by
  rw [docs_fold_movements pid
    (docs.filter fun doc => doc.items.any fun item => item.product = some pid) m]
  rfl

lemma applyMovementItem_init (m : Movements) (item : DocumentItem) :
    applyMovementItem m DocumentType.INITIAL_STOCK item =
      { m with initialStock :=
          ⟨m.initialStock.quantity + |item.quantity|,
           if m.initialStock.quantity + |item.quantity| > 0 then
             (m.initialStock.totalPrice + |item.totalPrice|) /
               (m.initialStock.quantity + |item.quantity|) else 0,
           m.initialStock.totalPrice + |item.totalPrice|⟩ } := by
  simp [applyMovementItem]

lemma applyMovementItem_purchase (m : Movements) (item : DocumentItem) :
    applyMovementItem m DocumentType.PURCHASE_INVOICE item =
      { m with incoming :=
          ⟨m.incoming.quantity + |item.quantity|,
           if m.incoming.quantity + |item.quantity| > 0 then
             (m.incoming.totalPrice + |item.totalPrice|) /
               (m.incoming.quantity + |item.quantity|) else 0,
           m.incoming.totalPrice + |item.totalPrice|⟩ } := by
  simp [applyMovementItem]

lemma applyMovementItem_sale (m : Movements) (item : DocumentItem) :
    applyMovementItem m DocumentType.SALE_INVOICE item =
      { m with outgoing :=
          ⟨m.outgoing.quantity + |item.quantity|,
           if m.outgoing.quantity + |item.quantity| > 0 then
             (m.outgoing.totalPrice + |item.totalPrice|) /
               (m.outgoing.quantity + |item.quantity|) else 0,
           m.outgoing.totalPrice + |item.totalPrice|⟩ } := by
  simp [applyMovementItem]

lemma applyMovementItem_adjust (m : Movements) (item : DocumentItem) :
    applyMovementItem m DocumentType.STOCK_ADJUSTMENT item = m := by
  simp [applyMovementItem]

/-- After folding the entries into the summary buckets, each bucket's
quantity and totalPrice fields hold the per-type sums of absolute
stated quantities and totals. -/
lemma summaryFold_sums (pid : String) (es : List CardexEntry) :
    ∀ m : Movements,
      (summaryFold pid es m).initialStock.quantity
        = m.initialStock.quantity
          + sumAbsQty (entriesOfType DocumentType.INITIAL_STOCK es) ∧
      (summaryFold pid es m).initialStock.totalPrice
        = m.initialStock.totalPrice
          + sumAbsVal (entriesOfType DocumentType.INITIAL_STOCK es) ∧
      (summaryFold pid es m).incoming.quantity
        = m.incoming.quantity
          + sumAbsQty (entriesOfType DocumentType.PURCHASE_INVOICE es) ∧
      (summaryFold pid es m).incoming.totalPrice
        = m.incoming.totalPrice
          + sumAbsVal (entriesOfType DocumentType.PURCHASE_INVOICE es) ∧
      (summaryFold pid es m).outgoing.quantity
        = m.outgoing.quantity
          + sumAbsQty (entriesOfType DocumentType.SALE_INVOICE es) ∧
      (summaryFold pid es m).outgoing.totalPrice
        = m.outgoing.totalPrice
          + sumAbsVal (entriesOfType DocumentType.SALE_INVOICE es) := by
  induction es with
  | nil =>
      intro m
      simp [summaryFold, entriesOfType, sumAbsQty, sumAbsVal]
  | cons e es ih =>
      intro m
      have hcons : summaryFold pid (e :: es) m =
          summaryFold pid es (applyMovementItem m e.documentType
            ⟨some pid, e.quantity, e.unitPrice, e.totalPrice⟩) := rfl
      rcases hdt : e.documentType
      · obtain ⟨i1, i2, i3, i4, i5, i6⟩ :=
          ih (applyMovementItem m DocumentType.INITIAL_STOCK
            ⟨some pid, e.quantity, e.unitPrice, e.totalPrice⟩)
        rw [hcons, hdt, i1, i2, i3, i4, i5, i6]
        simp only [applyMovementItem_init]
        refine ⟨?_, ?_, ?_, ?_, ?_, ?_⟩ <;>
          simp [entriesOfType, sumAbsQty, sumAbsVal, List.filter_cons, hdt] <;> ring
      · obtain ⟨i1, i2, i3, i4, i5, i6⟩ :=
          ih (applyMovementItem m DocumentType.PURCHASE_INVOICE
            ⟨some pid, e.quantity, e.unitPrice, e.totalPrice⟩)
        rw [hcons, hdt, i1, i2, i3, i4, i5, i6]
        simp only [applyMovementItem_purchase]
        refine ⟨?_, ?_, ?_, ?_, ?_, ?_⟩ <;>
          simp [entriesOfType, sumAbsQty, sumAbsVal, List.filter_cons, hdt] <;> ring
      · obtain ⟨i1, i2, i3, i4, i5, i6⟩ :=
          ih (applyMovementItem m DocumentType.SALE_INVOICE
            ⟨some pid, e.quantity, e.unitPrice, e.totalPrice⟩)
        rw [hcons, hdt, i1, i2, i3, i4, i5, i6]
        simp only [applyMovementItem_sale]
        refine ⟨?_, ?_, ?_, ?_, ?_, ?_⟩ <;>
          simp [entriesOfType, sumAbsQty, sumAbsVal, List.filter_cons, hdt] <;> ring
      · obtain ⟨i1, i2, i3, i4, i5, i6⟩ :=
          ih (applyMovementItem m DocumentType.STOCK_ADJUSTMENT
            ⟨some pid, e.quantity, e.unitPrice, e.totalPrice⟩)
        rw [hcons, hdt, i1, i2, i3, i4, i5, i6]
        simp only [applyMovementItem_adjust]
        refine ⟨?_, ?_, ?_, ?_, ?_, ?_⟩ <;>
          simp [entriesOfType, sumAbsQty, sumAbsVal, List.filter_cons, hdt]

/-- The summary's balance bucket in terms of per-type sums over the
unsorted cardex entries. -/
lemma calculateProductMovements_balance (pid : String) (docs : List Document) :
    (calculateProductMovements pid docs).balance.quantity
        = sumAbsQty (entriesOfType DocumentType.INITIAL_STOCK (cardexEntriesFor pid docs))
          + sumAbsQty (entriesOfType DocumentType.PURCHASE_INVOICE (cardexEntriesFor pid docs))
          - sumAbsQty (entriesOfType DocumentType.SALE_INVOICE (cardexEntriesFor pid docs)) ∧
    (calculateProductMovements pid docs).balance.totalPrice
        = sumAbsVal (entriesOfType DocumentType.INITIAL_STOCK (cardexEntriesFor pid docs))
          + sumAbsVal (entriesOfType DocumentType.PURCHASE_INVOICE (cardexEntriesFor pid docs))
          - sumAbsVal (entriesOfType DocumentType.SALE_INVOICE (cardexEntriesFor pid docs)) ∧
    (calculateProductMovements pid docs).balance.unitPrice
        = (if (calculateProductMovements pid docs).balance.quantity > 0 then
            (calculateProductMovements pid docs).balance.totalPrice /
              (calculateProductMovements pid docs).balance.quantity else 0) := by
  obtain ⟨i1, i2, i3, i4, i5, i6⟩ := summaryFold_sums pid (cardexEntriesFor pid docs)
      ⟨⟨0, 0, 0⟩, ⟨0, 0, 0⟩, ⟨0, 0, 0⟩, ⟨0, 0, 0⟩⟩
  simp only [calculateProductMovements]
  rw [productDocs_fold_movements]
  refine ⟨?_, ?_, trivial⟩
  · rw [i1, i3, i5]; norm_num
  · rw [i2, i4, i6]; norm_num

/-- Sorting the entries does not change the per-type sums (the sort is
a permutation). -/
lemma sorted_sums_eq (dt : DocumentType) (es : List CardexEntry) :
    sumAbsQty (entriesOfType dt (sortCardexEntries es)) = sumAbsQty (entriesOfType dt es) ∧
    sumAbsVal (entriesOfType dt (sortCardexEntries es)) = sumAbsVal (entriesOfType dt es) := by
  have hperm : (sortCardexEntries es).Perm es := List.perm_insertionSort _ es
  exact ⟨((hperm.filter _).map _).sum_eq, ((hperm.filter _).map _).sum_eq⟩

set_option maxHeartbeats 1000000 in
/-- C2 (amended): the summary (calculateProductMovements) accumulates
sales at their stated absolute totalPrice, while the cardex
(calculateRialCardex) removes sales at the running weighted-average
cost and clamps negative balances to zero; the two balances therefore
agree exactly on clean runs — whenever, along the date-sorted entries,
every sale fits in the running balance quantity and its stated
absolute totalPrice equals the quantity times the running
weighted-average cost.  Under that hypothesis (and at least one
matching entry), the summary's balance quantity, totalPrice and
unitPrice equal the last cardex row's balanceQuantity,
balanceTotalPrice and balanceUnitPrice. -/
theorem summary_balance_matches_cardex_of_clean (pid : String) (docs : List Document)
    (hne : cardexEntriesFor pid docs ≠ [])
    (hclean : CleanRun (0, 0) (sortCardexEntries (cardexEntriesFor pid docs))) :
    ∃ last, (calculateRialCardex pid docs).getLast? = some last ∧
      (calculateProductMovements pid docs).balance.quantity = last.balanceQuantity ∧
      (calculateProductMovements pid docs).balance.totalPrice = last.balanceTotalPrice ∧
      (calculateProductMovements pid docs).balance.unitPrice = last.balanceUnitPrice := by
  have hperm : (sortCardexEntries (cardexEntriesFor pid docs)).Perm
      (cardexEntriesFor pid docs) := List.perm_insertionSort _ _
  have hsne : sortCardexEntries (cardexEntriesFor pid docs) ≠ [] := by
    intro h
    rw [h] at hperm
    exact hne hperm.symm.eq_nil
  obtain ⟨last, hl, hq, hv, hu⟩ :=
    processCardexEntries_getLast (sortCardexEntries (cardexEntriesFor pid docs)) hsne 0 0
  have hfin := cardexFinalState_clean (sortCardexEntries (cardexEntriesFor pid docs))
      (0, 0) (le_refl 0) (le_refl 0) hclean
  obtain ⟨b1, b2, b3⟩ := calculateProductMovements_balance pid docs
  obtain ⟨p1q, p1v⟩ := sorted_sums_eq DocumentType.INITIAL_STOCK (cardexEntriesFor pid docs)
  obtain ⟨p2q, p2v⟩ := sorted_sums_eq DocumentType.PURCHASE_INVOICE (cardexEntriesFor pid docs)
  obtain ⟨p3q, p3v⟩ := sorted_sums_eq DocumentType.SALE_INVOICE (cardexEntriesFor pid docs)
  have hfq : (cardexFinalState (0, 0) (sortCardexEntries (cardexEntriesFor pid docs))).1
      = (calculateProductMovements pid docs).balance.quantity := by
    rw [hfin, b1]
    dsimp only
    rw [p1q, p2q, p3q]
    ring
  have hfv : (cardexFinalState (0, 0) (sortCardexEntries (cardexEntriesFor pid docs))).2
      = (calculateProductMovements pid docs).balance.totalPrice := by
    rw [hfin, b2]
    dsimp only
    rw [p1v, p2v, p3v]
    ring
  refine ⟨last, hl, ?_, ?_, ?_⟩
  · rw [hq, hfq]
  · rw [hv, hfv]
  · rw [hu, b3, hfq, hfv]

set_option maxHeartbeats 1000000 in
/-- C2 counterexample: with an initial stock of 10 units stated at
1000 total and a sale of 5 units stated at 1000 total (unit price
200), the summary subtracts the stated 1000, giving balance
totalPrice 0, while the cardex removes 5 at the weighted-average cost
100, giving a final balanceTotalPrice of 500; so the summary balance
does not equal the last cardex row's balance, refuting the claimed
equality for every document set. -/
theorem summary_vs_cardex_counterexample :
    ∃ last, (calculateRialCardex "P"
        [⟨DocumentType.INITIAL_STOCK, "D1", 1, [⟨some "P", 10, 100, 1000⟩], true⟩,
         ⟨DocumentType.SALE_INVOICE, "D2", 2, [⟨some "P", 5, 200, 1000⟩], false⟩]).getLast?
        = some last ∧
      (calculateProductMovements "P"
        [⟨DocumentType.INITIAL_STOCK, "D1", 1, [⟨some "P", 10, 100, 1000⟩], true⟩,
         ⟨DocumentType.SALE_INVOICE, "D2", 2, [⟨some "P", 5, 200, 1000⟩], false⟩]).balance.quantity
        = last.balanceQuantity ∧
      (calculateProductMovements "P"
        [⟨DocumentType.INITIAL_STOCK, "D1", 1, [⟨some "P", 10, 100, 1000⟩], true⟩,
         ⟨DocumentType.SALE_INVOICE, "D2", 2, [⟨some "P", 5, 200, 1000⟩], false⟩]).balance.totalPrice
        = 0 ∧
      last.balanceTotalPrice = 500 ∧
      (calculateProductMovements "P"
        [⟨DocumentType.INITIAL_STOCK, "D1", 1, [⟨some "P", 10, 100, 1000⟩], true⟩,
         ⟨DocumentType.SALE_INVOICE, "D2", 2, [⟨some "P", 5, 200, 1000⟩], false⟩]).balance.totalPrice
        ≠ last.balanceTotalPrice := by
  have hm : calculateProductMovements "P"
      [⟨DocumentType.INITIAL_STOCK, "D1", 1, [⟨some "P", 10, 100, 1000⟩], true⟩,
       ⟨DocumentType.SALE_INVOICE, "D2", 2, [⟨some "P", 5, 200, 1000⟩], false⟩]
      = ⟨⟨10, 100, 1000⟩, ⟨0, 0, 0⟩, ⟨5, 200, 1000⟩, ⟨5, 0, 0⟩⟩ := by
    simp only [calculateProductMovements, applyMovementItem, List.filter, List.any,
      List.foldl]
    norm_num
    simp
    all_goals norm_num
  have hc : calculateRialCardex "P"
      [⟨DocumentType.INITIAL_STOCK, "D1", 1, [⟨some "P", 10, 100, 1000⟩], true⟩,
       ⟨DocumentType.SALE_INVOICE, "D2", 2, [⟨some "P", 5, 200, 1000⟩], false⟩]
      = [⟨1, DocumentType.INITIAL_STOCK, "D1", 10, 100, 1000, 0, 0, 0, 10, 100, 1000⟩,
         ⟨2, DocumentType.SALE_INVOICE, "D2", 0, 0, 0, 5, 200, 500, 5, 100, 500⟩] := by
    simp only [calculateRialCardex, cardexEntriesFor, sortCardexEntries,
      List.insertionSort, List.orderedInsert, List.filter, List.flatMap, List.map,
      List.any, processCardexEntries, cardexStep]
    norm_num
    simp
    all_goals norm_num
  refine ⟨⟨2, DocumentType.SALE_INVOICE, "D2", 0, 0, 0, 5, 200, 500, 5, 100, 500⟩,
    ?_, ?_, ?_, rfl, ?_⟩
  · rw [hc]
    rfl
  · rw [hm]
  · rw [hm]
  · rw [hm]; norm_num

set_option maxHeartbeats 1000000 in
/-- C2 witness: a clean run (initial stock of 10 at 1000 total, then a
sale of 5 stated at the weighted-average total 500) on which the
summary balance equals the last cardex row's balance. -/
theorem summary_balance_matches_cardex_of_clean_witness :
    ∃ last, (calculateRialCardex "P"
        [⟨DocumentType.INITIAL_STOCK, "D1", 1, [⟨some "P", 10, 100, 1000⟩], true⟩,
         ⟨DocumentType.SALE_INVOICE, "D2", 2, [⟨some "P", 5, 200, 500⟩], false⟩]).getLast?
        = some last ∧
      (calculateProductMovements "P"
        [⟨DocumentType.INITIAL_STOCK, "D1", 1, [⟨some "P", 10, 100, 1000⟩], true⟩,
         ⟨DocumentType.SALE_INVOICE, "D2", 2, [⟨some "P", 5, 200, 500⟩], false⟩]).balance.quantity
        = last.balanceQuantity ∧
      (calculateProductMovements "P"
        [⟨DocumentType.INITIAL_STOCK, "D1", 1, [⟨some "P", 10, 100, 1000⟩], true⟩,
         ⟨DocumentType.SALE_INVOICE, "D2", 2, [⟨some "P", 5, 200, 500⟩], false⟩]).balance.totalPrice
        = last.balanceTotalPrice ∧
      (calculateProductMovements "P"
        [⟨DocumentType.INITIAL_STOCK, "D1", 1, [⟨some "P", 10, 100, 1000⟩], true⟩,
         ⟨DocumentType.SALE_INVOICE, "D2", 2, [⟨some "P", 5, 200, 500⟩], false⟩]).balance.unitPrice
        = last.balanceUnitPrice := by
  apply summary_balance_matches_cardex_of_clean
  · intro h
    rw [show cardexEntriesFor "P"
        [⟨DocumentType.INITIAL_STOCK, "D1", 1, [⟨some "P", 10, 100, 1000⟩], true⟩,
         ⟨DocumentType.SALE_INVOICE, "D2", 2, [⟨some "P", 5, 200, 500⟩], false⟩]
        = [⟨1, DocumentType.INITIAL_STOCK, "D1", 10, 100, 1000⟩,
           ⟨2, DocumentType.SALE_INVOICE, "D2", 5, 200, 500⟩] from rfl] at h
    exact List.noConfusion h
  · rw [show sortCardexEntries (cardexEntriesFor "P"
        [⟨DocumentType.INITIAL_STOCK, "D1", 1, [⟨some "P", 10, 100, 1000⟩], true⟩,
         ⟨DocumentType.SALE_INVOICE, "D2", 2, [⟨some "P", 5, 200, 500⟩], false⟩])
        = [⟨1, DocumentType.INITIAL_STOCK, "D1", 10, 100, 1000⟩,
           ⟨2, DocumentType.SALE_INVOICE, "D2", 5, 200, 500⟩] from rfl]
    have hstate : cardexStepState (0, 0)
        ⟨1, DocumentType.INITIAL_STOCK, "D1", 10, 100, 1000⟩ = (10, 1000) := by
      norm_num [cardexStepState, cardexStep]
    simp only [CleanRun, hstate]
    refine ⟨?_, ?_, trivial⟩
    · intro h
      simp at h
    · intro h
      norm_num

/-! ## Jalaali calendar correctness (C3, C5) -/


lemma tdiv_six_small (t : Int) (h1 : -7 ≤ t) (h2 : t ≤ 7) :
    Int.tdiv t 6 = if t ≤ -6 then -1 else if 6 ≤ t then 1 else 0 := by
  interval_cases t <;> decide


lemma tmod_eq_emod' (a b : Int) (ha : 0 ≤ a) (hb : 0 ≤ b) :
    a - Int.tdiv a b * b = a % b := by
  rw [Int.tdiv_eq_ediv ha hb, Int.emod_def]
  ring

/-- g2d in pure ediv form for January and February. -/

lemma g2d_eq_early (y m d : Int) (hy : 500 ≤ y) (hm1 : 1 ≤ m) (hm2 : m ≤ 2) :
    g2d y m d = (y + 100099) * 1461 / 4
      + (153 * ((m + 9) % 12) + 2) / 5 + d - 34840408
      - ((y + 100099) / 100 * 3) / 4 + 752 := by
  unfold g2d jsDiv jsMod
  rw [tdiv_six_small (m - 8) (by omega) (by omega)]
  rw [if_pos (by omega : m - 8 ≤ -6)]
  rw [Int.tdiv_eq_ediv (a := m + 9) (by omega) (by omega)]
  rw [show m + 9 - (m + 9) / 12 * 12 = (m + 9) % 12 by omega]
  rw [Int.tdiv_eq_ediv (a := (y + -1 + 100100) * 1461) (by omega) (by omega)]
  rw [Int.tdiv_eq_ediv (a := 153 * ((m + 9) % 12) + 2) (by omega) (by omega)]
  rw [Int.tdiv_eq_ediv (a := y + 100100 + -1) (by omega) (by omega)]
  rw [Int.tdiv_eq_ediv (a := (y + 100100 + -1) / 100 * 3) (by omega) (by omega)]
  have h1 : y + -1 + 100100 = y + 100099 := by ring
  have h2 : y + 100100 + -1 = y + 100099 := by ring
  rw [h1, h2]

/-- g2d in pure ediv form for March through December. -/

lemma g2d_eq_late (y m d : Int) (hy : 500 ≤ y) (hm1 : 3 ≤ m) (hm2 : m ≤ 12) :
    g2d y m d = (y + 100100) * 1461 / 4
      + (153 * ((m + 9) % 12) + 2) / 5 + d - 34840408
      - ((y + 100100) / 100 * 3) / 4 + 752 := by
  unfold g2d jsDiv jsMod
  rw [tdiv_six_small (m - 8) (by omega) (by omega)]
  rw [if_neg (by omega : ¬ m - 8 ≤ -6), if_neg (by omega : ¬ 6 ≤ m - 8)]
  rw [Int.tdiv_eq_ediv (a := m + 9) (by omega) (by omega)]
  rw [show m + 9 - (m + 9) / 12 * 12 = (m + 9) % 12 by omega]
  rw [Int.tdiv_eq_ediv (a := (y + 0 + 100100) * 1461) (by omega) (by omega)]
  rw [Int.tdiv_eq_ediv (a := 153 * ((m + 9) % 12) + 2) (by omega) (by omega)]
  rw [Int.tdiv_eq_ediv (a := y + 100100 + 0) (by omega) (by omega)]
  rw [Int.tdiv_eq_ediv (a := (y + 100100 + 0) / 100 * 3) (by omega) (by omega)]
  have h1 : y + 0 + 100100 = y + 100100 := by ring
  have h2 : y + 100100 + 0 = y + 100100 := by ring
  rw [h1, h2]

/-- d2g in pure ediv form. -/

lemma d2g_eq (n : Int) (h : 0 ≤ n) :
    d2g n = ⟨(4 * n + 139361631 + ((4 * n + 183187720) / 146097 * 3) / 4 * 4 - 3908) / 1461
              - 100100
              + (if ((4 * n + 139361631 + ((4 * n + 183187720) / 146097 * 3) / 4 * 4 - 3908) % 1461 / 4 * 5 + 308) / 153 % 12 + 1 ≤ 2 then 1 else 0),
             ((4 * n + 139361631 + ((4 * n + 183187720) / 146097 * 3) / 4 * 4 - 3908) % 1461 / 4 * 5 + 308) / 153 % 12 + 1,
             ((4 * n + 139361631 + ((4 * n + 183187720) / 146097 * 3) / 4 * 4 - 3908) % 1461 / 4 * 5 + 308) % 153 / 5 + 1⟩ := by
  simp only [d2g, jsDiv, jsMod]
  rw [Int.tdiv_eq_ediv (a := 4 * n + 183187720) (by omega) (by omega)]
  rw [Int.tdiv_eq_ediv (a := (4 * n + 183187720) / 146097 * 3) (by omega) (by omega)]
  have hj : (0:Int) ≤ 4 * n + 139361631 + (4 * n + 183187720) / 146097 * 3 / 4 * 4 - 3908 := by
    omega
  rw [tmod_eq_emod' _ 1461 hj (by omega)]
  rw [Int.tdiv_eq_ediv (a := (4 * n + 139361631 + (4 * n + 183187720) / 146097 * 3 / 4 * 4 - 3908) % 1461) (by omega) (by omega)]
  set j := 4 * n + 139361631 + (4 * n + 183187720) / 146097 * 3 / 4 * 4 - 3908 with hjdef
  rw [tmod_eq_emod' (j % 1461 / 4 * 5 + 308) 153 (by omega) (by omega)]
  rw [Int.tdiv_eq_ediv (a := (j % 1461 / 4 * 5 + 308) % 153) (by omega) (by omega)]
  rw [Int.tdiv_eq_ediv (a := j % 1461 / 4 * 5 + 308) (by omega) (by omega)]
  rw [Int.tdiv_eq_ediv (a := j) hj (by omega)]
  rw [tmod_eq_emod' ((j % 1461 / 4 * 5 + 308) / 153) 12 (by omega) (by omega)]
  rw [tdiv_six_small (8 - ((j % 1461 / 4 * 5 + 308) / 153 % 12 + 1)) (by omega) (by omega)]
  have : (if 8 - ((j % 1461 / 4 * 5 + 308) / 153 % 12 + 1) ≤ -6 then (-1:Int)
      else if 6 ≤ 8 - ((j % 1461 / 4 * 5 + 308) / 153 % 12 + 1) then 1 else 0)
      = (if (j % 1461 / 4 * 5 + 308) / 153 % 12 + 1 ≤ 2 then 1 else 0) := by
    split_ifs <;> omega
  rw [this]

set_option maxHeartbeats 4000000 in
lemma d2g_reconstruct_early (y m d c r n : Int)
    (hd1 : 1 ≤ d)
    (hvd : (m = 1 ∧ d ≤ 31) ∨
      (m = 2 ∧ (d ≤ 28 ∨ (d ≤ 29 ∧ ((y % 4 = 0 ∧ y % 100 ≠ 0) ∨ y % 400 = 0)))))
    (hy : 500 ≤ y) (hy2 : y ≤ 3900)
    (hcr : y + 100099 = 100 * c + r) (hr0 : 0 ≤ r) (hr1 : r < 100)
    (hn : n = (y + 100099) * 1461 / 4 + (153 * ((m + 9) % 12) + 2) / 5 + d - 34840408
      - (y + 100099) / 100 * 3 / 4 + 752) :
    d2g n = ⟨y, m, d⟩ := by
  rw [d2g_eq n (by omega)]
  simp only [GregDate.mk.injEq]
  rcases hvd with ⟨hm, hd⟩ | ⟨hm, hd⟩ <;> subst hm
  · have hfc : (y + 100099) / 100 = c := by omega
    have he : (y + 100099) / 100 * 3 / 4 = c * 3 / 4 := by rw [hfc]
    have hi : (c + 300) * 3 / 4 = c * 3 / 4 + 225 := by omega
    have hmod4 : (y + 100099) * 1461 % 4 = r % 4 := by omega
    have hw : (4 * n + 183187720) / 146097 = c + 300 := by omega
    obtain ⟨R, hR0, hR1, hRdef⟩ : ∃ R, 0 ≤ R ∧ R < 1461 ∧
        4 * n + 139361631 + (c + 300) * 3 / 4 * 4 - 3908 = 1461 * (y + 100099) + R :=
      ⟨4 * n + 139361631 + (c + 300) * 3 / 4 * 4 - 3908 - 1461 * (y + 100099),
        by omega, by omega, by ring⟩
    have hrem : (1461 * (y + 100099) + R) % 1461 = R := by omega
    have hfloor : R / 4 = 306 + d - 1 := by omega
    have hii : ((306 + d - 1) * 5 + 308) / 153 = 12 := by omega
    refine ⟨?_, ?_, ?_⟩ <;> (rw [hw, hRdef, hrem, hfloor]; try split_ifs) <;> omega
  · rcases hd with hd | ⟨hd, hleap⟩
    · have hfc : (y + 100099) / 100 = c := by omega
      have he : (y + 100099) / 100 * 3 / 4 = c * 3 / 4 := by rw [hfc]
      have hi : (c + 300) * 3 / 4 = c * 3 / 4 + 225 := by omega
      have hmod4 : (y + 100099) * 1461 % 4 = r % 4 := by omega
      have hw : (4 * n + 183187720) / 146097 = c + 300 := by omega
      obtain ⟨R, hR0, hR1, hRdef⟩ : ∃ R, 0 ≤ R ∧ R < 1461 ∧
          4 * n + 139361631 + (c + 300) * 3 / 4 * 4 - 3908 = 1461 * (y + 100099) + R :=
        ⟨4 * n + 139361631 + (c + 300) * 3 / 4 * 4 - 3908 - 1461 * (y + 100099),
          by omega, by omega, by ring⟩
      have hrem : (1461 * (y + 100099) + R) % 1461 = R := by omega
      have hfloor : R / 4 = 337 + d - 1 := by omega
      have hii : ((337 + d - 1) * 5 + 308) / 153 = 13 := by omega
      refine ⟨?_, ?_, ?_⟩ <;> (rw [hw, hRdef, hrem, hfloor]; try split_ifs) <;> omega
    · rcases hleap with ⟨h4, h100⟩ | h400
      · have hr95 : r ≤ 95 := by omega
        have hfc : (y + 100099) / 100 = c := by omega
        have he : (y + 100099) / 100 * 3 / 4 = c * 3 / 4 := by rw [hfc]
        have hi : (c + 300) * 3 / 4 = c * 3 / 4 + 225 := by omega
        have hmod4 : (y + 100099) * 1461 % 4 = r % 4 := by omega
        have hw : (4 * n + 183187720) / 146097 = c + 300 := by omega
        obtain ⟨R, hR0, hR1, hRdef⟩ : ∃ R, 0 ≤ R ∧ R < 1461 ∧
            4 * n + 139361631 + (c + 300) * 3 / 4 * 4 - 3908 = 1461 * (y + 100099) + R :=
          ⟨4 * n + 139361631 + (c + 300) * 3 / 4 * 4 - 3908 - 1461 * (y + 100099),
            by omega, by omega, by ring⟩
        have hrem : (1461 * (y + 100099) + R) % 1461 = R := by omega
        have hfloor : R / 4 = 337 + d - 1 := by omega
        have hii : ((337 + d - 1) * 5 + 308) / 153 = 13 := by omega
        refine ⟨?_, ?_, ?_⟩ <;> (rw [hw, hRdef, hrem, hfloor]; try split_ifs) <;> omega
      · have hf4 : (y + 100099) / 100 % 4 = 0 := by omega
        have hfc : (y + 100099) / 100 = c := by omega
        have he : (y + 100099) / 100 * 3 / 4 = c * 3 / 4 := by rw [hfc]
        have hi : (c + 300) * 3 / 4 = c * 3 / 4 + 225 := by omega
        have hmod4 : (y + 100099) * 1461 % 4 = r % 4 := by omega
        have hw : (4 * n + 183187720) / 146097 = c + 300 := by omega
        obtain ⟨R, hR0, hR1, hRdef⟩ : ∃ R, 0 ≤ R ∧ R < 1461 ∧
            4 * n + 139361631 + (c + 300) * 3 / 4 * 4 - 3908 = 1461 * (y + 100099) + R :=
          ⟨4 * n + 139361631 + (c + 300) * 3 / 4 * 4 - 3908 - 1461 * (y + 100099),
            by omega, by omega, by ring⟩
        have hrem : (1461 * (y + 100099) + R) % 1461 = R := by omega
        have hfloor : R / 4 = 337 + d - 1 := by omega
        have hii : ((337 + d - 1) * 5 + 308) / 153 = 13 := by omega
        refine ⟨?_, ?_, ?_⟩ <;> (rw [hw, hRdef, hrem, hfloor]; try split_ifs) <;> omega

set_option maxHeartbeats 8000000 in
lemma d2g_reconstruct_late (y m d c r n : Int)
    (hm1 : 3 ≤ m) (hm2 : m ≤ 12) (hd1 : 1 ≤ d)
    (hvd : d ≤ 30 ∨ (d ≤ 31 ∧ (m = 3 ∨ m = 5 ∨ m = 7 ∨ m = 8 ∨ m = 10 ∨ m = 12)))
    (hy : 500 ≤ y) (hy2 : y ≤ 3900)
    (hcr : y + 100100 = 100 * c + r) (hr0 : 0 ≤ r) (hr1 : r < 100)
    (hn : n = (y + 100100) * 1461 / 4 + (153 * ((m + 9) % 12) + 2) / 5 + d - 34840408
      - (y + 100100) / 100 * 3 / 4 + 752) :
    d2g n = ⟨y, m, d⟩ := by
  rw [d2g_eq n (by omega)]
  simp only [GregDate.mk.injEq]
  interval_cases m
  · have hdm : d ≤ 31 := by omega
    have hfc : (y + 100100) / 100 = c := by omega
    have he : (y + 100100) / 100 * 3 / 4 = c * 3 / 4 := by rw [hfc]
    have hi : (c + 300) * 3 / 4 = c * 3 / 4 + 225 := by omega
    have hmod4 : (y + 100100) * 1461 % 4 = r % 4 := by omega
    have hw : (4 * n + 183187720) / 146097 = c + 300 := by omega
    obtain ⟨R, hR0, hR1, hRdef⟩ : ∃ R, 0 ≤ R ∧ R < 1461 ∧
        4 * n + 139361631 + (c + 300) * 3 / 4 * 4 - 3908 = 1461 * (y + 100100) + R :=
      ⟨4 * n + 139361631 + (c + 300) * 3 / 4 * 4 - 3908 - 1461 * (y + 100100),
        by omega, by omega, by ring⟩
    have hrem : (1461 * (y + 100100) + R) % 1461 = R := by omega
    have hfloor : R / 4 = 0 + d - 1 := by omega
    have hii : ((0 + d - 1) * 5 + 308) / 153 = 2 := by omega
    refine ⟨?_, ?_, ?_⟩ <;> (rw [hw, hRdef, hrem, hfloor]; try split_ifs) <;> omega
  · have hdm : d ≤ 30 := by omega
    have hfc : (y + 100100) / 100 = c := by omega
    have he : (y + 100100) / 100 * 3 / 4 = c * 3 / 4 := by rw [hfc]
    have hi : (c + 300) * 3 / 4 = c * 3 / 4 + 225 := by omega
    have hmod4 : (y + 100100) * 1461 % 4 = r % 4 := by omega
    have hw : (4 * n + 183187720) / 146097 = c + 300 := by omega
    obtain ⟨R, hR0, hR1, hRdef⟩ : ∃ R, 0 ≤ R ∧ R < 1461 ∧
        4 * n + 139361631 + (c + 300) * 3 / 4 * 4 - 3908 = 1461 * (y + 100100) + R :=
      ⟨4 * n + 139361631 + (c + 300) * 3 / 4 * 4 - 3908 - 1461 * (y + 100100),
        by omega, by omega, by ring⟩
    have hrem : (1461 * (y + 100100) + R) % 1461 = R := by omega
    have hfloor : R / 4 = 31 + d - 1 := by omega
    have hii : ((31 + d - 1) * 5 + 308) / 153 = 3 := by omega
    refine ⟨?_, ?_, ?_⟩ <;> (rw [hw, hRdef, hrem, hfloor]; try split_ifs) <;> omega
  · have hdm : d ≤ 31 := by omega
    have hfc : (y + 100100) / 100 = c := by omega
    have he : (y + 100100) / 100 * 3 / 4 = c * 3 / 4 := by rw [hfc]
    have hi : (c + 300) * 3 / 4 = c * 3 / 4 + 225 := by omega
    have hmod4 : (y + 100100) * 1461 % 4 = r % 4 := by omega
    have hw : (4 * n + 183187720) / 146097 = c + 300 := by omega
    obtain ⟨R, hR0, hR1, hRdef⟩ : ∃ R, 0 ≤ R ∧ R < 1461 ∧
        4 * n + 139361631 + (c + 300) * 3 / 4 * 4 - 3908 = 1461 * (y + 100100) + R :=
      ⟨4 * n + 139361631 + (c + 300) * 3 / 4 * 4 - 3908 - 1461 * (y + 100100),
        by omega, by omega, by ring⟩
    have hrem : (1461 * (y + 100100) + R) % 1461 = R := by omega
    have hfloor : R / 4 = 61 + d - 1 := by omega
    have hii : ((61 + d - 1) * 5 + 308) / 153 = 4 := by omega
    refine ⟨?_, ?_, ?_⟩ <;> (rw [hw, hRdef, hrem, hfloor]; try split_ifs) <;> omega
  · have hdm : d ≤ 30 := by omega
    have hfc : (y + 100100) / 100 = c := by omega
    have he : (y + 100100) / 100 * 3 / 4 = c * 3 / 4 := by rw [hfc]
    have hi : (c + 300) * 3 / 4 = c * 3 / 4 + 225 := by omega
    have hmod4 : (y + 100100) * 1461 % 4 = r % 4 := by omega
    have hw : (4 * n + 183187720) / 146097 = c + 300 := by omega
    obtain ⟨R, hR0, hR1, hRdef⟩ : ∃ R, 0 ≤ R ∧ R < 1461 ∧
        4 * n + 139361631 + (c + 300) * 3 / 4 * 4 - 3908 = 1461 * (y + 100100) + R :=
      ⟨4 * n + 139361631 + (c + 300) * 3 / 4 * 4 - 3908 - 1461 * (y + 100100),
        by omega, by omega, by ring⟩
    have hrem : (1461 * (y + 100100) + R) % 1461 = R := by omega
    have hfloor : R / 4 = 92 + d - 1 := by omega
    have hii : ((92 + d - 1) * 5 + 308) / 153 = 5 := by omega
    refine ⟨?_, ?_, ?_⟩ <;> (rw [hw, hRdef, hrem, hfloor]; try split_ifs) <;> omega
  · have hdm : d ≤ 31 := by omega
    have hfc : (y + 100100) / 100 = c := by omega
    have he : (y + 100100) / 100 * 3 / 4 = c * 3 / 4 := by rw [hfc]
    have hi : (c + 300) * 3 / 4 = c * 3 / 4 + 225 := by omega
    have hmod4 : (y + 100100) * 1461 % 4 = r % 4 := by omega
    have hw : (4 * n + 183187720) / 146097 = c + 300 := by omega
    obtain ⟨R, hR0, hR1, hRdef⟩ : ∃ R, 0 ≤ R ∧ R < 1461 ∧
        4 * n + 139361631 + (c + 300) * 3 / 4 * 4 - 3908 = 1461 * (y + 100100) + R :=
      ⟨4 * n + 139361631 + (c + 300) * 3 / 4 * 4 - 3908 - 1461 * (y + 100100),
        by omega, by omega, by ring⟩
    have hrem : (1461 * (y + 100100) + R) % 1461 = R := by omega
    have hfloor : R / 4 = 122 + d - 1 := by omega
    have hii : ((122 + d - 1) * 5 + 308) / 153 = 6 := by omega
    refine ⟨?_, ?_, ?_⟩ <;> (rw [hw, hRdef, hrem, hfloor]; try split_ifs) <;> omega
  · have hdm : d ≤ 31 := by omega
    have hfc : (y + 100100) / 100 = c := by omega
    have he : (y + 100100) / 100 * 3 / 4 = c * 3 / 4 := by rw [hfc]
    have hi : (c + 300) * 3 / 4 = c * 3 / 4 + 225 := by omega
    have hmod4 : (y + 100100) * 1461 % 4 = r % 4 := by omega
    have hw : (4 * n + 183187720) / 146097 = c + 300 := by omega
    obtain ⟨R, hR0, hR1, hRdef⟩ : ∃ R, 0 ≤ R ∧ R < 1461 ∧
        4 * n + 139361631 + (c + 300) * 3 / 4 * 4 - 3908 = 1461 * (y + 100100) + R :=
      ⟨4 * n + 139361631 + (c + 300) * 3 / 4 * 4 - 3908 - 1461 * (y + 100100),
        by omega, by omega, by ring⟩
    have hrem : (1461 * (y + 100100) + R) % 1461 = R := by omega
    have hfloor : R / 4 = 153 + d - 1 := by omega
    have hii : ((153 + d - 1) * 5 + 308) / 153 = 7 := by omega
    refine ⟨?_, ?_, ?_⟩ <;> (rw [hw, hRdef, hrem, hfloor]; try split_ifs) <;> omega
  · have hdm : d ≤ 30 := by omega
    have hfc : (y + 100100) / 100 = c := by omega
    have he : (y + 100100) / 100 * 3 / 4 = c * 3 / 4 := by rw [hfc]
    have hi : (c + 300) * 3 / 4 = c * 3 / 4 + 225 := by omega
    have hmod4 : (y + 100100) * 1461 % 4 = r % 4 := by omega
    have hw : (4 * n + 183187720) / 146097 = c + 300 := by omega
    obtain ⟨R, hR0, hR1, hRdef⟩ : ∃ R, 0 ≤ R ∧ R < 1461 ∧
        4 * n + 139361631 + (c + 300) * 3 / 4 * 4 - 3908 = 1461 * (y + 100100) + R :=
      ⟨4 * n + 139361631 + (c + 300) * 3 / 4 * 4 - 3908 - 1461 * (y + 100100),
        by omega, by omega, by ring⟩
    have hrem : (1461 * (y + 100100) + R) % 1461 = R := by omega
    have hfloor : R / 4 = 184 + d - 1 := by omega
    have hii : ((184 + d - 1) * 5 + 308) / 153 = 8 := by omega
    refine ⟨?_, ?_, ?_⟩ <;> (rw [hw, hRdef, hrem, hfloor]; try split_ifs) <;> omega
  · have hdm : d ≤ 31 := by omega
    have hfc : (y + 100100) / 100 = c := by omega
    have he : (y + 100100) / 100 * 3 / 4 = c * 3 / 4 := by rw [hfc]
    have hi : (c + 300) * 3 / 4 = c * 3 / 4 + 225 := by omega
    have hmod4 : (y + 100100) * 1461 % 4 = r % 4 := by omega
    have hw : (4 * n + 183187720) / 146097 = c + 300 := by omega
    obtain ⟨R, hR0, hR1, hRdef⟩ : ∃ R, 0 ≤ R ∧ R < 1461 ∧
        4 * n + 139361631 + (c + 300) * 3 / 4 * 4 - 3908 = 1461 * (y + 100100) + R :=
      ⟨4 * n + 139361631 + (c + 300) * 3 / 4 * 4 - 3908 - 1461 * (y + 100100),
        by omega, by omega, by ring⟩
    have hrem : (1461 * (y + 100100) + R) % 1461 = R := by omega
    have hfloor : R / 4 = 214 + d - 1 := by omega
    have hii : ((214 + d - 1) * 5 + 308) / 153 = 9 := by omega
    refine ⟨?_, ?_, ?_⟩ <;> (rw [hw, hRdef, hrem, hfloor]; try split_ifs) <;> omega
  · have hdm : d ≤ 30 := by omega
    have hfc : (y + 100100) / 100 = c := by omega
    have he : (y + 100100) / 100 * 3 / 4 = c * 3 / 4 := by rw [hfc]
    have hi : (c + 300) * 3 / 4 = c * 3 / 4 + 225 := by omega
    have hmod4 : (y + 100100) * 1461 % 4 = r % 4 := by omega
    have hw : (4 * n + 183187720) / 146097 = c + 300 := by omega
    obtain ⟨R, hR0, hR1, hRdef⟩ : ∃ R, 0 ≤ R ∧ R < 1461 ∧
        4 * n + 139361631 + (c + 300) * 3 / 4 * 4 - 3908 = 1461 * (y + 100100) + R :=
      ⟨4 * n + 139361631 + (c + 300) * 3 / 4 * 4 - 3908 - 1461 * (y + 100100),
        by omega, by omega, by ring⟩
    have hrem : (1461 * (y + 100100) + R) % 1461 = R := by omega
    have hfloor : R / 4 = 245 + d - 1 := by omega
    have hii : ((245 + d - 1) * 5 + 308) / 153 = 10 := by omega
    refine ⟨?_, ?_, ?_⟩ <;> (rw [hw, hRdef, hrem, hfloor]; try split_ifs) <;> omega
  · have hdm : d ≤ 31 := by omega
    have hfc : (y + 100100) / 100 = c := by omega
    have he : (y + 100100) / 100 * 3 / 4 = c * 3 / 4 := by rw [hfc]
    have hi : (c + 300) * 3 / 4 = c * 3 / 4 + 225 := by omega
    have hmod4 : (y + 100100) * 1461 % 4 = r % 4 := by omega
    have hw : (4 * n + 183187720) / 146097 = c + 300 := by omega
    obtain ⟨R, hR0, hR1, hRdef⟩ : ∃ R, 0 ≤ R ∧ R < 1461 ∧
        4 * n + 139361631 + (c + 300) * 3 / 4 * 4 - 3908 = 1461 * (y + 100100) + R :=
      ⟨4 * n + 139361631 + (c + 300) * 3 / 4 * 4 - 3908 - 1461 * (y + 100100),
        by omega, by omega, by ring⟩
    have hrem : (1461 * (y + 100100) + R) % 1461 = R := by omega
    have hfloor : R / 4 = 275 + d - 1 := by omega
    have hii : ((275 + d - 1) * 5 + 308) / 153 = 11 := by omega
    refine ⟨?_, ?_, ?_⟩ <;> (rw [hw, hRdef, hrem, hfloor]; try split_ifs) <;> omega



lemma jalCalLoop_cons (jy leapJ jp jump jm : Int) (rest : List Int) :
    jalCalLoop jy leapJ jp jump (jm :: rest) =
      if jy < jm then (leapJ, jp, jm - jp)
      else jalCalLoop jy (leapJ + jsDiv (jm - jp) 33 * 8 + jsDiv (jsMod (jm - jp) 33) 4)
        jm (jm - jp) rest := rfl


lemma jalCalLoop_11 (jy : Int) (h1 : 1210 ≤ jy) (h2 : jy < 1635) :
    jalCalLoop jy (-14) (-61) 0 (breaks.drop 1) = (294, 1210, 425) := by
  show jalCalLoop jy (-14) (-61) 0 [9, 38, 199, 426, 686, 756, 818, 1111, 1181, 1210, 1635, 2060, 2097, 2192, 2262, 2324, 2394, 2456, 3178] = (294, 1210, 425)
  rw [jalCalLoop_cons, if_neg (by omega)]
  show jalCalLoop jy 3 9 70 [38, 199, 426, 686, 756, 818, 1111, 1181, 1210, 1635, 2060, 2097, 2192, 2262, 2324, 2394, 2456, 3178] = (294, 1210, 425)
  rw [jalCalLoop_cons, if_neg (by omega)]
  show jalCalLoop jy 10 38 29 [199, 426, 686, 756, 818, 1111, 1181, 1210, 1635, 2060, 2097, 2192, 2262, 2324, 2394, 2456, 3178] = (294, 1210, 425)
  rw [jalCalLoop_cons, if_neg (by omega)]
  show jalCalLoop jy 49 199 161 [426, 686, 756, 818, 1111, 1181, 1210, 1635, 2060, 2097, 2192, 2262, 2324, 2394, 2456, 3178] = (294, 1210, 425)
  rw [jalCalLoop_cons, if_neg (by omega)]
  show jalCalLoop jy 104 426 227 [686, 756, 818, 1111, 1181, 1210, 1635, 2060, 2097, 2192, 2262, 2324, 2394, 2456, 3178] = (294, 1210, 425)
  rw [jalCalLoop_cons, if_neg (by omega)]
  show jalCalLoop jy 167 686 260 [756, 818, 1111, 1181, 1210, 1635, 2060, 2097, 2192, 2262, 2324, 2394, 2456, 3178] = (294, 1210, 425)
  rw [jalCalLoop_cons, if_neg (by omega)]
  show jalCalLoop jy 184 756 70 [818, 1111, 1181, 1210, 1635, 2060, 2097, 2192, 2262, 2324, 2394, 2456, 3178] = (294, 1210, 425)
  rw [jalCalLoop_cons, if_neg (by omega)]
  show jalCalLoop jy 199 818 62 [1111, 1181, 1210, 1635, 2060, 2097, 2192, 2262, 2324, 2394, 2456, 3178] = (294, 1210, 425)
  rw [jalCalLoop_cons, if_neg (by omega)]
  show jalCalLoop jy 270 1111 293 [1181, 1210, 1635, 2060, 2097, 2192, 2262, 2324, 2394, 2456, 3178] = (294, 1210, 425)
  rw [jalCalLoop_cons, if_neg (by omega)]
  show jalCalLoop jy 287 1181 70 [1210, 1635, 2060, 2097, 2192, 2262, 2324, 2394, 2456, 3178] = (294, 1210, 425)
  rw [jalCalLoop_cons, if_neg (by omega)]
  show jalCalLoop jy 294 1210 29 [1635, 2060, 2097, 2192, 2262, 2324, 2394, 2456, 3178] = (294, 1210, 425)
  rw [jalCalLoop_cons, if_pos (by omega)]
  decide


set_option maxHeartbeats 1000000 in
lemma jalCal_eval (jy C jp jump : Int)
    (hlo : -61 ≤ jy) (hhi : jy < 3178)
    (hloop : jalCalLoop jy (-14) (-61) 0 (breaks.drop 1) = (C, jp, jump))
    (hn0 : 0 ≤ jy - jp) (hj29 : 29 ≤ jump) :
    jalCal jy = some ⟨leapOf jp jump jy, jy + 621, marchOf C jp jump jy⟩ := by
  unfold jalCal
  rw [if_neg (by omega), hloop]
  dsimp only
  simp only [jsDiv, jsMod]
  have t1 : Int.tdiv (jy - jp) 33 = (jy - jp) / 33 := Int.tdiv_eq_ediv hn0 (by omega)
  have t2 : jy - jp - (jy - jp) / 33 * 33 = (jy - jp) % 33 := by omega
  have t3 : Int.tdiv ((jy - jp) % 33 + 3) 4 = ((jy - jp) % 33 + 3) / 4 :=
    Int.tdiv_eq_ediv (by omega) (by omega)
  have t4 : Int.tdiv jump 33 = jump / 33 := Int.tdiv_eq_ediv (by omega) (by omega)
  have t5 : jump - jump / 33 * 33 = jump % 33 := by omega
  have t6 : Int.tdiv (jy + 621) 4 = (jy + 621) / 4 := Int.tdiv_eq_ediv (by omega) (by omega)
  have t7 : Int.tdiv (jy + 621) 100 = (jy + 621) / 100 := Int.tdiv_eq_ediv (by omega) (by omega)
  have t8 : Int.tdiv (((jy + 621) / 100 + 1) * 3) 4 = ((jy + 621) / 100 + 1) * 3 / 4 :=
    Int.tdiv_eq_ediv (by omega) (by omega)
  have t9 : Int.tdiv (jump + 4) 33 = (jump + 4) / 33 := Int.tdiv_eq_ediv (by omega) (by omega)
  simp only [t1, t2, t3, t4, t5, t6, t7, t8, t9]
  have tnp : (if jump - (jy - jp) < 6 then jy - jp - jump + (jump + 4) / 33 * 33
      else jy - jp) = nprimeOf jp jump jy := rfl
  simp only [tnp]
  have hnp0 : 0 ≤ nprimeOf jp jump jy := by
    unfold nprimeOf; split_ifs <;> omega
  have t10 : Int.tdiv (nprimeOf jp jump jy + 1) 33 = (nprimeOf jp jump jy + 1) / 33 :=
    Int.tdiv_eq_ediv (by omega) (by omega)
  have t11 : nprimeOf jp jump jy + 1 - (nprimeOf jp jump jy + 1) / 33 * 33
      = (nprimeOf jp jump jy + 1) % 33 := by omega
  simp only [t10, t11]
  simp only [Option.some.injEq, JalCalResult.mk.injEq]
  refine ⟨?_, trivial, ?_⟩
  · by_cases h0 : (nprimeOf jp jump jy + 1) % 33 = 0
    · rw [h0]
      have e1 : (0 : Int) - 1 - Int.tdiv ((0 : Int) - 1) 4 * 4 = -1 := by decide
      rw [e1, if_pos rfl]
      simp only [leapOf]
      rw [if_pos h0]
    · have t12 : Int.tdiv ((nprimeOf jp jump jy + 1) % 33 - 1) 4
          = ((nprimeOf jp jump jy + 1) % 33 - 1) / 4 :=
        Int.tdiv_eq_ediv (by omega) (by omega)
      have t13 : (nprimeOf jp jump jy + 1) % 33 - 1
            - ((nprimeOf jp jump jy + 1) % 33 - 1) / 4 * 4
          = ((nprimeOf jp jump jy + 1) % 33 - 1) % 4 := by omega
      rw [t12, t13, if_neg (by omega)]
      simp only [leapOf]
      rw [if_neg h0]
  · simp only [marchOf]
    split_ifs <;> omega


lemma jalCal_in_11 (jy : Int) (h1 : 1210 ≤ jy) (h2 : jy < 1635) :
    jalCal jy = some ⟨leapOf 1210 425 jy, jy + 621, marchOf 294 1210 425 jy⟩ :=
  jalCal_eval jy 294 1210 425 (by omega) (by omega) (jalCalLoop_11 jy h1 h2)
    (by omega) (by omega)

set_option maxHeartbeats 1000000 in
lemma march_bounds_11 (jy : Int) (h1 : 1210 ≤ jy) (h2 : jy < 1635) :
    19 ≤ marchOf 294 1210 425 jy ∧ marchOf 294 1210 425 jy ≤ 22 := by
  unfold marchOf
  split_ifs <;> omega

set_option maxHeartbeats 4000000 in
lemma yearlen_11 (jy : Int) (h1 : 1211 ≤ jy) (h2 : jy < 1635) :
    g2d (jy + 621) 3 (marchOf 294 1210 425 jy)
      - g2d (jy + 620) 3 (marchOf 294 1210 425 (jy - 1))
      = 365 + (if leapOf 1210 425 jy = 1 then 1 else 0) := by
  rw [g2d_eq_late (jy + 621) 3 (marchOf 294 1210 425 jy) (by omega) (by omega) (by omega),
      g2d_eq_late (jy + 620) 3 (marchOf 294 1210 425 (jy - 1)) (by omega) (by omega) (by omega)]
  unfold marchOf leapOf nprimeOf
  have n1 : jy - 1 + 621 = jy + 620 := by ring
  rw [n1]
  by_cases htop : 1630 ≤ jy
  · interval_cases jy <;> decide
  · have hE1 : (jy + 621 + 100100) * 1461 / 4 = 365 * (jy + 100721) + (jy + 100721) / 4 := by
      omega
    have hE2 : (jy + 620 + 100100) * 1461 / 4 = 365 * (jy + 100720) + (jy + 100720) / 4 := by
      omega
    have g1 : (jy + 100721) / 4 - (jy + 100720) / 4 = (jy + 621) / 4 - (jy + 620) / 4 := by
      omega
    have c1 : (jy + 621 + 100100) / 100 = (jy + 621) / 100 + 1001 := by omega
    have c2 : ((jy + 621) / 100 + 1001) * 3 / 4 = ((jy + 621) / 100 + 1) * 3 / 4 + 750 := by
      omega
    have c3 : (jy + 620 + 100100) / 100 = (jy + 620) / 100 + 1001 := by omega
    have c4 : ((jy + 620) / 100 + 1001) * 3 / 4 = ((jy + 620) / 100 + 1) * 3 / 4 + 750 := by
      omega
    rw [c1, c2, c3, c4]
    obtain ⟨q, s, hqs, hs0, hs1⟩ : ∃ q s, jy - 1210 = 33 * q + s ∧ 0 ≤ s ∧ s < 33 :=
      ⟨(jy - 1210) / 33, (jy - 1210) % 33, by omega, by omega, by omega⟩
    have hq1 : (jy - 1210) / 33 = q := by omega
    have hr1 : (jy - 1210) % 33 = s := by omega
    by_cases hs : s = 0
    · have hq2 : (jy - 1 - 1210) / 33 = q - 1 := by omega
      have hr2 : (jy - 1 - 1210) % 33 = 32 := by omega
      have hp1 : (jy - 1210 + 1) / 33 = q := by omega
      have hp2 : (jy - 1210 + 1) % 33 = 1 := by omega
      split_ifs <;> omega
    · by_cases hs32 : s = 32
      · have hq2 : (jy - 1 - 1210) / 33 = q := by omega
        have hr2 : (jy - 1 - 1210) % 33 = 31 := by omega
        have hp1 : (jy - 1210 + 1) / 33 = q + 1 := by omega
        have hp2 : (jy - 1210 + 1) % 33 = 0 := by omega
        split_ifs <;> omega
      · have hq2 : (jy - 1 - 1210) / 33 = q := by omega
        have hr2 : (jy - 1 - 1210) % 33 = s - 1 := by omega
        have hp1 : (jy - 1210 + 1) / 33 = q := by omega
        have hp2 : (jy - 1210 + 1) % 33 = s + 1 := by omega
        split_ifs <;> omega


theorem d2g_g2d (y m d : Int) (hy : 500 ≤ y) (hy2 : y ≤ 3900) (hv : gregValid y m d) :
    d2g (g2d y m d) = ⟨y, m, d⟩ := by
  obtain ⟨hm1, hm2, hd1, hd31, hfeb, h30⟩ := hv
  by_cases hm : m ≤ 2
  · rw [g2d_eq_early y m d hy hm1 hm]
    refine d2g_reconstruct_early y m d ((y + 100099) / 100) ((y + 100099) % 100) _ hd1
      ?_ hy hy2 (by omega) (by omega) (by omega) rfl
    by_cases h1 : m = 1
    · exact Or.inl ⟨h1, hd31⟩
    · have h2 : m = 2 := by omega
      exact Or.inr ⟨h2, hfeb h2⟩
  · rw [g2d_eq_late y m d hy (by omega) hm2]
    refine d2g_reconstruct_late y m d ((y + 100100) / 100) ((y + 100100) % 100) _
      (by omega) hm2 hd1 ?_ hy hy2 (by omega) (by omega) (by omega) rfl
    by_cases h4 : m = 4 ∨ m = 6 ∨ m = 9 ∨ m = 11
    · exact Or.inl (h30 h4)
    · exact Or.inr ⟨hd31, by omega⟩


lemma toGregorian_val (jy jm jd : Int) (h1 : 1210 ≤ jy) (h2 : jy < 1635) :
    toGregorian jy jm jd = some (d2g (g2d (jy + 621) 3 (marchOf 294 1210 425 jy)
      + (jm - 1) * 31 - jsDiv jm 7 * (jm - 7) + jd - 1)) := by
  unfold toGregorian j2d
  rw [jalCal_in_11 jy h1 h2]
  rfl


lemma d2j_val (n y : Int) (hy : 1925 ≤ y) (hy2 : y ≤ 2251) (hgy : (d2g n).gy = y) :
    d2j n = some (
      if n - g2d y 3 (marchOf 294 1210 425 (y - 621)) ≥ 0 then
        if n - g2d y 3 (marchOf 294 1210 425 (y - 621)) ≤ 185 then
          ⟨y - 621, 1 + jsDiv (n - g2d y 3 (marchOf 294 1210 425 (y - 621))) 31,
            jsMod (n - g2d y 3 (marchOf 294 1210 425 (y - 621))) 31 + 1⟩
        else
          ⟨y - 621, 7 + jsDiv (n - g2d y 3 (marchOf 294 1210 425 (y - 621)) - 186) 30,
            jsMod (n - g2d y 3 (marchOf 294 1210 425 (y - 621)) - 186) 30 + 1⟩
      else
        ⟨y - 621 - 1,
          7 + jsDiv (if leapOf 1210 425 (y - 621) = 1 then
              n - g2d y 3 (marchOf 294 1210 425 (y - 621)) + 179 + 1
            else n - g2d y 3 (marchOf 294 1210 425 (y - 621)) + 179) 30,
          jsMod (if leapOf 1210 425 (y - 621) = 1 then
              n - g2d y 3 (marchOf 294 1210 425 (y - 621)) + 179 + 1
            else n - g2d y 3 (marchOf 294 1210 425 (y - 621)) + 179) 30 + 1⟩) := by
  unfold d2j
  rw [hgy]
  dsimp only
  rw [jalCal_in_11 (y - 621) (by omega) (by omega)]
  simp only [Option.map_some']

set_option maxHeartbeats 4000000 in
theorem roundtrip_11 (y m d : Int) (hy : 1925 ≤ y) (hy2 : y ≤ 2250) (hv : gregValid y m d) :
    ((toJalaali y m d).bind fun j => toGregorian j.jy j.jm j.jd) = some ⟨y, m, d⟩ := by
  have hval := hv
  obtain ⟨hm1, hm2, hd1, hd31, hfeb, h30⟩ := hv
  have hdg : d2g (g2d y m d) = ⟨y, m, d⟩ := d2g_g2d y m d (by omega) (by omega) hval
  obtain ⟨hmb1, hmb2⟩ := march_bounds_11 (y - 621) (by omega) (by omega)
  obtain ⟨hpb1, hpb2⟩ := march_bounds_11 (y - 622) (by omega) (by omega)
  have hyl := yearlen_11 (y - 621) (by omega) (by omega)
  rw [show y - 621 + 621 = y from by ring, show y - 621 + 620 = y - 1 from by ring,
      show y - 621 - 1 = y - 622 from by ring] at hyl
  have hklb : -82 ≤ g2d y m d - g2d y 3 (marchOf 294 1210 425 (y - 621)) := by
    by_cases hm : m ≤ 2
    · rw [g2d_eq_early y m d (by omega) hm1 hm,
        g2d_eq_late y 3 (marchOf 294 1210 425 (y - 621)) (by omega) (by omega) (by omega)]
      omega
    · rw [g2d_eq_late y m d (by omega) (by omega) hm2,
        g2d_eq_late y 3 (marchOf 294 1210 425 (y - 621)) (by omega) (by omega) (by omega)]
      omega
  have hkub : g2d y m d - g2d y 3 (marchOf 294 1210 425 (y - 621)) ≤ 330 := by
    by_cases hm : m ≤ 2
    · rw [g2d_eq_early y m d (by omega) hm1 hm,
        g2d_eq_late y 3 (marchOf 294 1210 425 (y - 621)) (by omega) (by omega) (by omega)]
      omega
    · rw [g2d_eq_late y m d (by omega) (by omega) hm2,
        g2d_eq_late y 3 (marchOf 294 1210 425 (y - 621)) (by omega) (by omega) (by omega)]
      omega
  unfold toJalaali
  rw [d2j_val (g2d y m d) y (by omega) (by omega) (by rw [hdg])]
  split_ifs with hk0 hk185 hfl
  · -- 0 ≤ k ≤ 185
    simp only [Option.some_bind]
    rw [toGregorian_val (y - 621) _ _ (by omega) (by omega)]
    rw [show y - 621 + 621 = y from by ring]
    have t1 : jsDiv (g2d y m d - g2d y 3 (marchOf 294 1210 425 (y - 621))) 31
        = (g2d y m d - g2d y 3 (marchOf 294 1210 425 (y - 621))) / 31 :=
      Int.tdiv_eq_ediv (by omega) (by omega)
    have t2 : jsMod (g2d y m d - g2d y 3 (marchOf 294 1210 425 (y - 621))) 31
        = (g2d y m d - g2d y 3 (marchOf 294 1210 425 (y - 621))) % 31 := by
      unfold jsMod
      rw [Int.tdiv_eq_ediv (by omega) (by omega)]
      omega
    rw [t1, t2]
    have t3 : jsDiv (1 + (g2d y m d - g2d y 3 (marchOf 294 1210 425 (y - 621))) / 31) 7
        = 0 := by
      have hte := Int.tdiv_eq_ediv (a := 1 + (g2d y m d - g2d y 3 (marchOf 294 1210 425 (y - 621))) / 31) (b := 7) (by omega) (by omega)
      unfold jsDiv
      omega
    rw [t3]
    rw [show g2d y 3 (marchOf 294 1210 425 (y - 621))
        + (1 + (g2d y m d - g2d y 3 (marchOf 294 1210 425 (y - 621))) / 31 - 1) * 31
        - 0 * (1 + (g2d y m d - g2d y 3 (marchOf 294 1210 425 (y - 621))) / 31 - 7)
        + ((g2d y m d - g2d y 3 (marchOf 294 1210 425 (y - 621))) % 31 + 1) - 1
        = g2d y m d from by omega]
    rw [hdg]
  · -- k ≥ 186
    simp only [Option.some_bind]
    rw [toGregorian_val (y - 621) _ _ (by omega) (by omega)]
    rw [show y - 621 + 621 = y from by ring]
    have t1 : jsDiv (g2d y m d - g2d y 3 (marchOf 294 1210 425 (y - 621)) - 186) 30
        = (g2d y m d - g2d y 3 (marchOf 294 1210 425 (y - 621)) - 186) / 30 :=
      Int.tdiv_eq_ediv (by omega) (by omega)
    have t2 : jsMod (g2d y m d - g2d y 3 (marchOf 294 1210 425 (y - 621)) - 186) 30
        = (g2d y m d - g2d y 3 (marchOf 294 1210 425 (y - 621)) - 186) % 30 := by
      unfold jsMod
      rw [Int.tdiv_eq_ediv (by omega) (by omega)]
      omega
    rw [t1, t2]
    have t3 : jsDiv (7 + (g2d y m d - g2d y 3 (marchOf 294 1210 425 (y - 621)) - 186) / 30) 7
        = 1 := by
      have hte := Int.tdiv_eq_ediv (a := 7 + (g2d y m d - g2d y 3 (marchOf 294 1210 425 (y - 621)) - 186) / 30) (b := 7) (by omega) (by omega)
      unfold jsDiv
      omega
    rw [t3]
    rw [show g2d y 3 (marchOf 294 1210 425 (y - 621))
        + (7 + (g2d y m d - g2d y 3 (marchOf 294 1210 425 (y - 621)) - 186) / 30 - 1) * 31
        - 1 * (7 + (g2d y m d - g2d y 3 (marchOf 294 1210 425 (y - 621)) - 186) / 30 - 7)
        + ((g2d y m d - g2d y 3 (marchOf 294 1210 425 (y - 621)) - 186) % 30 + 1) - 1
        = g2d y m d from by omega]
    rw [hdg]
  · -- k < 0, leap flag = 1
    simp only [Option.some_bind]
    rw [toGregorian_val (y - 621 - 1) _ _ (by omega) (by omega)]
    rw [show y - 621 - 1 + 621 = y - 1 from by ring,
        show y - 621 - 1 = y - 622 from by ring]
    have t1 : jsDiv (g2d y m d - g2d y 3 (marchOf 294 1210 425 (y - 621)) + 179 + 1) 30
        = (g2d y m d - g2d y 3 (marchOf 294 1210 425 (y - 621)) + 179 + 1) / 30 :=
      Int.tdiv_eq_ediv (by omega) (by omega)
    have t2 : jsMod (g2d y m d - g2d y 3 (marchOf 294 1210 425 (y - 621)) + 179 + 1) 30
        = (g2d y m d - g2d y 3 (marchOf 294 1210 425 (y - 621)) + 179 + 1) % 30 := by
      unfold jsMod
      rw [Int.tdiv_eq_ediv (by omega) (by omega)]
      omega
    rw [t1, t2]
    have t3 : jsDiv (7 + (g2d y m d - g2d y 3 (marchOf 294 1210 425 (y - 621)) + 179 + 1) / 30) 7
        = 1 := by
      have hte := Int.tdiv_eq_ediv (a := 7 + (g2d y m d - g2d y 3 (marchOf 294 1210 425 (y - 621)) + 179 + 1) / 30) (b := 7) (by omega) (by omega)
      unfold jsDiv
      omega
    rw [t3]
    rw [if_pos hfl] at hyl
    rw [show g2d (y - 1) 3 (marchOf 294 1210 425 (y - 622))
        + (7 + (g2d y m d - g2d y 3 (marchOf 294 1210 425 (y - 621)) + 179 + 1) / 30 - 1) * 31
        - 1 * (7 + (g2d y m d - g2d y 3 (marchOf 294 1210 425 (y - 621)) + 179 + 1) / 30 - 7)
        + ((g2d y m d - g2d y 3 (marchOf 294 1210 425 (y - 621)) + 179 + 1) % 30 + 1) - 1
        = g2d y m d from by omega]
    rw [hdg]
  · -- k < 0, leap flag = 0
    simp only [Option.some_bind]
    rw [toGregorian_val (y - 621 - 1) _ _ (by omega) (by omega)]
    rw [show y - 621 - 1 + 621 = y - 1 from by ring,
        show y - 621 - 1 = y - 622 from by ring]
    have t1 : jsDiv (g2d y m d - g2d y 3 (marchOf 294 1210 425 (y - 621)) + 179) 30
        = (g2d y m d - g2d y 3 (marchOf 294 1210 425 (y - 621)) + 179) / 30 :=
      Int.tdiv_eq_ediv (by omega) (by omega)
    have t2 : jsMod (g2d y m d - g2d y 3 (marchOf 294 1210 425 (y - 621)) + 179) 30
        = (g2d y m d - g2d y 3 (marchOf 294 1210 425 (y - 621)) + 179) % 30 := by
      unfold jsMod
      rw [Int.tdiv_eq_ediv (by omega) (by omega)]
      omega
    rw [t1, t2]
    have t3 : jsDiv (7 + (g2d y m d - g2d y 3 (marchOf 294 1210 425 (y - 621)) + 179) / 30) 7
        = 1 := by
      have hte := Int.tdiv_eq_ediv (a := 7 + (g2d y m d - g2d y 3 (marchOf 294 1210 425 (y - 621)) + 179) / 30) (b := 7) (by omega) (by omega)
      unfold jsDiv
      omega
    rw [t3]
    rw [if_neg hfl] at hyl
    rw [show g2d (y - 1) 3 (marchOf 294 1210 425 (y - 622))
        + (7 + (g2d y m d - g2d y 3 (marchOf 294 1210 425 (y - 621)) + 179) / 30 - 1) * 31
        - 1 * (7 + (g2d y m d - g2d y 3 (marchOf 294 1210 425 (y - 621)) + 179) / 30 - 7)
        + ((g2d y m d - g2d y 3 (marchOf 294 1210 425 (y - 621)) + 179) % 30 + 1) - 1
        = g2d y m d from by omega]
    rw [hdg]


/-- C3: over the Gregorian years 1925 to 2250 — a span covering more
than three Jalaali centuries (Jalaali years 1304 to 1629) — every
valid Gregorian calendar date survives the round trip:
gregorianToJalaali followed by jalaaliToGregorian on the produced
year, month and day returns the original date, with no drift. -/
theorem jalaali_roundtrip_three_centuries (y m d : Int)
    (hy : 1925 ≤ y) (hy2 : y ≤ 2250) (hv : gregValid y m d) :
    ((gregorianToJalaali ⟨y, m, d⟩).bind fun j =>
        jalaaliToGregorian j.jy j.jm j.jd) = some ⟨y, m, d⟩ :=
  roundtrip_11 y m d hy hy2 hv

/-- C3 witness: 2024-03-24 (which is 1403/01/05) round-trips. -/
theorem jalaali_roundtrip_three_centuries_witness :
    ((gregorianToJalaali ⟨2024, 3, 24⟩).bind fun j =>
        jalaaliToGregorian j.jy j.jm j.jd) = some ⟨2024, 3, 24⟩ :=
  jalaali_roundtrip_three_centuries 2024 3 24 (by norm_num) (by norm_num)
    (by unfold gregValid; omega)


set_option maxHeartbeats 4000000 in
lemma yearlen_main (C jp jump jy : Int) (hjp : -61 ≤ jp) (hj : 29 ≤ jump)
    (h1 : jp + 1 ≤ jy) (h2 : jy ≤ jp + jump - 6) :
    g2d (jy + 621) 3 (marchOf C jp jump jy)
      - g2d (jy + 620) 3 (marchOf C jp jump (jy - 1))
      = 365 + (if leapOf jp jump jy = 1 then 1 else 0) := by
  rw [g2d_eq_late (jy + 621) 3 (marchOf C jp jump jy) (by omega) (by omega) (by omega),
      g2d_eq_late (jy + 620) 3 (marchOf C jp jump (jy - 1)) (by omega) (by omega) (by omega)]
  unfold marchOf leapOf nprimeOf
  have n1 : jy - 1 + 621 = jy + 620 := by ring
  rw [n1]
  have hE1 : (jy + 621 + 100100) * 1461 / 4 = 365 * (jy + 100721) + (jy + 100721) / 4 := by
    omega
  have hE2 : (jy + 620 + 100100) * 1461 / 4 = 365 * (jy + 100720) + (jy + 100720) / 4 := by
    omega
  have g1 : (jy + 100721) / 4 - (jy + 100720) / 4 = (jy + 621) / 4 - (jy + 620) / 4 := by
    omega
  have c1 : (jy + 621 + 100100) / 100 = (jy + 621) / 100 + 1001 := by omega
  have c2 : ((jy + 621) / 100 + 1001) * 3 / 4 = ((jy + 621) / 100 + 1) * 3 / 4 + 750 := by
    omega
  have c3 : (jy + 620 + 100100) / 100 = (jy + 620) / 100 + 1001 := by omega
  have c4 : ((jy + 620) / 100 + 1001) * 3 / 4 = ((jy + 620) / 100 + 1) * 3 / 4 + 750 := by
    omega
  rw [c1, c2, c3, c4]
  obtain ⟨q, s, hqs, hs0, hs1⟩ : ∃ q s, jy - jp = 33 * q + s ∧ 0 ≤ s ∧ s < 33 :=
    ⟨(jy - jp) / 33, (jy - jp) % 33, by omega, by omega, by omega⟩
  have hq1 : (jy - jp) / 33 = q := by omega
  have hr1 : (jy - jp) % 33 = s := by omega
  by_cases hs : s = 0
  · have hq2 : (jy - 1 - jp) / 33 = q - 1 := by omega
    have hr2 : (jy - 1 - jp) % 33 = 32 := by omega
    have hp1 : (jy - jp + 1) / 33 = q := by omega
    have hp2 : (jy - jp + 1) % 33 = 1 := by omega
    split_ifs <;> omega
  · by_cases hs32 : s = 32
    · have hq2 : (jy - 1 - jp) / 33 = q := by omega
      have hr2 : (jy - 1 - jp) % 33 = 31 := by omega
      have hp1 : (jy - jp + 1) / 33 = q + 1 := by omega
      have hp2 : (jy - jp + 1) % 33 = 0 := by omega
      split_ifs <;> omega
    · have hq2 : (jy - 1 - jp) / 33 = q := by omega
      have hr2 : (jy - 1 - jp) % 33 = s - 1 := by omega
      have hp1 : (jy - jp + 1) / 33 = q := by omega
      have hp2 : (jy - jp + 1) % 33 = s + 1 := by omega
      split_ifs <;> omega

set_option maxHeartbeats 4000000 in
lemma yearlen_top29 (C jp jump jy : Int) (hjp : -61 ≤ jp) (hj : 29 ≤ jump)
    (hjm : jump % 33 = 29) (hdiv : (jump + 4) / 33 * 33 = jump + 4)
    (h1 : jp + jump - 5 ≤ jy) (h2 : jy < jp + jump) :
    g2d (jy + 621) 3 (marchOf C jp jump jy)
      - g2d (jy + 620) 3 (marchOf C jp jump (jy - 1))
      = 365 + (if leapOf jp jump jy = 1 then 1 else 0) := by
  rw [g2d_eq_late (jy + 621) 3 (marchOf C jp jump jy) (by omega) (by omega) (by omega),
      g2d_eq_late (jy + 620) 3 (marchOf C jp jump (jy - 1)) (by omega) (by omega) (by omega)]
  unfold marchOf leapOf nprimeOf
  have n1 : jy - 1 + 621 = jy + 620 := by ring
  rw [n1]
  have hE1 : (jy + 621 + 100100) * 1461 / 4 = 365 * (jy + 100721) + (jy + 100721) / 4 := by
    omega
  have hE2 : (jy + 620 + 100100) * 1461 / 4 = 365 * (jy + 100720) + (jy + 100720) / 4 := by
    omega
  have g1 : (jy + 100721) / 4 - (jy + 100720) / 4 = (jy + 621) / 4 - (jy + 620) / 4 := by
    omega
  have c1 : (jy + 621 + 100100) / 100 = (jy + 621) / 100 + 1001 := by omega
  have c2 : ((jy + 621) / 100 + 1001) * 3 / 4 = ((jy + 621) / 100 + 1) * 3 / 4 + 750 := by
    omega
  have c3 : (jy + 620 + 100100) / 100 = (jy + 620) / 100 + 1001 := by omega
  have c4 : ((jy + 620) / 100 + 1001) * 3 / 4 = ((jy + 620) / 100 + 1) * 3 / 4 + 750 := by
    omega
  rw [c1, c2, c3, c4]
  obtain ⟨J, hJ⟩ : ∃ J, jump = 33 * J + 29 := ⟨jump / 33, by omega⟩
  have hq1 : (jy - jp) / 33 = J := by omega
  have hr1 : (jy - jp) % 33 = jy - jp - 33 * J := by omega
  have hq2 : (jy - 1 - jp) / 33 = J := by omega
  have hr2 : (jy - 1 - jp) % 33 = jy - 1 - jp - 33 * J := by omega
  by_cases hb : jy = jp + jump - 1
  · have hp2 : (jy - jp - jump + (jump + 4) / 33 * 33 + 1) % 33 = 0 := by omega
    split_ifs <;> omega
  · have hp2 : (jy - jp - jump + (jump + 4) / 33 * 33 + 1) % 33
        = jy - jp + 5 - 33 * J := by omega
    split_ifs <;> omega

set_option maxHeartbeats 4000000 in
lemma yearlen_top4 (C jp jump jy : Int) (hjp : -61 ≤ jp) (hj : 29 ≤ jump)
    (hjm : jump % 33 = 4) (hdiv : (jump + 4) / 33 * 33 = jump - 4)
    (h1 : jp + jump - 5 ≤ jy) (h2 : jy < jp + jump) :
    g2d (jy + 621) 3 (marchOf C jp jump jy)
      - g2d (jy + 620) 3 (marchOf C jp jump (jy - 1))
      = 365 + (if leapOf jp jump jy = 1 then 1 else 0) := by
  rw [g2d_eq_late (jy + 621) 3 (marchOf C jp jump jy) (by omega) (by omega) (by omega),
      g2d_eq_late (jy + 620) 3 (marchOf C jp jump (jy - 1)) (by omega) (by omega) (by omega)]
  unfold marchOf leapOf nprimeOf
  have n1 : jy - 1 + 621 = jy + 620 := by ring
  rw [n1]
  have hE1 : (jy + 621 + 100100) * 1461 / 4 = 365 * (jy + 100721) + (jy + 100721) / 4 := by
    omega
  have hE2 : (jy + 620 + 100100) * 1461 / 4 = 365 * (jy + 100720) + (jy + 100720) / 4 := by
    omega
  have g1 : (jy + 100721) / 4 - (jy + 100720) / 4 = (jy + 621) / 4 - (jy + 620) / 4 := by
    omega
  have c1 : (jy + 621 + 100100) / 100 = (jy + 621) / 100 + 1001 := by omega
  have c2 : ((jy + 621) / 100 + 1001) * 3 / 4 = ((jy + 621) / 100 + 1) * 3 / 4 + 750 := by
    omega
  have c3 : (jy + 620 + 100100) / 100 = (jy + 620) / 100 + 1001 := by omega
  have c4 : ((jy + 620) / 100 + 1001) * 3 / 4 = ((jy + 620) / 100 + 1) * 3 / 4 + 750 := by
    omega
  rw [c1, c2, c3, c4]
  obtain ⟨J, hJ⟩ : ∃ J, jump = 33 * J + 4 := ⟨jump / 33, by omega⟩
  by_cases hb : jy = jp + jump - 5
  · have hq1 : (jy - jp) / 33 = J - 1 := by omega
    have hr1 : (jy - jp) % 33 = 32 := by omega
    have hq2 : (jy - 1 - jp) / 33 = J - 1 := by omega
    have hr2 : (jy - 1 - jp) % 33 = 31 := by omega
    have hp2 : (jy - jp - jump + (jump + 4) / 33 * 33 + 1) % 33 = 29 := by omega
    split_ifs <;> omega
  · by_cases hb2 : jy = jp + jump - 4
    · have hq1 : (jy - jp) / 33 = J := by omega
      have hr1 : (jy - jp) % 33 = 0 := by omega
      have hq2 : (jy - 1 - jp) / 33 = J - 1 := by omega
      have hr2 : (jy - 1 - jp) % 33 = 32 := by omega
      have hp2 : (jy - jp - jump + (jump + 4) / 33 * 33 + 1) % 33 = 30 := by omega
      split_ifs <;> omega
    · have hq1 : (jy - jp) / 33 = J := by omega
      have hr1 : (jy - jp) % 33 = jy - jp - 33 * J := by omega
      have hq2 : (jy - 1 - jp) / 33 = J := by omega
      have hr2 : (jy - 1 - jp) % 33 = jy - 1 - jp - 33 * J := by omega
      by_cases hb3 : jy = jp + jump - 1
      · have hp2 : (jy - jp - jump + (jump + 4) / 33 * 33 + 1) % 33 = 0 := by omega
        split_ifs <;> omega
      · have hp2 : (jy - jp - jump + (jump + 4) / 33 * 33 + 1) % 33
            = jy - jp - 3 - 33 * (J - 1) := by omega
        split_ifs <;> omega

set_option maxHeartbeats 2000000 in
lemma leapsucc_main (jp jump jy : Int) (hj : 29 ≤ jump)
    (h1 : jp ≤ jy) (h2 : jy + 1 ≤ jp + jump - 6) :
    (leapOf jp jump (jy + 1) = 1 ↔ leapOf jp jump jy = 0) := by
  unfold leapOf nprimeOf
  obtain ⟨q, s, hqs, hs0, hs1⟩ : ∃ q s, jy - jp = 33 * q + s ∧ 0 ≤ s ∧ s < 33 :=
    ⟨(jy - jp) / 33, (jy - jp) % 33, by omega, by omega, by omega⟩
  by_cases hs31 : s = 31
  · have hp1 : (jy - jp + 1) % 33 = 32 := by omega
    have hp2 : (jy + 1 - jp + 1) % 33 = 0 := by omega
    split_ifs <;> omega
  · by_cases hs32 : s = 32
    · have hp1 : (jy - jp + 1) % 33 = 0 := by omega
      have hp2 : (jy + 1 - jp + 1) % 33 = 1 := by omega
      split_ifs <;> omega
    · have hp1 : (jy - jp + 1) % 33 = s + 1 := by omega
      have hp2 : (jy + 1 - jp + 1) % 33 = s + 2 := by omega
      split_ifs <;> omega

set_option maxHeartbeats 2000000 in
lemma leapsucc_top29 (jp jump jy : Int) (hj : 29 ≤ jump)
    (hjm : jump % 33 = 29) (hdiv : (jump + 4) / 33 * 33 = jump + 4)
    (h1 : jp + jump - 6 ≤ jy) (h2 : jy + 1 < jp + jump) :
    (leapOf jp jump (jy + 1) = 1 ↔ leapOf jp jump jy = 0) := by
  unfold leapOf nprimeOf
  obtain ⟨J, hJ⟩ : ∃ J, jump = 33 * J + 29 := ⟨jump / 33, by omega⟩
  have e1 : (jy - jp - jump + (jump + 4) / 33 * 33 + 1) % 33 = jy - jp + 5 - 33 * J := by
    omega
  have e2 : (jy - jp + 1) % 33 = jy - jp + 1 - 33 * J := by omega
  by_cases hb : jy = jp + jump - 2
  · have e3 : (jy + 1 - jp - jump + (jump + 4) / 33 * 33 + 1) % 33 = 0 := by omega
    split_ifs <;> omega
  · have e3 : (jy + 1 - jp - jump + (jump + 4) / 33 * 33 + 1) % 33
        = jy - jp + 6 - 33 * J := by omega
    split_ifs <;> omega

set_option maxHeartbeats 2000000 in
lemma leapsucc_top4 (jp jump jy : Int) (hj : 29 ≤ jump)
    (hjm : jump % 33 = 4) (hdiv : (jump + 4) / 33 * 33 = jump - 4)
    (h1 : jp + jump - 6 ≤ jy) (h2 : jy + 1 < jp + jump) :
    (leapOf jp jump (jy + 1) = 1 ↔ leapOf jp jump jy = 0) := by
  unfold leapOf nprimeOf
  obtain ⟨J, hJ⟩ : ∃ J, jump = 33 * J + 4 := ⟨jump / 33, by omega⟩
  by_cases hc : jy = jp + jump - 6
  · have e2 : (jy - jp + 1) % 33 = 32 := by omega
    have e3 : (jy + 1 - jp - jump + (jump + 4) / 33 * 33 + 1) % 33 = 29 := by omega
    split_ifs <;> omega
  · by_cases hb : jy = jp + jump - 2
    · have e1 : (jy - jp - jump + (jump + 4) / 33 * 33 + 1) % 33
          = jy - jp - 3 - 33 * (J - 1) := by omega
      have e3 : (jy + 1 - jp - jump + (jump + 4) / 33 * 33 + 1) % 33 = 0 := by omega
      split_ifs <;> omega
    · have e1 : (jy - jp - jump + (jump + 4) / 33 * 33 + 1) % 33
          = jy - jp - 3 - 33 * (J - 1) := by omega
      have e3 : (jy + 1 - jp - jump + (jump + 4) / 33 * 33 + 1) % 33
          = jy - jp - 2 - 33 * (J - 1) := by omega
      split_ifs <;> omega
lemma jalCalLoop_i0 (jy : Int) (h1 : (-61) ≤ jy) (h2 : jy < 9) :
    jalCalLoop jy (-14) (-61) 0 (breaks.drop 1) = ((-14), (-61), 70) := by
  show jalCalLoop jy (-14) (-61) 0 [9, 38, 199, 426, 686, 756, 818, 1111, 1181, 1210, 1635, 2060, 2097, 2192, 2262, 2324, 2394, 2456, 3178] = ((-14), (-61), 70)
  rw [jalCalLoop_cons, if_pos (by omega)]
  decide

lemma jalCal_in_i0 (jy : Int) (h1 : (-61) ≤ jy) (h2 : jy < 9) :
    jalCal jy = some ⟨leapOf (-61) 70 jy, jy + 621, marchOf (-14) (-61) 70 jy⟩ :=
  jalCal_eval jy (-14) (-61) 70 (by omega) (by omega) (jalCalLoop_i0 jy h1 h2)
    (by omega) (by omega)

set_option maxHeartbeats 2000000 in
lemma march_bounds_i0 (jy : Int) (h1 : (-61) ≤ jy) (h2 : jy < 9) :
    19 ≤ marchOf (-14) (-61) 70 jy ∧ marchOf (-14) (-61) 70 jy ≤ 22 := by
  unfold marchOf
  split_ifs <;> omega

lemma jalCalLoop_i1 (jy : Int) (h1 : 9 ≤ jy) (h2 : jy < 38) :
    jalCalLoop jy (-14) (-61) 0 (breaks.drop 1) = (3, 9, 29) := by
  show jalCalLoop jy (-14) (-61) 0 [9, 38, 199, 426, 686, 756, 818, 1111, 1181, 1210, 1635, 2060, 2097, 2192, 2262, 2324, 2394, 2456, 3178] = (3, 9, 29)
  rw [jalCalLoop_cons, if_neg (by omega)]
  show jalCalLoop jy 3 9 70 [38, 199, 426, 686, 756, 818, 1111, 1181, 1210, 1635, 2060, 2097, 2192, 2262, 2324, 2394, 2456, 3178] = (3, 9, 29)
  rw [jalCalLoop_cons, if_pos (by omega)]
  decide

lemma jalCal_in_i1 (jy : Int) (h1 : 9 ≤ jy) (h2 : jy < 38) :
    jalCal jy = some ⟨leapOf 9 29 jy, jy + 621, marchOf 3 9 29 jy⟩ :=
  jalCal_eval jy 3 9 29 (by omega) (by omega) (jalCalLoop_i1 jy h1 h2)
    (by omega) (by omega)

set_option maxHeartbeats 2000000 in
lemma march_bounds_i1 (jy : Int) (h1 : 9 ≤ jy) (h2 : jy < 38) :
    19 ≤ marchOf 3 9 29 jy ∧ marchOf 3 9 29 jy ≤ 22 := by
  unfold marchOf
  split_ifs <;> omega

lemma jalCalLoop_i2 (jy : Int) (h1 : 38 ≤ jy) (h2 : jy < 199) :
    jalCalLoop jy (-14) (-61) 0 (breaks.drop 1) = (10, 38, 161) := by
  show jalCalLoop jy (-14) (-61) 0 [9, 38, 199, 426, 686, 756, 818, 1111, 1181, 1210, 1635, 2060, 2097, 2192, 2262, 2324, 2394, 2456, 3178] = (10, 38, 161)
  rw [jalCalLoop_cons, if_neg (by omega)]
  show jalCalLoop jy 3 9 70 [38, 199, 426, 686, 756, 818, 1111, 1181, 1210, 1635, 2060, 2097, 2192, 2262, 2324, 2394, 2456, 3178] = (10, 38, 161)
  rw [jalCalLoop_cons, if_neg (by omega)]
  show jalCalLoop jy 10 38 29 [199, 426, 686, 756, 818, 1111, 1181, 1210, 1635, 2060, 2097, 2192, 2262, 2324, 2394, 2456, 3178] = (10, 38, 161)
  rw [jalCalLoop_cons, if_pos (by omega)]
  decide

lemma jalCal_in_i2 (jy : Int) (h1 : 38 ≤ jy) (h2 : jy < 199) :
    jalCal jy = some ⟨leapOf 38 161 jy, jy + 621, marchOf 10 38 161 jy⟩ :=
  jalCal_eval jy 10 38 161 (by omega) (by omega) (jalCalLoop_i2 jy h1 h2)
    (by omega) (by omega)

set_option maxHeartbeats 2000000 in
lemma march_bounds_i2 (jy : Int) (h1 : 38 ≤ jy) (h2 : jy < 199) :
    19 ≤ marchOf 10 38 161 jy ∧ marchOf 10 38 161 jy ≤ 22 := by
  unfold marchOf
  split_ifs <;> omega

lemma jalCalLoop_i3 (jy : Int) (h1 : 199 ≤ jy) (h2 : jy < 426) :
    jalCalLoop jy (-14) (-61) 0 (breaks.drop 1) = (49, 199, 227) := by
  show jalCalLoop jy (-14) (-61) 0 [9, 38, 199, 426, 686, 756, 818, 1111, 1181, 1210, 1635, 2060, 2097, 2192, 2262, 2324, 2394, 2456, 3178] = (49, 199, 227)
  rw [jalCalLoop_cons, if_neg (by omega)]
  show jalCalLoop jy 3 9 70 [38, 199, 426, 686, 756, 818, 1111, 1181, 1210, 1635, 2060, 2097, 2192, 2262, 2324, 2394, 2456, 3178] = (49, 199, 227)
  rw [jalCalLoop_cons, if_neg (by omega)]
  show jalCalLoop jy 10 38 29 [199, 426, 686, 756, 818, 1111, 1181, 1210, 1635, 2060, 2097, 2192, 2262, 2324, 2394, 2456, 3178] = (49, 199, 227)
  rw [jalCalLoop_cons, if_neg (by omega)]
  show jalCalLoop jy 49 199 161 [426, 686, 756, 818, 1111, 1181, 1210, 1635, 2060, 2097, 2192, 2262, 2324, 2394, 2456, 3178] = (49, 199, 227)
  rw [jalCalLoop_cons, if_pos (by omega)]
  decide

lemma jalCal_in_i3 (jy : Int) (h1 : 199 ≤ jy) (h2 : jy < 426) :
    jalCal jy = some ⟨leapOf 199 227 jy, jy + 621, marchOf 49 199 227 jy⟩ :=
  jalCal_eval jy 49 199 227 (by omega) (by omega) (jalCalLoop_i3 jy h1 h2)
    (by omega) (by omega)

set_option maxHeartbeats 2000000 in
lemma march_bounds_i3 (jy : Int) (h1 : 199 ≤ jy) (h2 : jy < 426) :
    19 ≤ marchOf 49 199 227 jy ∧ marchOf 49 199 227 jy ≤ 22 := by
  unfold marchOf
  split_ifs <;> omega

lemma jalCalLoop_i4 (jy : Int) (h1 : 426 ≤ jy) (h2 : jy < 686) :
    jalCalLoop jy (-14) (-61) 0 (breaks.drop 1) = (104, 426, 260) := by
  show jalCalLoop jy (-14) (-61) 0 [9, 38, 199, 426, 686, 756, 818, 1111, 1181, 1210, 1635, 2060, 2097, 2192, 2262, 2324, 2394, 2456, 3178] = (104, 426, 260)
  rw [jalCalLoop_cons, if_neg (by omega)]
  show jalCalLoop jy 3 9 70 [38, 199, 426, 686, 756, 818, 1111, 1181, 1210, 1635, 2060, 2097, 2192, 2262, 2324, 2394, 2456, 3178] = (104, 426, 260)
  rw [jalCalLoop_cons, if_neg (by omega)]
  show jalCalLoop jy 10 38 29 [199, 426, 686, 756, 818, 1111, 1181, 1210, 1635, 2060, 2097, 2192, 2262, 2324, 2394, 2456, 3178] = (104, 426, 260)
  rw [jalCalLoop_cons, if_neg (by omega)]
  show jalCalLoop jy 49 199 161 [426, 686, 756, 818, 1111, 1181, 1210, 1635, 2060, 2097, 2192, 2262, 2324, 2394, 2456, 3178] = (104, 426, 260)
  rw [jalCalLoop_cons, if_neg (by omega)]
  show jalCalLoop jy 104 426 227 [686, 756, 818, 1111, 1181, 1210, 1635, 2060, 2097, 2192, 2262, 2324, 2394, 2456, 3178] = (104, 426, 260)
  rw [jalCalLoop_cons, if_pos (by omega)]
  decide

lemma jalCal_in_i4 (jy : Int) (h1 : 426 ≤ jy) (h2 : jy < 686) :
    jalCal jy = some ⟨leapOf 426 260 jy, jy + 621, marchOf 104 426 260 jy⟩ :=
  jalCal_eval jy 104 426 260 (by omega) (by omega) (jalCalLoop_i4 jy h1 h2)
    (by omega) (by omega)

set_option maxHeartbeats 2000000 in
lemma march_bounds_i4 (jy : Int) (h1 : 426 ≤ jy) (h2 : jy < 686) :
    19 ≤ marchOf 104 426 260 jy ∧ marchOf 104 426 260 jy ≤ 22 := by
  unfold marchOf
  split_ifs <;> omega

lemma jalCalLoop_i5 (jy : Int) (h1 : 686 ≤ jy) (h2 : jy < 756) :
    jalCalLoop jy (-14) (-61) 0 (breaks.drop 1) = (167, 686, 70) := by
  show jalCalLoop jy (-14) (-61) 0 [9, 38, 199, 426, 686, 756, 818, 1111, 1181, 1210, 1635, 2060, 2097, 2192, 2262, 2324, 2394, 2456, 3178] = (167, 686, 70)
  rw [jalCalLoop_cons, if_neg (by omega)]
  show jalCalLoop jy 3 9 70 [38, 199, 426, 686, 756, 818, 1111, 1181, 1210, 1635, 2060, 2097, 2192, 2262, 2324, 2394, 2456, 3178] = (167, 686, 70)
  rw [jalCalLoop_cons, if_neg (by omega)]
  show jalCalLoop jy 10 38 29 [199, 426, 686, 756, 818, 1111, 1181, 1210, 1635, 2060, 2097, 2192, 2262, 2324, 2394, 2456, 3178] = (167, 686, 70)
  rw [jalCalLoop_cons, if_neg (by omega)]
  show jalCalLoop jy 49 199 161 [426, 686, 756, 818, 1111, 1181, 1210, 1635, 2060, 2097, 2192, 2262, 2324, 2394, 2456, 3178] = (167, 686, 70)
  rw [jalCalLoop_cons, if_neg (by omega)]
  show jalCalLoop jy 104 426 227 [686, 756, 818, 1111, 1181, 1210, 1635, 2060, 2097, 2192, 2262, 2324, 2394, 2456, 3178] = (167, 686, 70)
  rw [jalCalLoop_cons, if_neg (by omega)]
  show jalCalLoop jy 167 686 260 [756, 818, 1111, 1181, 1210, 1635, 2060, 2097, 2192, 2262, 2324, 2394, 2456, 3178] = (167, 686, 70)
  rw [jalCalLoop_cons, if_pos (by omega)]
  decide

lemma jalCal_in_i5 (jy : Int) (h1 : 686 ≤ jy) (h2 : jy < 756) :
    jalCal jy = some ⟨leapOf 686 70 jy, jy + 621, marchOf 167 686 70 jy⟩ :=
  jalCal_eval jy 167 686 70 (by omega) (by omega) (jalCalLoop_i5 jy h1 h2)
    (by omega) (by omega)

set_option maxHeartbeats 2000000 in
lemma march_bounds_i5 (jy : Int) (h1 : 686 ≤ jy) (h2 : jy < 756) :
    19 ≤ marchOf 167 686 70 jy ∧ marchOf 167 686 70 jy ≤ 22 := by
  unfold marchOf
  split_ifs <;> omega

lemma jalCalLoop_i6 (jy : Int) (h1 : 756 ≤ jy) (h2 : jy < 818) :
    jalCalLoop jy (-14) (-61) 0 (breaks.drop 1) = (184, 756, 62) := by
  show jalCalLoop jy (-14) (-61) 0 [9, 38, 199, 426, 686, 756, 818, 1111, 1181, 1210, 1635, 2060, 2097, 2192, 2262, 2324, 2394, 2456, 3178] = (184, 756, 62)
  rw [jalCalLoop_cons, if_neg (by omega)]
  show jalCalLoop jy 3 9 70 [38, 199, 426, 686, 756, 818, 1111, 1181, 1210, 1635, 2060, 2097, 2192, 2262, 2324, 2394, 2456, 3178] = (184, 756, 62)
  rw [jalCalLoop_cons, if_neg (by omega)]
  show jalCalLoop jy 10 38 29 [199, 426, 686, 756, 818, 1111, 1181, 1210, 1635, 2060, 2097, 2192, 2262, 2324, 2394, 2456, 3178] = (184, 756, 62)
  rw [jalCalLoop_cons, if_neg (by omega)]
  show jalCalLoop jy 49 199 161 [426, 686, 756, 818, 1111, 1181, 1210, 1635, 2060, 2097, 2192, 2262, 2324, 2394, 2456, 3178] = (184, 756, 62)
  rw [jalCalLoop_cons, if_neg (by omega)]
  show jalCalLoop jy 104 426 227 [686, 756, 818, 1111, 1181, 1210, 1635, 2060, 2097, 2192, 2262, 2324, 2394, 2456, 3178] = (184, 756, 62)
  rw [jalCalLoop_cons, if_neg (by omega)]
  show jalCalLoop jy 167 686 260 [756, 818, 1111, 1181, 1210, 1635, 2060, 2097, 2192, 2262, 2324, 2394, 2456, 3178] = (184, 756, 62)
  rw [jalCalLoop_cons, if_neg (by omega)]
  show jalCalLoop jy 184 756 70 [818, 1111, 1181, 1210, 1635, 2060, 2097, 2192, 2262, 2324, 2394, 2456, 3178] = (184, 756, 62)
  rw [jalCalLoop_cons, if_pos (by omega)]
  decide

lemma jalCal_in_i6 (jy : Int) (h1 : 756 ≤ jy) (h2 : jy < 818) :
    jalCal jy = some ⟨leapOf 756 62 jy, jy + 621, marchOf 184 756 62 jy⟩ :=
  jalCal_eval jy 184 756 62 (by omega) (by omega) (jalCalLoop_i6 jy h1 h2)
    (by omega) (by omega)

set_option maxHeartbeats 2000000 in
lemma march_bounds_i6 (jy : Int) (h1 : 756 ≤ jy) (h2 : jy < 818) :
    19 ≤ marchOf 184 756 62 jy ∧ marchOf 184 756 62 jy ≤ 22 := by
  unfold marchOf
  split_ifs <;> omega

lemma jalCalLoop_i7 (jy : Int) (h1 : 818 ≤ jy) (h2 : jy < 1111) :
    jalCalLoop jy (-14) (-61) 0 (breaks.drop 1) = (199, 818, 293) := by
  show jalCalLoop jy (-14) (-61) 0 [9, 38, 199, 426, 686, 756, 818, 1111, 1181, 1210, 1635, 2060, 2097, 2192, 2262, 2324, 2394, 2456, 3178] = (199, 818, 293)
  rw [jalCalLoop_cons, if_neg (by omega)]
  show jalCalLoop jy 3 9 70 [38, 199, 426, 686, 756, 818, 1111, 1181, 1210, 1635, 2060, 2097, 2192, 2262, 2324, 2394, 2456, 3178] = (199, 818, 293)
  rw [jalCalLoop_cons, if_neg (by omega)]
  show jalCalLoop jy 10 38 29 [199, 426, 686, 756, 818, 1111, 1181, 1210, 1635, 2060, 2097, 2192, 2262, 2324, 2394, 2456, 3178] = (199, 818, 293)
  rw [jalCalLoop_cons, if_neg (by omega)]
  show jalCalLoop jy 49 199 161 [426, 686, 756, 818, 1111, 1181, 1210, 1635, 2060, 2097, 2192, 2262, 2324, 2394, 2456, 3178] = (199, 818, 293)
  rw [jalCalLoop_cons, if_neg (by omega)]
  show jalCalLoop jy 104 426 227 [686, 756, 818, 1111, 1181, 1210, 1635, 2060, 2097, 2192, 2262, 2324, 2394, 2456, 3178] = (199, 818, 293)
  rw [jalCalLoop_cons, if_neg (by omega)]
  show jalCalLoop jy 167 686 260 [756, 818, 1111, 1181, 1210, 1635, 2060, 2097, 2192, 2262, 2324, 2394, 2456, 3178] = (199, 818, 293)
  rw [jalCalLoop_cons, if_neg (by omega)]
  show jalCalLoop jy 184 756 70 [818, 1111, 1181, 1210, 1635, 2060, 2097, 2192, 2262, 2324, 2394, 2456, 3178] = (199, 818, 293)
  rw [jalCalLoop_cons, if_neg (by omega)]
  show jalCalLoop jy 199 818 62 [1111, 1181, 1210, 1635, 2060, 2097, 2192, 2262, 2324, 2394, 2456, 3178] = (199, 818, 293)
  rw [jalCalLoop_cons, if_pos (by omega)]
  decide

lemma jalCal_in_i7 (jy : Int) (h1 : 818 ≤ jy) (h2 : jy < 1111) :
    jalCal jy = some ⟨leapOf 818 293 jy, jy + 621, marchOf 199 818 293 jy⟩ :=
  jalCal_eval jy 199 818 293 (by omega) (by omega) (jalCalLoop_i7 jy h1 h2)
    (by omega) (by omega)

set_option maxHeartbeats 2000000 in
lemma march_bounds_i7 (jy : Int) (h1 : 818 ≤ jy) (h2 : jy < 1111) :
    19 ≤ marchOf 199 818 293 jy ∧ marchOf 199 818 293 jy ≤ 22 := by
  unfold marchOf
  split_ifs <;> omega

lemma jalCalLoop_i8 (jy : Int) (h1 : 1111 ≤ jy) (h2 : jy < 1181) :
    jalCalLoop jy (-14) (-61) 0 (breaks.drop 1) = (270, 1111, 70) := by
  show jalCalLoop jy (-14) (-61) 0 [9, 38, 199, 426, 686, 756, 818, 1111, 1181, 1210, 1635, 2060, 2097, 2192, 2262, 2324, 2394, 2456, 3178] = (270, 1111, 70)
  rw [jalCalLoop_cons, if_neg (by omega)]
  show jalCalLoop jy 3 9 70 [38, 199, 426, 686, 756, 818, 1111, 1181, 1210, 1635, 2060, 2097, 2192, 2262, 2324, 2394, 2456, 3178] = (270, 1111, 70)
  rw [jalCalLoop_cons, if_neg (by omega)]
  show jalCalLoop jy 10 38 29 [199, 426, 686, 756, 818, 1111, 1181, 1210, 1635, 2060, 2097, 2192, 2262, 2324, 2394, 2456, 3178] = (270, 1111, 70)
  rw [jalCalLoop_cons, if_neg (by omega)]
  show jalCalLoop jy 49 199 161 [426, 686, 756, 818, 1111, 1181, 1210, 1635, 2060, 2097, 2192, 2262, 2324, 2394, 2456, 3178] = (270, 1111, 70)
  rw [jalCalLoop_cons, if_neg (by omega)]
  show jalCalLoop jy 104 426 227 [686, 756, 818, 1111, 1181, 1210, 1635, 2060, 2097, 2192, 2262, 2324, 2394, 2456, 3178] = (270, 1111, 70)
  rw [jalCalLoop_cons, if_neg (by omega)]
  show jalCalLoop jy 167 686 260 [756, 818, 1111, 1181, 1210, 1635, 2060, 2097, 2192, 2262, 2324, 2394, 2456, 3178] = (270, 1111, 70)
  rw [jalCalLoop_cons, if_neg (by omega)]
  show jalCalLoop jy 184 756 70 [818, 1111, 1181, 1210, 1635, 2060, 2097, 2192, 2262, 2324, 2394, 2456, 3178] = (270, 1111, 70)
  rw [jalCalLoop_cons, if_neg (by omega)]
  show jalCalLoop jy 199 818 62 [1111, 1181, 1210, 1635, 2060, 2097, 2192, 2262, 2324, 2394, 2456, 3178] = (270, 1111, 70)
  rw [jalCalLoop_cons, if_neg (by omega)]
  show jalCalLoop jy 270 1111 293 [1181, 1210, 1635, 2060, 2097, 2192, 2262, 2324, 2394, 2456, 3178] = (270, 1111, 70)
  rw [jalCalLoop_cons, if_pos (by omega)]
  decide

lemma jalCal_in_i8 (jy : Int) (h1 : 1111 ≤ jy) (h2 : jy < 1181) :
    jalCal jy = some ⟨leapOf 1111 70 jy, jy + 621, marchOf 270 1111 70 jy⟩ :=
  jalCal_eval jy 270 1111 70 (by omega) (by omega) (jalCalLoop_i8 jy h1 h2)
    (by omega) (by omega)

set_option maxHeartbeats 2000000 in
lemma march_bounds_i8 (jy : Int) (h1 : 1111 ≤ jy) (h2 : jy < 1181) :
    19 ≤ marchOf 270 1111 70 jy ∧ marchOf 270 1111 70 jy ≤ 22 := by
  unfold marchOf
  split_ifs <;> omega

lemma jalCalLoop_i9 (jy : Int) (h1 : 1181 ≤ jy) (h2 : jy < 1210) :
    jalCalLoop jy (-14) (-61) 0 (breaks.drop 1) = (287, 1181, 29) := by
  show jalCalLoop jy (-14) (-61) 0 [9, 38, 199, 426, 686, 756, 818, 1111, 1181, 1210, 1635, 2060, 2097, 2192, 2262, 2324, 2394, 2456, 3178] = (287, 1181, 29)
  rw [jalCalLoop_cons, if_neg (by omega)]
  show jalCalLoop jy 3 9 70 [38, 199, 426, 686, 756, 818, 1111, 1181, 1210, 1635, 2060, 2097, 2192, 2262, 2324, 2394, 2456, 3178] = (287, 1181, 29)
  rw [jalCalLoop_cons, if_neg (by omega)]
  show jalCalLoop jy 10 38 29 [199, 426, 686, 756, 818, 1111, 1181, 1210, 1635, 2060, 2097, 2192, 2262, 2324, 2394, 2456, 3178] = (287, 1181, 29)
  rw [jalCalLoop_cons, if_neg (by omega)]
  show jalCalLoop jy 49 199 161 [426, 686, 756, 818, 1111, 1181, 1210, 1635, 2060, 2097, 2192, 2262, 2324, 2394, 2456, 3178] = (287, 1181, 29)
  rw [jalCalLoop_cons, if_neg (by omega)]
  show jalCalLoop jy 104 426 227 [686, 756, 818, 1111, 1181, 1210, 1635, 2060, 2097, 2192, 2262, 2324, 2394, 2456, 3178] = (287, 1181, 29)
  rw [jalCalLoop_cons, if_neg (by omega)]
  show jalCalLoop jy 167 686 260 [756, 818, 1111, 1181, 1210, 1635, 2060, 2097, 2192, 2262, 2324, 2394, 2456, 3178] = (287, 1181, 29)
  rw [jalCalLoop_cons, if_neg (by omega)]
  show jalCalLoop jy 184 756 70 [818, 1111, 1181, 1210, 1635, 2060, 2097, 2192, 2262, 2324, 2394, 2456, 3178] = (287, 1181, 29)
  rw [jalCalLoop_cons, if_neg (by omega)]
  show jalCalLoop jy 199 818 62 [1111, 1181, 1210, 1635, 2060, 2097, 2192, 2262, 2324, 2394, 2456, 3178] = (287, 1181, 29)
  rw [jalCalLoop_cons, if_neg (by omega)]
  show jalCalLoop jy 270 1111 293 [1181, 1210, 1635, 2060, 2097, 2192, 2262, 2324, 2394, 2456, 3178] = (287, 1181, 29)
  rw [jalCalLoop_cons, if_neg (by omega)]
  show jalCalLoop jy 287 1181 70 [1210, 1635, 2060, 2097, 2192, 2262, 2324, 2394, 2456, 3178] = (287, 1181, 29)
  rw [jalCalLoop_cons, if_pos (by omega)]
  decide

lemma jalCal_in_i9 (jy : Int) (h1 : 1181 ≤ jy) (h2 : jy < 1210) :
    jalCal jy = some ⟨leapOf 1181 29 jy, jy + 621, marchOf 287 1181 29 jy⟩ :=
  jalCal_eval jy 287 1181 29 (by omega) (by omega) (jalCalLoop_i9 jy h1 h2)
    (by omega) (by omega)

set_option maxHeartbeats 2000000 in
lemma march_bounds_i9 (jy : Int) (h1 : 1181 ≤ jy) (h2 : jy < 1210) :
    19 ≤ marchOf 287 1181 29 jy ∧ marchOf 287 1181 29 jy ≤ 22 := by
  unfold marchOf
  split_ifs <;> omega

lemma jalCalLoop_i10 (jy : Int) (h1 : 1210 ≤ jy) (h2 : jy < 1635) :
    jalCalLoop jy (-14) (-61) 0 (breaks.drop 1) = (294, 1210, 425) := by
  show jalCalLoop jy (-14) (-61) 0 [9, 38, 199, 426, 686, 756, 818, 1111, 1181, 1210, 1635, 2060, 2097, 2192, 2262, 2324, 2394, 2456, 3178] = (294, 1210, 425)
  rw [jalCalLoop_cons, if_neg (by omega)]
  show jalCalLoop jy 3 9 70 [38, 199, 426, 686, 756, 818, 1111, 1181, 1210, 1635, 2060, 2097, 2192, 2262, 2324, 2394, 2456, 3178] = (294, 1210, 425)
  rw [jalCalLoop_cons, if_neg (by omega)]
  show jalCalLoop jy 10 38 29 [199, 426, 686, 756, 818, 1111, 1181, 1210, 1635, 2060, 2097, 2192, 2262, 2324, 2394, 2456, 3178] = (294, 1210, 425)
  rw [jalCalLoop_cons, if_neg (by omega)]
  show jalCalLoop jy 49 199 161 [426, 686, 756, 818, 1111, 1181, 1210, 1635, 2060, 2097, 2192, 2262, 2324, 2394, 2456, 3178] = (294, 1210, 425)
  rw [jalCalLoop_cons, if_neg (by omega)]
  show jalCalLoop jy 104 426 227 [686, 756, 818, 1111, 1181, 1210, 1635, 2060, 2097, 2192, 2262, 2324, 2394, 2456, 3178] = (294, 1210, 425)
  rw [jalCalLoop_cons, if_neg (by omega)]
  show jalCalLoop jy 167 686 260 [756, 818, 1111, 1181, 1210, 1635, 2060, 2097, 2192, 2262, 2324, 2394, 2456, 3178] = (294, 1210, 425)
  rw [jalCalLoop_cons, if_neg (by omega)]
  show jalCalLoop jy 184 756 70 [818, 1111, 1181, 1210, 1635, 2060, 2097, 2192, 2262, 2324, 2394, 2456, 3178] = (294, 1210, 425)
  rw [jalCalLoop_cons, if_neg (by omega)]
  show jalCalLoop jy 199 818 62 [1111, 1181, 1210, 1635, 2060, 2097, 2192, 2262, 2324, 2394, 2456, 3178] = (294, 1210, 425)
  rw [jalCalLoop_cons, if_neg (by omega)]
  show jalCalLoop jy 270 1111 293 [1181, 1210, 1635, 2060, 2097, 2192, 2262, 2324, 2394, 2456, 3178] = (294, 1210, 425)
  rw [jalCalLoop_cons, if_neg (by omega)]
  show jalCalLoop jy 287 1181 70 [1210, 1635, 2060, 2097, 2192, 2262, 2324, 2394, 2456, 3178] = (294, 1210, 425)
  rw [jalCalLoop_cons, if_neg (by omega)]
  show jalCalLoop jy 294 1210 29 [1635, 2060, 2097, 2192, 2262, 2324, 2394, 2456, 3178] = (294, 1210, 425)
  rw [jalCalLoop_cons, if_pos (by omega)]
  decide

lemma jalCal_in_i10 (jy : Int) (h1 : 1210 ≤ jy) (h2 : jy < 1635) :
    jalCal jy = some ⟨leapOf 1210 425 jy, jy + 621, marchOf 294 1210 425 jy⟩ :=
  jalCal_eval jy 294 1210 425 (by omega) (by omega) (jalCalLoop_i10 jy h1 h2)
    (by omega) (by omega)

set_option maxHeartbeats 2000000 in
lemma march_bounds_i10 (jy : Int) (h1 : 1210 ≤ jy) (h2 : jy < 1635) :
    19 ≤ marchOf 294 1210 425 jy ∧ marchOf 294 1210 425 jy ≤ 22 := by
  unfold marchOf
  split_ifs <;> omega

lemma jalCalLoop_i11 (jy : Int) (h1 : 1635 ≤ jy) (h2 : jy < 2060) :
    jalCalLoop jy (-14) (-61) 0 (breaks.drop 1) = (397, 1635, 425) := by
  show jalCalLoop jy (-14) (-61) 0 [9, 38, 199, 426, 686, 756, 818, 1111, 1181, 1210, 1635, 2060, 2097, 2192, 2262, 2324, 2394, 2456, 3178] = (397, 1635, 425)
  rw [jalCalLoop_cons, if_neg (by omega)]
  show jalCalLoop jy 3 9 70 [38, 199, 426, 686, 756, 818, 1111, 1181, 1210, 1635, 2060, 2097, 2192, 2262, 2324, 2394, 2456, 3178] = (397, 1635, 425)
  rw [jalCalLoop_cons, if_neg (by omega)]
  show jalCalLoop jy 10 38 29 [199, 426, 686, 756, 818, 1111, 1181, 1210, 1635, 2060, 2097, 2192, 2262, 2324, 2394, 2456, 3178] = (397, 1635, 425)
  rw [jalCalLoop_cons, if_neg (by omega)]
  show jalCalLoop jy 49 199 161 [426, 686, 756, 818, 1111, 1181, 1210, 1635, 2060, 2097, 2192, 2262, 2324, 2394, 2456, 3178] = (397, 1635, 425)
  rw [jalCalLoop_cons, if_neg (by omega)]
  show jalCalLoop jy 104 426 227 [686, 756, 818, 1111, 1181, 1210, 1635, 2060, 2097, 2192, 2262, 2324, 2394, 2456, 3178] = (397, 1635, 425)
  rw [jalCalLoop_cons, if_neg (by omega)]
  show jalCalLoop jy 167 686 260 [756, 818, 1111, 1181, 1210, 1635, 2060, 2097, 2192, 2262, 2324, 2394, 2456, 3178] = (397, 1635, 425)
  rw [jalCalLoop_cons, if_neg (by omega)]
  show jalCalLoop jy 184 756 70 [818, 1111, 1181, 1210, 1635, 2060, 2097, 2192, 2262, 2324, 2394, 2456, 3178] = (397, 1635, 425)
  rw [jalCalLoop_cons, if_neg (by omega)]
  show jalCalLoop jy 199 818 62 [1111, 1181, 1210, 1635, 2060, 2097, 2192, 2262, 2324, 2394, 2456, 3178] = (397, 1635, 425)
  rw [jalCalLoop_cons, if_neg (by omega)]
  show jalCalLoop jy 270 1111 293 [1181, 1210, 1635, 2060, 2097, 2192, 2262, 2324, 2394, 2456, 3178] = (397, 1635, 425)
  rw [jalCalLoop_cons, if_neg (by omega)]
  show jalCalLoop jy 287 1181 70 [1210, 1635, 2060, 2097, 2192, 2262, 2324, 2394, 2456, 3178] = (397, 1635, 425)
  rw [jalCalLoop_cons, if_neg (by omega)]
  show jalCalLoop jy 294 1210 29 [1635, 2060, 2097, 2192, 2262, 2324, 2394, 2456, 3178] = (397, 1635, 425)
  rw [jalCalLoop_cons, if_neg (by omega)]
  show jalCalLoop jy 397 1635 425 [2060, 2097, 2192, 2262, 2324, 2394, 2456, 3178] = (397, 1635, 425)
  rw [jalCalLoop_cons, if_pos (by omega)]
  decide

lemma jalCal_in_i11 (jy : Int) (h1 : 1635 ≤ jy) (h2 : jy < 2060) :
    jalCal jy = some ⟨leapOf 1635 425 jy, jy + 621, marchOf 397 1635 425 jy⟩ :=
  jalCal_eval jy 397 1635 425 (by omega) (by omega) (jalCalLoop_i11 jy h1 h2)
    (by omega) (by omega)

set_option maxHeartbeats 2000000 in
lemma march_bounds_i11 (jy : Int) (h1 : 1635 ≤ jy) (h2 : jy < 2060) :
    19 ≤ marchOf 397 1635 425 jy ∧ marchOf 397 1635 425 jy ≤ 22 := by
  unfold marchOf
  split_ifs <;> omega

lemma jalCalLoop_i12 (jy : Int) (h1 : 2060 ≤ jy) (h2 : jy < 2097) :
    jalCalLoop jy (-14) (-61) 0 (breaks.drop 1) = (500, 2060, 37) := by
  show jalCalLoop jy (-14) (-61) 0 [9, 38, 199, 426, 686, 756, 818, 1111, 1181, 1210, 1635, 2060, 2097, 2192, 2262, 2324, 2394, 2456, 3178] = (500, 2060, 37)
  rw [jalCalLoop_cons, if_neg (by omega)]
  show jalCalLoop jy 3 9 70 [38, 199, 426, 686, 756, 818, 1111, 1181, 1210, 1635, 2060, 2097, 2192, 2262, 2324, 2394, 2456, 3178] = (500, 2060, 37)
  rw [jalCalLoop_cons, if_neg (by omega)]
  show jalCalLoop jy 10 38 29 [199, 426, 686, 756, 818, 1111, 1181, 1210, 1635, 2060, 2097, 2192, 2262, 2324, 2394, 2456, 3178] = (500, 2060, 37)
  rw [jalCalLoop_cons, if_neg (by omega)]
  show jalCalLoop jy 49 199 161 [426, 686, 756, 818, 1111, 1181, 1210, 1635, 2060, 2097, 2192, 2262, 2324, 2394, 2456, 3178] = (500, 2060, 37)
  rw [jalCalLoop_cons, if_neg (by omega)]
  show jalCalLoop jy 104 426 227 [686, 756, 818, 1111, 1181, 1210, 1635, 2060, 2097, 2192, 2262, 2324, 2394, 2456, 3178] = (500, 2060, 37)
  rw [jalCalLoop_cons, if_neg (by omega)]
  show jalCalLoop jy 167 686 260 [756, 818, 1111, 1181, 1210, 1635, 2060, 2097, 2192, 2262, 2324, 2394, 2456, 3178] = (500, 2060, 37)
  rw [jalCalLoop_cons, if_neg (by omega)]
  show jalCalLoop jy 184 756 70 [818, 1111, 1181, 1210, 1635, 2060, 2097, 2192, 2262, 2324, 2394, 2456, 3178] = (500, 2060, 37)
  rw [jalCalLoop_cons, if_neg (by omega)]
  show jalCalLoop jy 199 818 62 [1111, 1181, 1210, 1635, 2060, 2097, 2192, 2262, 2324, 2394, 2456, 3178] = (500, 2060, 37)
  rw [jalCalLoop_cons, if_neg (by omega)]
  show jalCalLoop jy 270 1111 293 [1181, 1210, 1635, 2060, 2097, 2192, 2262, 2324, 2394, 2456, 3178] = (500, 2060, 37)
  rw [jalCalLoop_cons, if_neg (by omega)]
  show jalCalLoop jy 287 1181 70 [1210, 1635, 2060, 2097, 2192, 2262, 2324, 2394, 2456, 3178] = (500, 2060, 37)
  rw [jalCalLoop_cons, if_neg (by omega)]
  show jalCalLoop jy 294 1210 29 [1635, 2060, 2097, 2192, 2262, 2324, 2394, 2456, 3178] = (500, 2060, 37)
  rw [jalCalLoop_cons, if_neg (by omega)]
  show jalCalLoop jy 397 1635 425 [2060, 2097, 2192, 2262, 2324, 2394, 2456, 3178] = (500, 2060, 37)
  rw [jalCalLoop_cons, if_neg (by omega)]
  show jalCalLoop jy 500 2060 425 [2097, 2192, 2262, 2324, 2394, 2456, 3178] = (500, 2060, 37)
  rw [jalCalLoop_cons, if_pos (by omega)]
  decide

lemma jalCal_in_i12 (jy : Int) (h1 : 2060 ≤ jy) (h2 : jy < 2097) :
    jalCal jy = some ⟨leapOf 2060 37 jy, jy + 621, marchOf 500 2060 37 jy⟩ :=
  jalCal_eval jy 500 2060 37 (by omega) (by omega) (jalCalLoop_i12 jy h1 h2)
    (by omega) (by omega)

set_option maxHeartbeats 2000000 in
lemma march_bounds_i12 (jy : Int) (h1 : 2060 ≤ jy) (h2 : jy < 2097) :
    19 ≤ marchOf 500 2060 37 jy ∧ marchOf 500 2060 37 jy ≤ 22 := by
  unfold marchOf
  split_ifs <;> omega

lemma jalCalLoop_i13 (jy : Int) (h1 : 2097 ≤ jy) (h2 : jy < 2192) :
    jalCalLoop jy (-14) (-61) 0 (breaks.drop 1) = (509, 2097, 95) := by
  show jalCalLoop jy (-14) (-61) 0 [9, 38, 199, 426, 686, 756, 818, 1111, 1181, 1210, 1635, 2060, 2097, 2192, 2262, 2324, 2394, 2456, 3178] = (509, 2097, 95)
  rw [jalCalLoop_cons, if_neg (by omega)]
  show jalCalLoop jy 3 9 70 [38, 199, 426, 686, 756, 818, 1111, 1181, 1210, 1635, 2060, 2097, 2192, 2262, 2324, 2394, 2456, 3178] = (509, 2097, 95)
  rw [jalCalLoop_cons, if_neg (by omega)]
  show jalCalLoop jy 10 38 29 [199, 426, 686, 756, 818, 1111, 1181, 1210, 1635, 2060, 2097, 2192, 2262, 2324, 2394, 2456, 3178] = (509, 2097, 95)
  rw [jalCalLoop_cons, if_neg (by omega)]
  show jalCalLoop jy 49 199 161 [426, 686, 756, 818, 1111, 1181, 1210, 1635, 2060, 2097, 2192, 2262, 2324, 2394, 2456, 3178] = (509, 2097, 95)
  rw [jalCalLoop_cons, if_neg (by omega)]
  show jalCalLoop jy 104 426 227 [686, 756, 818, 1111, 1181, 1210, 1635, 2060, 2097, 2192, 2262, 2324, 2394, 2456, 3178] = (509, 2097, 95)
  rw [jalCalLoop_cons, if_neg (by omega)]
  show jalCalLoop jy 167 686 260 [756, 818, 1111, 1181, 1210, 1635, 2060, 2097, 2192, 2262, 2324, 2394, 2456, 3178] = (509, 2097, 95)
  rw [jalCalLoop_cons, if_neg (by omega)]
  show jalCalLoop jy 184 756 70 [818, 1111, 1181, 1210, 1635, 2060, 2097, 2192, 2262, 2324, 2394, 2456, 3178] = (509, 2097, 95)
  rw [jalCalLoop_cons, if_neg (by omega)]
  show jalCalLoop jy 199 818 62 [1111, 1181, 1210, 1635, 2060, 2097, 2192, 2262, 2324, 2394, 2456, 3178] = (509, 2097, 95)
  rw [jalCalLoop_cons, if_neg (by omega)]
  show jalCalLoop jy 270 1111 293 [1181, 1210, 1635, 2060, 2097, 2192, 2262, 2324, 2394, 2456, 3178] = (509, 2097, 95)
  rw [jalCalLoop_cons, if_neg (by omega)]
  show jalCalLoop jy 287 1181 70 [1210, 1635, 2060, 2097, 2192, 2262, 2324, 2394, 2456, 3178] = (509, 2097, 95)
  rw [jalCalLoop_cons, if_neg (by omega)]
  show jalCalLoop jy 294 1210 29 [1635, 2060, 2097, 2192, 2262, 2324, 2394, 2456, 3178] = (509, 2097, 95)
  rw [jalCalLoop_cons, if_neg (by omega)]
  show jalCalLoop jy 397 1635 425 [2060, 2097, 2192, 2262, 2324, 2394, 2456, 3178] = (509, 2097, 95)
  rw [jalCalLoop_cons, if_neg (by omega)]
  show jalCalLoop jy 500 2060 425 [2097, 2192, 2262, 2324, 2394, 2456, 3178] = (509, 2097, 95)
  rw [jalCalLoop_cons, if_neg (by omega)]
  show jalCalLoop jy 509 2097 37 [2192, 2262, 2324, 2394, 2456, 3178] = (509, 2097, 95)
  rw [jalCalLoop_cons, if_pos (by omega)]
  decide

lemma jalCal_in_i13 (jy : Int) (h1 : 2097 ≤ jy) (h2 : jy < 2192) :
    jalCal jy = some ⟨leapOf 2097 95 jy, jy + 621, marchOf 509 2097 95 jy⟩ :=
  jalCal_eval jy 509 2097 95 (by omega) (by omega) (jalCalLoop_i13 jy h1 h2)
    (by omega) (by omega)

set_option maxHeartbeats 2000000 in
lemma march_bounds_i13 (jy : Int) (h1 : 2097 ≤ jy) (h2 : jy < 2192) :
    19 ≤ marchOf 509 2097 95 jy ∧ marchOf 509 2097 95 jy ≤ 22 := by
  unfold marchOf
  split_ifs <;> omega

lemma jalCalLoop_i14 (jy : Int) (h1 : 2192 ≤ jy) (h2 : jy < 2262) :
    jalCalLoop jy (-14) (-61) 0 (breaks.drop 1) = (532, 2192, 70) := by
  show jalCalLoop jy (-14) (-61) 0 [9, 38, 199, 426, 686, 756, 818, 1111, 1181, 1210, 1635, 2060, 2097, 2192, 2262, 2324, 2394, 2456, 3178] = (532, 2192, 70)
  rw [jalCalLoop_cons, if_neg (by omega)]
  show jalCalLoop jy 3 9 70 [38, 199, 426, 686, 756, 818, 1111, 1181, 1210, 1635, 2060, 2097, 2192, 2262, 2324, 2394, 2456, 3178] = (532, 2192, 70)
  rw [jalCalLoop_cons, if_neg (by omega)]
  show jalCalLoop jy 10 38 29 [199, 426, 686, 756, 818, 1111, 1181, 1210, 1635, 2060, 2097, 2192, 2262, 2324, 2394, 2456, 3178] = (532, 2192, 70)
  rw [jalCalLoop_cons, if_neg (by omega)]
  show jalCalLoop jy 49 199 161 [426, 686, 756, 818, 1111, 1181, 1210, 1635, 2060, 2097, 2192, 2262, 2324, 2394, 2456, 3178] = (532, 2192, 70)
  rw [jalCalLoop_cons, if_neg (by omega)]
  show jalCalLoop jy 104 426 227 [686, 756, 818, 1111, 1181, 1210, 1635, 2060, 2097, 2192, 2262, 2324, 2394, 2456, 3178] = (532, 2192, 70)
  rw [jalCalLoop_cons, if_neg (by omega)]
  show jalCalLoop jy 167 686 260 [756, 818, 1111, 1181, 1210, 1635, 2060, 2097, 2192, 2262, 2324, 2394, 2456, 3178] = (532, 2192, 70)
  rw [jalCalLoop_cons, if_neg (by omega)]
  show jalCalLoop jy 184 756 70 [818, 1111, 1181, 1210, 1635, 2060, 2097, 2192, 2262, 2324, 2394, 2456, 3178] = (532, 2192, 70)
  rw [jalCalLoop_cons, if_neg (by omega)]
  show jalCalLoop jy 199 818 62 [1111, 1181, 1210, 1635, 2060, 2097, 2192, 2262, 2324, 2394, 2456, 3178] = (532, 2192, 70)
  rw [jalCalLoop_cons, if_neg (by omega)]
  show jalCalLoop jy 270 1111 293 [1181, 1210, 1635, 2060, 2097, 2192, 2262, 2324, 2394, 2456, 3178] = (532, 2192, 70)
  rw [jalCalLoop_cons, if_neg (by omega)]
  show jalCalLoop jy 287 1181 70 [1210, 1635, 2060, 2097, 2192, 2262, 2324, 2394, 2456, 3178] = (532, 2192, 70)
  rw [jalCalLoop_cons, if_neg (by omega)]
  show jalCalLoop jy 294 1210 29 [1635, 2060, 2097, 2192, 2262, 2324, 2394, 2456, 3178] = (532, 2192, 70)
  rw [jalCalLoop_cons, if_neg (by omega)]
  show jalCalLoop jy 397 1635 425 [2060, 2097, 2192, 2262, 2324, 2394, 2456, 3178] = (532, 2192, 70)
  rw [jalCalLoop_cons, if_neg (by omega)]
  show jalCalLoop jy 500 2060 425 [2097, 2192, 2262, 2324, 2394, 2456, 3178] = (532, 2192, 70)
  rw [jalCalLoop_cons, if_neg (by omega)]
  show jalCalLoop jy 509 2097 37 [2192, 2262, 2324, 2394, 2456, 3178] = (532, 2192, 70)
  rw [jalCalLoop_cons, if_neg (by omega)]
  show jalCalLoop jy 532 2192 95 [2262, 2324, 2394, 2456, 3178] = (532, 2192, 70)
  rw [jalCalLoop_cons, if_pos (by omega)]
  decide

lemma jalCal_in_i14 (jy : Int) (h1 : 2192 ≤ jy) (h2 : jy < 2262) :
    jalCal jy = some ⟨leapOf 2192 70 jy, jy + 621, marchOf 532 2192 70 jy⟩ :=
  jalCal_eval jy 532 2192 70 (by omega) (by omega) (jalCalLoop_i14 jy h1 h2)
    (by omega) (by omega)

set_option maxHeartbeats 2000000 in
lemma march_bounds_i14 (jy : Int) (h1 : 2192 ≤ jy) (h2 : jy < 2262) :
    19 ≤ marchOf 532 2192 70 jy ∧ marchOf 532 2192 70 jy ≤ 22 := by
  unfold marchOf
  split_ifs <;> omega

lemma jalCalLoop_i15 (jy : Int) (h1 : 2262 ≤ jy) (h2 : jy < 2324) :
    jalCalLoop jy (-14) (-61) 0 (breaks.drop 1) = (549, 2262, 62) := by
  show jalCalLoop jy (-14) (-61) 0 [9, 38, 199, 426, 686, 756, 818, 1111, 1181, 1210, 1635, 2060, 2097, 2192, 2262, 2324, 2394, 2456, 3178] = (549, 2262, 62)
  rw [jalCalLoop_cons, if_neg (by omega)]
  show jalCalLoop jy 3 9 70 [38, 199, 426, 686, 756, 818, 1111, 1181, 1210, 1635, 2060, 2097, 2192, 2262, 2324, 2394, 2456, 3178] = (549, 2262, 62)
  rw [jalCalLoop_cons, if_neg (by omega)]
  show jalCalLoop jy 10 38 29 [199, 426, 686, 756, 818, 1111, 1181, 1210, 1635, 2060, 2097, 2192, 2262, 2324, 2394, 2456, 3178] = (549, 2262, 62)
  rw [jalCalLoop_cons, if_neg (by omega)]
  show jalCalLoop jy 49 199 161 [426, 686, 756, 818, 1111, 1181, 1210, 1635, 2060, 2097, 2192, 2262, 2324, 2394, 2456, 3178] = (549, 2262, 62)
  rw [jalCalLoop_cons, if_neg (by omega)]
  show jalCalLoop jy 104 426 227 [686, 756, 818, 1111, 1181, 1210, 1635, 2060, 2097, 2192, 2262, 2324, 2394, 2456, 3178] = (549, 2262, 62)
  rw [jalCalLoop_cons, if_neg (by omega)]
  show jalCalLoop jy 167 686 260 [756, 818, 1111, 1181, 1210, 1635, 2060, 2097, 2192, 2262, 2324, 2394, 2456, 3178] = (549, 2262, 62)
  rw [jalCalLoop_cons, if_neg (by omega)]
  show jalCalLoop jy 184 756 70 [818, 1111, 1181, 1210, 1635, 2060, 2097, 2192, 2262, 2324, 2394, 2456, 3178] = (549, 2262, 62)
  rw [jalCalLoop_cons, if_neg (by omega)]
  show jalCalLoop jy 199 818 62 [1111, 1181, 1210, 1635, 2060, 2097, 2192, 2262, 2324, 2394, 2456, 3178] = (549, 2262, 62)
  rw [jalCalLoop_cons, if_neg (by omega)]
  show jalCalLoop jy 270 1111 293 [1181, 1210, 1635, 2060, 2097, 2192, 2262, 2324, 2394, 2456, 3178] = (549, 2262, 62)
  rw [jalCalLoop_cons, if_neg (by omega)]
  show jalCalLoop jy 287 1181 70 [1210, 1635, 2060, 2097, 2192, 2262, 2324, 2394, 2456, 3178] = (549, 2262, 62)
  rw [jalCalLoop_cons, if_neg (by omega)]
  show jalCalLoop jy 294 1210 29 [1635, 2060, 2097, 2192, 2262, 2324, 2394, 2456, 3178] = (549, 2262, 62)
  rw [jalCalLoop_cons, if_neg (by omega)]
  show jalCalLoop jy 397 1635 425 [2060, 2097, 2192, 2262, 2324, 2394, 2456, 3178] = (549, 2262, 62)
  rw [jalCalLoop_cons, if_neg (by omega)]
  show jalCalLoop jy 500 2060 425 [2097, 2192, 2262, 2324, 2394, 2456, 3178] = (549, 2262, 62)
  rw [jalCalLoop_cons, if_neg (by omega)]
  show jalCalLoop jy 509 2097 37 [2192, 2262, 2324, 2394, 2456, 3178] = (549, 2262, 62)
  rw [jalCalLoop_cons, if_neg (by omega)]
  show jalCalLoop jy 532 2192 95 [2262, 2324, 2394, 2456, 3178] = (549, 2262, 62)
  rw [jalCalLoop_cons, if_neg (by omega)]
  show jalCalLoop jy 549 2262 70 [2324, 2394, 2456, 3178] = (549, 2262, 62)
  rw [jalCalLoop_cons, if_pos (by omega)]
  decide

lemma jalCal_in_i15 (jy : Int) (h1 : 2262 ≤ jy) (h2 : jy < 2324) :
    jalCal jy = some ⟨leapOf 2262 62 jy, jy + 621, marchOf 549 2262 62 jy⟩ :=
  jalCal_eval jy 549 2262 62 (by omega) (by omega) (jalCalLoop_i15 jy h1 h2)
    (by omega) (by omega)

set_option maxHeartbeats 2000000 in
lemma march_bounds_i15 (jy : Int) (h1 : 2262 ≤ jy) (h2 : jy < 2324) :
    19 ≤ marchOf 549 2262 62 jy ∧ marchOf 549 2262 62 jy ≤ 22 := by
  unfold marchOf
  split_ifs <;> omega

lemma jalCalLoop_i16 (jy : Int) (h1 : 2324 ≤ jy) (h2 : jy < 2394) :
    jalCalLoop jy (-14) (-61) 0 (breaks.drop 1) = (564, 2324, 70) := by
  show jalCalLoop jy (-14) (-61) 0 [9, 38, 199, 426, 686, 756, 818, 1111, 1181, 1210, 1635, 2060, 2097, 2192, 2262, 2324, 2394, 2456, 3178] = (564, 2324, 70)
  rw [jalCalLoop_cons, if_neg (by omega)]
  show jalCalLoop jy 3 9 70 [38, 199, 426, 686, 756, 818, 1111, 1181, 1210, 1635, 2060, 2097, 2192, 2262, 2324, 2394, 2456, 3178] = (564, 2324, 70)
  rw [jalCalLoop_cons, if_neg (by omega)]
  show jalCalLoop jy 10 38 29 [199, 426, 686, 756, 818, 1111, 1181, 1210, 1635, 2060, 2097, 2192, 2262, 2324, 2394, 2456, 3178] = (564, 2324, 70)
  rw [jalCalLoop_cons, if_neg (by omega)]
  show jalCalLoop jy 49 199 161 [426, 686, 756, 818, 1111, 1181, 1210, 1635, 2060, 2097, 2192, 2262, 2324, 2394, 2456, 3178] = (564, 2324, 70)
  rw [jalCalLoop_cons, if_neg (by omega)]
  show jalCalLoop jy 104 426 227 [686, 756, 818, 1111, 1181, 1210, 1635, 2060, 2097, 2192, 2262, 2324, 2394, 2456, 3178] = (564, 2324, 70)
  rw [jalCalLoop_cons, if_neg (by omega)]
  show jalCalLoop jy 167 686 260 [756, 818, 1111, 1181, 1210, 1635, 2060, 2097, 2192, 2262, 2324, 2394, 2456, 3178] = (564, 2324, 70)
  rw [jalCalLoop_cons, if_neg (by omega)]
  show jalCalLoop jy 184 756 70 [818, 1111, 1181, 1210, 1635, 2060, 2097, 2192, 2262, 2324, 2394, 2456, 3178] = (564, 2324, 70)
  rw [jalCalLoop_cons, if_neg (by omega)]
  show jalCalLoop jy 199 818 62 [1111, 1181, 1210, 1635, 2060, 2097, 2192, 2262, 2324, 2394, 2456, 3178] = (564, 2324, 70)
  rw [jalCalLoop_cons, if_neg (by omega)]
  show jalCalLoop jy 270 1111 293 [1181, 1210, 1635, 2060, 2097, 2192, 2262, 2324, 2394, 2456, 3178] = (564, 2324, 70)
  rw [jalCalLoop_cons, if_neg (by omega)]
  show jalCalLoop jy 287 1181 70 [1210, 1635, 2060, 2097, 2192, 2262, 2324, 2394, 2456, 3178] = (564, 2324, 70)
  rw [jalCalLoop_cons, if_neg (by omega)]
  show jalCalLoop jy 294 1210 29 [1635, 2060, 2097, 2192, 2262, 2324, 2394, 2456, 3178] = (564, 2324, 70)
  rw [jalCalLoop_cons, if_neg (by omega)]
  show jalCalLoop jy 397 1635 425 [2060, 2097, 2192, 2262, 2324, 2394, 2456, 3178] = (564, 2324, 70)
  rw [jalCalLoop_cons, if_neg (by omega)]
  show jalCalLoop jy 500 2060 425 [2097, 2192, 2262, 2324, 2394, 2456, 3178] = (564, 2324, 70)
  rw [jalCalLoop_cons, if_neg (by omega)]
  show jalCalLoop jy 509 2097 37 [2192, 2262, 2324, 2394, 2456, 3178] = (564, 2324, 70)
  rw [jalCalLoop_cons, if_neg (by omega)]
  show jalCalLoop jy 532 2192 95 [2262, 2324, 2394, 2456, 3178] = (564, 2324, 70)
  rw [jalCalLoop_cons, if_neg (by omega)]
  show jalCalLoop jy 549 2262 70 [2324, 2394, 2456, 3178] = (564, 2324, 70)
  rw [jalCalLoop_cons, if_neg (by omega)]
  show jalCalLoop jy 564 2324 62 [2394, 2456, 3178] = (564, 2324, 70)
  rw [jalCalLoop_cons, if_pos (by omega)]
  decide

lemma jalCal_in_i16 (jy : Int) (h1 : 2324 ≤ jy) (h2 : jy < 2394) :
    jalCal jy = some ⟨leapOf 2324 70 jy, jy + 621, marchOf 564 2324 70 jy⟩ :=
  jalCal_eval jy 564 2324 70 (by omega) (by omega) (jalCalLoop_i16 jy h1 h2)
    (by omega) (by omega)

set_option maxHeartbeats 2000000 in
lemma march_bounds_i16 (jy : Int) (h1 : 2324 ≤ jy) (h2 : jy < 2394) :
    19 ≤ marchOf 564 2324 70 jy ∧ marchOf 564 2324 70 jy ≤ 22 := by
  unfold marchOf
  split_ifs <;> omega

lemma jalCalLoop_i17 (jy : Int) (h1 : 2394 ≤ jy) (h2 : jy < 2456) :
    jalCalLoop jy (-14) (-61) 0 (breaks.drop 1) = (581, 2394, 62) := by
  show jalCalLoop jy (-14) (-61) 0 [9, 38, 199, 426, 686, 756, 818, 1111, 1181, 1210, 1635, 2060, 2097, 2192, 2262, 2324, 2394, 2456, 3178] = (581, 2394, 62)
  rw [jalCalLoop_cons, if_neg (by omega)]
  show jalCalLoop jy 3 9 70 [38, 199, 426, 686, 756, 818, 1111, 1181, 1210, 1635, 2060, 2097, 2192, 2262, 2324, 2394, 2456, 3178] = (581, 2394, 62)
  rw [jalCalLoop_cons, if_neg (by omega)]
  show jalCalLoop jy 10 38 29 [199, 426, 686, 756, 818, 1111, 1181, 1210, 1635, 2060, 2097, 2192, 2262, 2324, 2394, 2456, 3178] = (581, 2394, 62)
  rw [jalCalLoop_cons, if_neg (by omega)]
  show jalCalLoop jy 49 199 161 [426, 686, 756, 818, 1111, 1181, 1210, 1635, 2060, 2097, 2192, 2262, 2324, 2394, 2456, 3178] = (581, 2394, 62)
  rw [jalCalLoop_cons, if_neg (by omega)]
  show jalCalLoop jy 104 426 227 [686, 756, 818, 1111, 1181, 1210, 1635, 2060, 2097, 2192, 2262, 2324, 2394, 2456, 3178] = (581, 2394, 62)
  rw [jalCalLoop_cons, if_neg (by omega)]
  show jalCalLoop jy 167 686 260 [756, 818, 1111, 1181, 1210, 1635, 2060, 2097, 2192, 2262, 2324, 2394, 2456, 3178] = (581, 2394, 62)
  rw [jalCalLoop_cons, if_neg (by omega)]
  show jalCalLoop jy 184 756 70 [818, 1111, 1181, 1210, 1635, 2060, 2097, 2192, 2262, 2324, 2394, 2456, 3178] = (581, 2394, 62)
  rw [jalCalLoop_cons, if_neg (by omega)]
  show jalCalLoop jy 199 818 62 [1111, 1181, 1210, 1635, 2060, 2097, 2192, 2262, 2324, 2394, 2456, 3178] = (581, 2394, 62)
  rw [jalCalLoop_cons, if_neg (by omega)]
  show jalCalLoop jy 270 1111 293 [1181, 1210, 1635, 2060, 2097, 2192, 2262, 2324, 2394, 2456, 3178] = (581, 2394, 62)
  rw [jalCalLoop_cons, if_neg (by omega)]
  show jalCalLoop jy 287 1181 70 [1210, 1635, 2060, 2097, 2192, 2262, 2324, 2394, 2456, 3178] = (581, 2394, 62)
  rw [jalCalLoop_cons, if_neg (by omega)]
  show jalCalLoop jy 294 1210 29 [1635, 2060, 2097, 2192, 2262, 2324, 2394, 2456, 3178] = (581, 2394, 62)
  rw [jalCalLoop_cons, if_neg (by omega)]
  show jalCalLoop jy 397 1635 425 [2060, 2097, 2192, 2262, 2324, 2394, 2456, 3178] = (581, 2394, 62)
  rw [jalCalLoop_cons, if_neg (by omega)]
  show jalCalLoop jy 500 2060 425 [2097, 2192, 2262, 2324, 2394, 2456, 3178] = (581, 2394, 62)
  rw [jalCalLoop_cons, if_neg (by omega)]
  show jalCalLoop jy 509 2097 37 [2192, 2262, 2324, 2394, 2456, 3178] = (581, 2394, 62)
  rw [jalCalLoop_cons, if_neg (by omega)]
  show jalCalLoop jy 532 2192 95 [2262, 2324, 2394, 2456, 3178] = (581, 2394, 62)
  rw [jalCalLoop_cons, if_neg (by omega)]
  show jalCalLoop jy 549 2262 70 [2324, 2394, 2456, 3178] = (581, 2394, 62)
  rw [jalCalLoop_cons, if_neg (by omega)]
  show jalCalLoop jy 564 2324 62 [2394, 2456, 3178] = (581, 2394, 62)
  rw [jalCalLoop_cons, if_neg (by omega)]
  show jalCalLoop jy 581 2394 70 [2456, 3178] = (581, 2394, 62)
  rw [jalCalLoop_cons, if_pos (by omega)]
  decide

lemma jalCal_in_i17 (jy : Int) (h1 : 2394 ≤ jy) (h2 : jy < 2456) :
    jalCal jy = some ⟨leapOf 2394 62 jy, jy + 621, marchOf 581 2394 62 jy⟩ :=
  jalCal_eval jy 581 2394 62 (by omega) (by omega) (jalCalLoop_i17 jy h1 h2)
    (by omega) (by omega)

set_option maxHeartbeats 2000000 in
lemma march_bounds_i17 (jy : Int) (h1 : 2394 ≤ jy) (h2 : jy < 2456) :
    19 ≤ marchOf 581 2394 62 jy ∧ marchOf 581 2394 62 jy ≤ 22 := by
  unfold marchOf
  split_ifs <;> omega

lemma jalCalLoop_i18 (jy : Int) (h1 : 2456 ≤ jy) (h2 : jy < 3178) :
    jalCalLoop jy (-14) (-61) 0 (breaks.drop 1) = (596, 2456, 722) := by
  show jalCalLoop jy (-14) (-61) 0 [9, 38, 199, 426, 686, 756, 818, 1111, 1181, 1210, 1635, 2060, 2097, 2192, 2262, 2324, 2394, 2456, 3178] = (596, 2456, 722)
  rw [jalCalLoop_cons, if_neg (by omega)]
  show jalCalLoop jy 3 9 70 [38, 199, 426, 686, 756, 818, 1111, 1181, 1210, 1635, 2060, 2097, 2192, 2262, 2324, 2394, 2456, 3178] = (596, 2456, 722)
  rw [jalCalLoop_cons, if_neg (by omega)]
  show jalCalLoop jy 10 38 29 [199, 426, 686, 756, 818, 1111, 1181, 1210, 1635, 2060, 2097, 2192, 2262, 2324, 2394, 2456, 3178] = (596, 2456, 722)
  rw [jalCalLoop_cons, if_neg (by omega)]
  show jalCalLoop jy 49 199 161 [426, 686, 756, 818, 1111, 1181, 1210, 1635, 2060, 2097, 2192, 2262, 2324, 2394, 2456, 3178] = (596, 2456, 722)
  rw [jalCalLoop_cons, if_neg (by omega)]
  show jalCalLoop jy 104 426 227 [686, 756, 818, 1111, 1181, 1210, 1635, 2060, 2097, 2192, 2262, 2324, 2394, 2456, 3178] = (596, 2456, 722)
  rw [jalCalLoop_cons, if_neg (by omega)]
  show jalCalLoop jy 167 686 260 [756, 818, 1111, 1181, 1210, 1635, 2060, 2097, 2192, 2262, 2324, 2394, 2456, 3178] = (596, 2456, 722)
  rw [jalCalLoop_cons, if_neg (by omega)]
  show jalCalLoop jy 184 756 70 [818, 1111, 1181, 1210, 1635, 2060, 2097, 2192, 2262, 2324, 2394, 2456, 3178] = (596, 2456, 722)
  rw [jalCalLoop_cons, if_neg (by omega)]
  show jalCalLoop jy 199 818 62 [1111, 1181, 1210, 1635, 2060, 2097, 2192, 2262, 2324, 2394, 2456, 3178] = (596, 2456, 722)
  rw [jalCalLoop_cons, if_neg (by omega)]
  show jalCalLoop jy 270 1111 293 [1181, 1210, 1635, 2060, 2097, 2192, 2262, 2324, 2394, 2456, 3178] = (596, 2456, 722)
  rw [jalCalLoop_cons, if_neg (by omega)]
  show jalCalLoop jy 287 1181 70 [1210, 1635, 2060, 2097, 2192, 2262, 2324, 2394, 2456, 3178] = (596, 2456, 722)
  rw [jalCalLoop_cons, if_neg (by omega)]
  show jalCalLoop jy 294 1210 29 [1635, 2060, 2097, 2192, 2262, 2324, 2394, 2456, 3178] = (596, 2456, 722)
  rw [jalCalLoop_cons, if_neg (by omega)]
  show jalCalLoop jy 397 1635 425 [2060, 2097, 2192, 2262, 2324, 2394, 2456, 3178] = (596, 2456, 722)
  rw [jalCalLoop_cons, if_neg (by omega)]
  show jalCalLoop jy 500 2060 425 [2097, 2192, 2262, 2324, 2394, 2456, 3178] = (596, 2456, 722)
  rw [jalCalLoop_cons, if_neg (by omega)]
  show jalCalLoop jy 509 2097 37 [2192, 2262, 2324, 2394, 2456, 3178] = (596, 2456, 722)
  rw [jalCalLoop_cons, if_neg (by omega)]
  show jalCalLoop jy 532 2192 95 [2262, 2324, 2394, 2456, 3178] = (596, 2456, 722)
  rw [jalCalLoop_cons, if_neg (by omega)]
  show jalCalLoop jy 549 2262 70 [2324, 2394, 2456, 3178] = (596, 2456, 722)
  rw [jalCalLoop_cons, if_neg (by omega)]
  show jalCalLoop jy 564 2324 62 [2394, 2456, 3178] = (596, 2456, 722)
  rw [jalCalLoop_cons, if_neg (by omega)]
  show jalCalLoop jy 581 2394 70 [2456, 3178] = (596, 2456, 722)
  rw [jalCalLoop_cons, if_neg (by omega)]
  show jalCalLoop jy 596 2456 62 [3178] = (596, 2456, 722)
  rw [jalCalLoop_cons, if_pos (by omega)]
  decide

lemma jalCal_in_i18 (jy : Int) (h1 : 2456 ≤ jy) (h2 : jy < 3178) :
    jalCal jy = some ⟨leapOf 2456 722 jy, jy + 621, marchOf 596 2456 722 jy⟩ :=
  jalCal_eval jy 596 2456 722 (by omega) (by omega) (jalCalLoop_i18 jy h1 h2)
    (by omega) (by omega)

set_option maxHeartbeats 2000000 in
lemma march_bounds_i18 (jy : Int) (h1 : 2456 ≤ jy) (h2 : jy < 3178) :
    19 ≤ marchOf 596 2456 722 jy ∧ marchOf 596 2456 722 jy ≤ 22 := by
  unfold marchOf
  split_ifs <;> omega
set_option maxHeartbeats 4000000 in
lemma march_bounds_global (jy : Int) (r : JalCalResult) (h1 : -61 ≤ jy) (h2 : jy < 3178)
    (hr : jalCal jy = some r) : 19 ≤ r.march ∧ r.march ≤ 22 := by
  by_cases hk0 : jy < 9
  · rw [jalCal_in_i0 jy (by omega) (by omega)] at hr
    obtain rfl := Option.some.inj hr
    exact march_bounds_i0 jy (by omega) (by omega)
  by_cases hk1 : jy < 38
  · rw [jalCal_in_i1 jy (by omega) (by omega)] at hr
    obtain rfl := Option.some.inj hr
    exact march_bounds_i1 jy (by omega) (by omega)
  by_cases hk2 : jy < 199
  · rw [jalCal_in_i2 jy (by omega) (by omega)] at hr
    obtain rfl := Option.some.inj hr
    exact march_bounds_i2 jy (by omega) (by omega)
  by_cases hk3 : jy < 426
  · rw [jalCal_in_i3 jy (by omega) (by omega)] at hr
    obtain rfl := Option.some.inj hr
    exact march_bounds_i3 jy (by omega) (by omega)
  by_cases hk4 : jy < 686
  · rw [jalCal_in_i4 jy (by omega) (by omega)] at hr
    obtain rfl := Option.some.inj hr
    exact march_bounds_i4 jy (by omega) (by omega)
  by_cases hk5 : jy < 756
  · rw [jalCal_in_i5 jy (by omega) (by omega)] at hr
    obtain rfl := Option.some.inj hr
    exact march_bounds_i5 jy (by omega) (by omega)
  by_cases hk6 : jy < 818
  · rw [jalCal_in_i6 jy (by omega) (by omega)] at hr
    obtain rfl := Option.some.inj hr
    exact march_bounds_i6 jy (by omega) (by omega)
  by_cases hk7 : jy < 1111
  · rw [jalCal_in_i7 jy (by omega) (by omega)] at hr
    obtain rfl := Option.some.inj hr
    exact march_bounds_i7 jy (by omega) (by omega)
  by_cases hk8 : jy < 1181
  · rw [jalCal_in_i8 jy (by omega) (by omega)] at hr
    obtain rfl := Option.some.inj hr
    exact march_bounds_i8 jy (by omega) (by omega)
  by_cases hk9 : jy < 1210
  · rw [jalCal_in_i9 jy (by omega) (by omega)] at hr
    obtain rfl := Option.some.inj hr
    exact march_bounds_i9 jy (by omega) (by omega)
  by_cases hk10 : jy < 1635
  · rw [jalCal_in_i10 jy (by omega) (by omega)] at hr
    obtain rfl := Option.some.inj hr
    exact march_bounds_i10 jy (by omega) (by omega)
  by_cases hk11 : jy < 2060
  · rw [jalCal_in_i11 jy (by omega) (by omega)] at hr
    obtain rfl := Option.some.inj hr
    exact march_bounds_i11 jy (by omega) (by omega)
  by_cases hk12 : jy < 2097
  · rw [jalCal_in_i12 jy (by omega) (by omega)] at hr
    obtain rfl := Option.some.inj hr
    exact march_bounds_i12 jy (by omega) (by omega)
  by_cases hk13 : jy < 2192
  · rw [jalCal_in_i13 jy (by omega) (by omega)] at hr
    obtain rfl := Option.some.inj hr
    exact march_bounds_i13 jy (by omega) (by omega)
  by_cases hk14 : jy < 2262
  · rw [jalCal_in_i14 jy (by omega) (by omega)] at hr
    obtain rfl := Option.some.inj hr
    exact march_bounds_i14 jy (by omega) (by omega)
  by_cases hk15 : jy < 2324
  · rw [jalCal_in_i15 jy (by omega) (by omega)] at hr
    obtain rfl := Option.some.inj hr
    exact march_bounds_i15 jy (by omega) (by omega)
  by_cases hk16 : jy < 2394
  · rw [jalCal_in_i16 jy (by omega) (by omega)] at hr
    obtain rfl := Option.some.inj hr
    exact march_bounds_i16 jy (by omega) (by omega)
  by_cases hk17 : jy < 2456
  · rw [jalCal_in_i17 jy (by omega) (by omega)] at hr
    obtain rfl := Option.some.inj hr
    exact march_bounds_i17 jy (by omega) (by omega)
  rw [jalCal_in_i18 jy (by omega) (by omega)] at hr
  obtain rfl := Option.some.inj hr
  exact march_bounds_i18 jy (by omega) (by omega)

set_option maxHeartbeats 8000000 in
lemma yearlen_global (jy : Int) (r r2 : JalCalResult) (h1 : -60 ≤ jy) (h2 : jy < 3178)
    (hr : jalCal jy = some r) (hr2 : jalCal (jy - 1) = some r2) :
    g2d r.gy 3 r.march - g2d r2.gy 3 r2.march = 365 + (if r.leap = 1 then 1 else 0) := by
  by_cases hk0 : jy < 9
  · rw [jalCal_in_i0 jy (by omega) (by omega)] at hr
    rw [jalCal_in_i0 (jy - 1) (by omega) (by omega)] at hr2
    obtain rfl := Option.some.inj hr
    obtain rfl := Option.some.inj hr2
    dsimp only
    rw [show jy - 1 + 621 = jy + 620 from by ring]
    by_cases ht0 : jy ≤ 3
    · exact yearlen_main (-14) (-61) 70 jy (by norm_num) (by norm_num) (by omega) (by omega)
    · exact yearlen_top4 (-14) (-61) 70 jy (by norm_num) (by norm_num) (by decide) (by decide) (by omega) (by omega)
  by_cases hk1 : jy < 38
  · by_cases hb1 : jy = 9
    · subst hb1
      rw [jalCal_in_i1 9 (by norm_num) (by norm_num)] at hr
      rw [jalCal_in_i0 (9 - 1) (by norm_num) (by norm_num)] at hr2
      obtain rfl := Option.some.inj hr
      obtain rfl := Option.some.inj hr2
      decide
    · rw [jalCal_in_i1 jy (by omega) (by omega)] at hr
      rw [jalCal_in_i1 (jy - 1) (by omega) (by omega)] at hr2
      obtain rfl := Option.some.inj hr
      obtain rfl := Option.some.inj hr2
      dsimp only
      rw [show jy - 1 + 621 = jy + 620 from by ring]
      by_cases ht1 : jy ≤ 32
      · exact yearlen_main 3 9 29 jy (by norm_num) (by norm_num) (by omega) (by omega)
      · exact yearlen_top29 3 9 29 jy (by norm_num) (by norm_num) (by decide) (by decide) (by omega) (by omega)
  by_cases hk2 : jy < 199
  · by_cases hb2 : jy = 38
    · subst hb2
      rw [jalCal_in_i2 38 (by norm_num) (by norm_num)] at hr
      rw [jalCal_in_i1 (38 - 1) (by norm_num) (by norm_num)] at hr2
      obtain rfl := Option.some.inj hr
      obtain rfl := Option.some.inj hr2
      decide
    · rw [jalCal_in_i2 jy (by omega) (by omega)] at hr
      rw [jalCal_in_i2 (jy - 1) (by omega) (by omega)] at hr2
      obtain rfl := Option.some.inj hr
      obtain rfl := Option.some.inj hr2
      dsimp only
      rw [show jy - 1 + 621 = jy + 620 from by ring]
      by_cases ht2 : jy ≤ 193
      · exact yearlen_main 10 38 161 jy (by norm_num) (by norm_num) (by omega) (by omega)
      · exact yearlen_top29 10 38 161 jy (by norm_num) (by norm_num) (by decide) (by decide) (by omega) (by omega)
  by_cases hk3 : jy < 426
  · by_cases hb3 : jy = 199
    · subst hb3
      rw [jalCal_in_i3 199 (by norm_num) (by norm_num)] at hr
      rw [jalCal_in_i2 (199 - 1) (by norm_num) (by norm_num)] at hr2
      obtain rfl := Option.some.inj hr
      obtain rfl := Option.some.inj hr2
      decide
    · rw [jalCal_in_i3 jy (by omega) (by omega)] at hr
      rw [jalCal_in_i3 (jy - 1) (by omega) (by omega)] at hr2
      obtain rfl := Option.some.inj hr
      obtain rfl := Option.some.inj hr2
      dsimp only
      rw [show jy - 1 + 621 = jy + 620 from by ring]
      by_cases ht3 : jy ≤ 420
      · exact yearlen_main 49 199 227 jy (by norm_num) (by norm_num) (by omega) (by omega)
      · exact yearlen_top29 49 199 227 jy (by norm_num) (by norm_num) (by decide) (by decide) (by omega) (by omega)
  by_cases hk4 : jy < 686
  · by_cases hb4 : jy = 426
    · subst hb4
      rw [jalCal_in_i4 426 (by norm_num) (by norm_num)] at hr
      rw [jalCal_in_i3 (426 - 1) (by norm_num) (by norm_num)] at hr2
      obtain rfl := Option.some.inj hr
      obtain rfl := Option.some.inj hr2
      decide
    · rw [jalCal_in_i4 jy (by omega) (by omega)] at hr
      rw [jalCal_in_i4 (jy - 1) (by omega) (by omega)] at hr2
      obtain rfl := Option.some.inj hr
      obtain rfl := Option.some.inj hr2
      dsimp only
      rw [show jy - 1 + 621 = jy + 620 from by ring]
      by_cases ht4 : jy ≤ 680
      · exact yearlen_main 104 426 260 jy (by norm_num) (by norm_num) (by omega) (by omega)
      · exact yearlen_top29 104 426 260 jy (by norm_num) (by norm_num) (by decide) (by decide) (by omega) (by omega)
  by_cases hk5 : jy < 756
  · by_cases hb5 : jy = 686
    · subst hb5
      rw [jalCal_in_i5 686 (by norm_num) (by norm_num)] at hr
      rw [jalCal_in_i4 (686 - 1) (by norm_num) (by norm_num)] at hr2
      obtain rfl := Option.some.inj hr
      obtain rfl := Option.some.inj hr2
      decide
    · rw [jalCal_in_i5 jy (by omega) (by omega)] at hr
      rw [jalCal_in_i5 (jy - 1) (by omega) (by omega)] at hr2
      obtain rfl := Option.some.inj hr
      obtain rfl := Option.some.inj hr2
      dsimp only
      rw [show jy - 1 + 621 = jy + 620 from by ring]
      by_cases ht5 : jy ≤ 750
      · exact yearlen_main 167 686 70 jy (by norm_num) (by norm_num) (by omega) (by omega)
      · exact yearlen_top4 167 686 70 jy (by norm_num) (by norm_num) (by decide) (by decide) (by omega) (by omega)
  by_cases hk6 : jy < 818
  · by_cases hb6 : jy = 756
    · subst hb6
      rw [jalCal_in_i6 756 (by norm_num) (by norm_num)] at hr
      rw [jalCal_in_i5 (756 - 1) (by norm_num) (by norm_num)] at hr2
      obtain rfl := Option.some.inj hr
      obtain rfl := Option.some.inj hr2
      decide
    · rw [jalCal_in_i6 jy (by omega) (by omega)] at hr
      rw [jalCal_in_i6 (jy - 1) (by omega) (by omega)] at hr2
      obtain rfl := Option.some.inj hr
      obtain rfl := Option.some.inj hr2
      dsimp only
      rw [show jy - 1 + 621 = jy + 620 from by ring]
      by_cases ht6 : jy ≤ 812
      · exact yearlen_main 184 756 62 jy (by norm_num) (by norm_num) (by omega) (by omega)
      · exact yearlen_top29 184 756 62 jy (by norm_num) (by norm_num) (by decide) (by decide) (by omega) (by omega)
  by_cases hk7 : jy < 1111
  · by_cases hb7 : jy = 818
    · subst hb7
      rw [jalCal_in_i7 818 (by norm_num) (by norm_num)] at hr
      rw [jalCal_in_i6 (818 - 1) (by norm_num) (by norm_num)] at hr2
      obtain rfl := Option.some.inj hr
      obtain rfl := Option.some.inj hr2
      decide
    · rw [jalCal_in_i7 jy (by omega) (by omega)] at hr
      rw [jalCal_in_i7 (jy - 1) (by omega) (by omega)] at hr2
      obtain rfl := Option.some.inj hr
      obtain rfl := Option.some.inj hr2
      dsimp only
      rw [show jy - 1 + 621 = jy + 620 from by ring]
      by_cases ht7 : jy ≤ 1105
      · exact yearlen_main 199 818 293 jy (by norm_num) (by norm_num) (by omega) (by omega)
      · exact yearlen_top29 199 818 293 jy (by norm_num) (by norm_num) (by decide) (by decide) (by omega) (by omega)
  by_cases hk8 : jy < 1181
  · by_cases hb8 : jy = 1111
    · subst hb8
      rw [jalCal_in_i8 1111 (by norm_num) (by norm_num)] at hr
      rw [jalCal_in_i7 (1111 - 1) (by norm_num) (by norm_num)] at hr2
      obtain rfl := Option.some.inj hr
      obtain rfl := Option.some.inj hr2
      decide
    · rw [jalCal_in_i8 jy (by omega) (by omega)] at hr
      rw [jalCal_in_i8 (jy - 1) (by omega) (by omega)] at hr2
      obtain rfl := Option.some.inj hr
      obtain rfl := Option.some.inj hr2
      dsimp only
      rw [show jy - 1 + 621 = jy + 620 from by ring]
      by_cases ht8 : jy ≤ 1175
      · exact yearlen_main 270 1111 70 jy (by norm_num) (by norm_num) (by omega) (by omega)
      · exact yearlen_top4 270 1111 70 jy (by norm_num) (by norm_num) (by decide) (by decide) (by omega) (by omega)
  by_cases hk9 : jy < 1210
  · by_cases hb9 : jy = 1181
    · subst hb9
      rw [jalCal_in_i9 1181 (by norm_num) (by norm_num)] at hr
      rw [jalCal_in_i8 (1181 - 1) (by norm_num) (by norm_num)] at hr2
      obtain rfl := Option.some.inj hr
      obtain rfl := Option.some.inj hr2
      decide
    · rw [jalCal_in_i9 jy (by omega) (by omega)] at hr
      rw [jalCal_in_i9 (jy - 1) (by omega) (by omega)] at hr2
      obtain rfl := Option.some.inj hr
      obtain rfl := Option.some.inj hr2
      dsimp only
      rw [show jy - 1 + 621 = jy + 620 from by ring]
      by_cases ht9 : jy ≤ 1204
      · exact yearlen_main 287 1181 29 jy (by norm_num) (by norm_num) (by omega) (by omega)
      · exact yearlen_top29 287 1181 29 jy (by norm_num) (by norm_num) (by decide) (by decide) (by omega) (by omega)
  by_cases hk10 : jy < 1635
  · by_cases hb10 : jy = 1210
    · subst hb10
      rw [jalCal_in_i10 1210 (by norm_num) (by norm_num)] at hr
      rw [jalCal_in_i9 (1210 - 1) (by norm_num) (by norm_num)] at hr2
      obtain rfl := Option.some.inj hr
      obtain rfl := Option.some.inj hr2
      decide
    · rw [jalCal_in_i10 jy (by omega) (by omega)] at hr
      rw [jalCal_in_i10 (jy - 1) (by omega) (by omega)] at hr2
      obtain rfl := Option.some.inj hr
      obtain rfl := Option.some.inj hr2
      dsimp only
      rw [show jy - 1 + 621 = jy + 620 from by ring]
      by_cases ht10 : jy ≤ 1629
      · exact yearlen_main 294 1210 425 jy (by norm_num) (by norm_num) (by omega) (by omega)
      · exact yearlen_top29 294 1210 425 jy (by norm_num) (by norm_num) (by decide) (by decide) (by omega) (by omega)
  by_cases hk11 : jy < 2060
  · by_cases hb11 : jy = 1635
    · subst hb11
      rw [jalCal_in_i11 1635 (by norm_num) (by norm_num)] at hr
      rw [jalCal_in_i10 (1635 - 1) (by norm_num) (by norm_num)] at hr2
      obtain rfl := Option.some.inj hr
      obtain rfl := Option.some.inj hr2
      decide
    · rw [jalCal_in_i11 jy (by omega) (by omega)] at hr
      rw [jalCal_in_i11 (jy - 1) (by omega) (by omega)] at hr2
      obtain rfl := Option.some.inj hr
      obtain rfl := Option.some.inj hr2
      dsimp only
      rw [show jy - 1 + 621 = jy + 620 from by ring]
      by_cases ht11 : jy ≤ 2054
      · exact yearlen_main 397 1635 425 jy (by norm_num) (by norm_num) (by omega) (by omega)
      · exact yearlen_top29 397 1635 425 jy (by norm_num) (by norm_num) (by decide) (by decide) (by omega) (by omega)
  by_cases hk12 : jy < 2097
  · by_cases hb12 : jy = 2060
    · subst hb12
      rw [jalCal_in_i12 2060 (by norm_num) (by norm_num)] at hr
      rw [jalCal_in_i11 (2060 - 1) (by norm_num) (by norm_num)] at hr2
      obtain rfl := Option.some.inj hr
      obtain rfl := Option.some.inj hr2
      decide
    · rw [jalCal_in_i12 jy (by omega) (by omega)] at hr
      rw [jalCal_in_i12 (jy - 1) (by omega) (by omega)] at hr2
      obtain rfl := Option.some.inj hr
      obtain rfl := Option.some.inj hr2
      dsimp only
      rw [show jy - 1 + 621 = jy + 620 from by ring]
      by_cases ht12 : jy ≤ 2091
      · exact yearlen_main 500 2060 37 jy (by norm_num) (by norm_num) (by omega) (by omega)
      · exact yearlen_top4 500 2060 37 jy (by norm_num) (by norm_num) (by decide) (by decide) (by omega) (by omega)
  by_cases hk13 : jy < 2192
  · by_cases hb13 : jy = 2097
    · subst hb13
      rw [jalCal_in_i13 2097 (by norm_num) (by norm_num)] at hr
      rw [jalCal_in_i12 (2097 - 1) (by norm_num) (by norm_num)] at hr2
      obtain rfl := Option.some.inj hr
      obtain rfl := Option.some.inj hr2
      decide
    · rw [jalCal_in_i13 jy (by omega) (by omega)] at hr
      rw [jalCal_in_i13 (jy - 1) (by omega) (by omega)] at hr2
      obtain rfl := Option.some.inj hr
      obtain rfl := Option.some.inj hr2
      dsimp only
      rw [show jy - 1 + 621 = jy + 620 from by ring]
      by_cases ht13 : jy ≤ 2186
      · exact yearlen_main 509 2097 95 jy (by norm_num) (by norm_num) (by omega) (by omega)
      · exact yearlen_top29 509 2097 95 jy (by norm_num) (by norm_num) (by decide) (by decide) (by omega) (by omega)
  by_cases hk14 : jy < 2262
  · by_cases hb14 : jy = 2192
    · subst hb14
      rw [jalCal_in_i14 2192 (by norm_num) (by norm_num)] at hr
      rw [jalCal_in_i13 (2192 - 1) (by norm_num) (by norm_num)] at hr2
      obtain rfl := Option.some.inj hr
      obtain rfl := Option.some.inj hr2
      decide
    · rw [jalCal_in_i14 jy (by omega) (by omega)] at hr
      rw [jalCal_in_i14 (jy - 1) (by omega) (by omega)] at hr2
      obtain rfl := Option.some.inj hr
      obtain rfl := Option.some.inj hr2
      dsimp only
      rw [show jy - 1 + 621 = jy + 620 from by ring]
      by_cases ht14 : jy ≤ 2256
      · exact yearlen_main 532 2192 70 jy (by norm_num) (by norm_num) (by omega) (by omega)
      · exact yearlen_top4 532 2192 70 jy (by norm_num) (by norm_num) (by decide) (by decide) (by omega) (by omega)
  by_cases hk15 : jy < 2324
  · by_cases hb15 : jy = 2262
    · subst hb15
      rw [jalCal_in_i15 2262 (by norm_num) (by norm_num)] at hr
      rw [jalCal_in_i14 (2262 - 1) (by norm_num) (by norm_num)] at hr2
      obtain rfl := Option.some.inj hr
      obtain rfl := Option.some.inj hr2
      decide
    · rw [jalCal_in_i15 jy (by omega) (by omega)] at hr
      rw [jalCal_in_i15 (jy - 1) (by omega) (by omega)] at hr2
      obtain rfl := Option.some.inj hr
      obtain rfl := Option.some.inj hr2
      dsimp only
      rw [show jy - 1 + 621 = jy + 620 from by ring]
      by_cases ht15 : jy ≤ 2318
      · exact yearlen_main 549 2262 62 jy (by norm_num) (by norm_num) (by omega) (by omega)
      · exact yearlen_top29 549 2262 62 jy (by norm_num) (by norm_num) (by decide) (by decide) (by omega) (by omega)
  by_cases hk16 : jy < 2394
  · by_cases hb16 : jy = 2324
    · subst hb16
      rw [jalCal_in_i16 2324 (by norm_num) (by norm_num)] at hr
      rw [jalCal_in_i15 (2324 - 1) (by norm_num) (by norm_num)] at hr2
      obtain rfl := Option.some.inj hr
      obtain rfl := Option.some.inj hr2
      decide
    · rw [jalCal_in_i16 jy (by omega) (by omega)] at hr
      rw [jalCal_in_i16 (jy - 1) (by omega) (by omega)] at hr2
      obtain rfl := Option.some.inj hr
      obtain rfl := Option.some.inj hr2
      dsimp only
      rw [show jy - 1 + 621 = jy + 620 from by ring]
      by_cases ht16 : jy ≤ 2388
      · exact yearlen_main 564 2324 70 jy (by norm_num) (by norm_num) (by omega) (by omega)
      · exact yearlen_top4 564 2324 70 jy (by norm_num) (by norm_num) (by decide) (by decide) (by omega) (by omega)
  by_cases hk17 : jy < 2456
  · by_cases hb17 : jy = 2394
    · subst hb17
      rw [jalCal_in_i17 2394 (by norm_num) (by norm_num)] at hr
      rw [jalCal_in_i16 (2394 - 1) (by norm_num) (by norm_num)] at hr2
      obtain rfl := Option.some.inj hr
      obtain rfl := Option.some.inj hr2
      decide
    · rw [jalCal_in_i17 jy (by omega) (by omega)] at hr
      rw [jalCal_in_i17 (jy - 1) (by omega) (by omega)] at hr2
      obtain rfl := Option.some.inj hr
      obtain rfl := Option.some.inj hr2
      dsimp only
      rw [show jy - 1 + 621 = jy + 620 from by ring]
      by_cases ht17 : jy ≤ 2450
      · exact yearlen_main 581 2394 62 jy (by norm_num) (by norm_num) (by omega) (by omega)
      · exact yearlen_top29 581 2394 62 jy (by norm_num) (by norm_num) (by decide) (by decide) (by omega) (by omega)
  by_cases hb18 : jy = 2456
  · subst hb18
    rw [jalCal_in_i18 2456 (by norm_num) (by norm_num)] at hr
    rw [jalCal_in_i17 (2456 - 1) (by norm_num) (by norm_num)] at hr2
    obtain rfl := Option.some.inj hr
    obtain rfl := Option.some.inj hr2
    decide
  · rw [jalCal_in_i18 jy (by omega) (by omega)] at hr
    rw [jalCal_in_i18 (jy - 1) (by omega) (by omega)] at hr2
    obtain rfl := Option.some.inj hr
    obtain rfl := Option.some.inj hr2
    dsimp only
    rw [show jy - 1 + 621 = jy + 620 from by ring]
    by_cases ht18 : jy ≤ 3172
    · exact yearlen_main 596 2456 722 jy (by norm_num) (by norm_num) (by omega) (by omega)
    · exact yearlen_top29 596 2456 722 jy (by norm_num) (by norm_num) (by decide) (by decide) (by omega) (by omega)

set_option maxHeartbeats 8000000 in
lemma leapsucc_global (jy : Int) (r r2 : JalCalResult) (h1 : -61 ≤ jy) (h2 : jy + 1 < 3178)
    (hr : jalCal jy = some r) (hr2 : jalCal (jy + 1) = some r2) :
    (r2.leap = 1 ↔ r.leap = 0) := by
  by_cases hk0 : jy < 9
  · by_cases hc0 : jy = 9 - 1
    · subst hc0
      rw [jalCal_in_i0 (9 - 1) (by norm_num) (by norm_num)] at hr
      rw [show (9 : Int) - 1 + 1 = 9 from by norm_num] at hr2
      rw [jalCal_in_i1 9 (by norm_num) (by norm_num)] at hr2
      obtain rfl := Option.some.inj hr
      obtain rfl := Option.some.inj hr2
      decide
    · rw [jalCal_in_i0 jy (by omega) (by omega)] at hr
      rw [jalCal_in_i0 (jy + 1) (by omega) (by omega)] at hr2
      obtain rfl := Option.some.inj hr
      obtain rfl := Option.some.inj hr2
      dsimp only
      by_cases ht0 : jy + 1 ≤ 3
      · exact leapsucc_main (-61) 70 jy (by norm_num) (by omega) (by omega)
      · exact leapsucc_top4 (-61) 70 jy (by norm_num) (by decide) (by decide) (by omega) (by omega)
  by_cases hk1 : jy < 38
  · by_cases hc1 : jy = 38 - 1
    · subst hc1
      rw [jalCal_in_i1 (38 - 1) (by norm_num) (by norm_num)] at hr
      rw [show (38 : Int) - 1 + 1 = 38 from by norm_num] at hr2
      rw [jalCal_in_i2 38 (by norm_num) (by norm_num)] at hr2
      obtain rfl := Option.some.inj hr
      obtain rfl := Option.some.inj hr2
      decide
    · rw [jalCal_in_i1 jy (by omega) (by omega)] at hr
      rw [jalCal_in_i1 (jy + 1) (by omega) (by omega)] at hr2
      obtain rfl := Option.some.inj hr
      obtain rfl := Option.some.inj hr2
      dsimp only
      by_cases ht1 : jy + 1 ≤ 32
      · exact leapsucc_main 9 29 jy (by norm_num) (by omega) (by omega)
      · exact leapsucc_top29 9 29 jy (by norm_num) (by decide) (by decide) (by omega) (by omega)
  by_cases hk2 : jy < 199
  · by_cases hc2 : jy = 199 - 1
    · subst hc2
      rw [jalCal_in_i2 (199 - 1) (by norm_num) (by norm_num)] at hr
      rw [show (199 : Int) - 1 + 1 = 199 from by norm_num] at hr2
      rw [jalCal_in_i3 199 (by norm_num) (by norm_num)] at hr2
      obtain rfl := Option.some.inj hr
      obtain rfl := Option.some.inj hr2
      decide
    · rw [jalCal_in_i2 jy (by omega) (by omega)] at hr
      rw [jalCal_in_i2 (jy + 1) (by omega) (by omega)] at hr2
      obtain rfl := Option.some.inj hr
      obtain rfl := Option.some.inj hr2
      dsimp only
      by_cases ht2 : jy + 1 ≤ 193
      · exact leapsucc_main 38 161 jy (by norm_num) (by omega) (by omega)
      · exact leapsucc_top29 38 161 jy (by norm_num) (by decide) (by decide) (by omega) (by omega)
  by_cases hk3 : jy < 426
  · by_cases hc3 : jy = 426 - 1
    · subst hc3
      rw [jalCal_in_i3 (426 - 1) (by norm_num) (by norm_num)] at hr
      rw [show (426 : Int) - 1 + 1 = 426 from by norm_num] at hr2
      rw [jalCal_in_i4 426 (by norm_num) (by norm_num)] at hr2
      obtain rfl := Option.some.inj hr
      obtain rfl := Option.some.inj hr2
      decide
    · rw [jalCal_in_i3 jy (by omega) (by omega)] at hr
      rw [jalCal_in_i3 (jy + 1) (by omega) (by omega)] at hr2
      obtain rfl := Option.some.inj hr
      obtain rfl := Option.some.inj hr2
      dsimp only
      by_cases ht3 : jy + 1 ≤ 420
      · exact leapsucc_main 199 227 jy (by norm_num) (by omega) (by omega)
      · exact leapsucc_top29 199 227 jy (by norm_num) (by decide) (by decide) (by omega) (by omega)
  by_cases hk4 : jy < 686
  · by_cases hc4 : jy = 686 - 1
    · subst hc4
      rw [jalCal_in_i4 (686 - 1) (by norm_num) (by norm_num)] at hr
      rw [show (686 : Int) - 1 + 1 = 686 from by norm_num] at hr2
      rw [jalCal_in_i5 686 (by norm_num) (by norm_num)] at hr2
      obtain rfl := Option.some.inj hr
      obtain rfl := Option.some.inj hr2
      decide
    · rw [jalCal_in_i4 jy (by omega) (by omega)] at hr
      rw [jalCal_in_i4 (jy + 1) (by omega) (by omega)] at hr2
      obtain rfl := Option.some.inj hr
      obtain rfl := Option.some.inj hr2
      dsimp only
      by_cases ht4 : jy + 1 ≤ 680
      · exact leapsucc_main 426 260 jy (by norm_num) (by omega) (by omega)
      · exact leapsucc_top29 426 260 jy (by norm_num) (by decide) (by decide) (by omega) (by omega)
  by_cases hk5 : jy < 756
  · by_cases hc5 : jy = 756 - 1
    · subst hc5
      rw [jalCal_in_i5 (756 - 1) (by norm_num) (by norm_num)] at hr
      rw [show (756 : Int) - 1 + 1 = 756 from by norm_num] at hr2
      rw [jalCal_in_i6 756 (by norm_num) (by norm_num)] at hr2
      obtain rfl := Option.some.inj hr
      obtain rfl := Option.some.inj hr2
      decide
    · rw [jalCal_in_i5 jy (by omega) (by omega)] at hr
      rw [jalCal_in_i5 (jy + 1) (by omega) (by omega)] at hr2
      obtain rfl := Option.some.inj hr
      obtain rfl := Option.some.inj hr2
      dsimp only
      by_cases ht5 : jy + 1 ≤ 750
      · exact leapsucc_main 686 70 jy (by norm_num) (by omega) (by omega)
      · exact leapsucc_top4 686 70 jy (by norm_num) (by decide) (by decide) (by omega) (by omega)
  by_cases hk6 : jy < 818
  · by_cases hc6 : jy = 818 - 1
    · subst hc6
      rw [jalCal_in_i6 (818 - 1) (by norm_num) (by norm_num)] at hr
      rw [show (818 : Int) - 1 + 1 = 818 from by norm_num] at hr2
      rw [jalCal_in_i7 818 (by norm_num) (by norm_num)] at hr2
      obtain rfl := Option.some.inj hr
      obtain rfl := Option.some.inj hr2
      decide
    · rw [jalCal_in_i6 jy (by omega) (by omega)] at hr
      rw [jalCal_in_i6 (jy + 1) (by omega) (by omega)] at hr2
      obtain rfl := Option.some.inj hr
      obtain rfl := Option.some.inj hr2
      dsimp only
      by_cases ht6 : jy + 1 ≤ 812
      · exact leapsucc_main 756 62 jy (by norm_num) (by omega) (by omega)
      · exact leapsucc_top29 756 62 jy (by norm_num) (by decide) (by decide) (by omega) (by omega)
  by_cases hk7 : jy < 1111
  · by_cases hc7 : jy = 1111 - 1
    · subst hc7
      rw [jalCal_in_i7 (1111 - 1) (by norm_num) (by norm_num)] at hr
      rw [show (1111 : Int) - 1 + 1 = 1111 from by norm_num] at hr2
      rw [jalCal_in_i8 1111 (by norm_num) (by norm_num)] at hr2
      obtain rfl := Option.some.inj hr
      obtain rfl := Option.some.inj hr2
      decide
    · rw [jalCal_in_i7 jy (by omega) (by omega)] at hr
      rw [jalCal_in_i7 (jy + 1) (by omega) (by omega)] at hr2
      obtain rfl := Option.some.inj hr
      obtain rfl := Option.some.inj hr2
      dsimp only
      by_cases ht7 : jy + 1 ≤ 1105
      · exact leapsucc_main 818 293 jy (by norm_num) (by omega) (by omega)
      · exact leapsucc_top29 818 293 jy (by norm_num) (by decide) (by decide) (by omega) (by omega)
  by_cases hk8 : jy < 1181
  · by_cases hc8 : jy = 1181 - 1
    · subst hc8
      rw [jalCal_in_i8 (1181 - 1) (by norm_num) (by norm_num)] at hr
      rw [show (1181 : Int) - 1 + 1 = 1181 from by norm_num] at hr2
      rw [jalCal_in_i9 1181 (by norm_num) (by norm_num)] at hr2
      obtain rfl := Option.some.inj hr
      obtain rfl := Option.some.inj hr2
      decide
    · rw [jalCal_in_i8 jy (by omega) (by omega)] at hr
      rw [jalCal_in_i8 (jy + 1) (by omega) (by omega)] at hr2
      obtain rfl := Option.some.inj hr
      obtain rfl := Option.some.inj hr2
      dsimp only
      by_cases ht8 : jy + 1 ≤ 1175
      · exact leapsucc_main 1111 70 jy (by norm_num) (by omega) (by omega)
      · exact leapsucc_top4 1111 70 jy (by norm_num) (by decide) (by decide) (by omega) (by omega)
  by_cases hk9 : jy < 1210
  · by_cases hc9 : jy = 1210 - 1
    · subst hc9
      rw [jalCal_in_i9 (1210 - 1) (by norm_num) (by norm_num)] at hr
      rw [show (1210 : Int) - 1 + 1 = 1210 from by norm_num] at hr2
      rw [jalCal_in_i10 1210 (by norm_num) (by norm_num)] at hr2
      obtain rfl := Option.some.inj hr
      obtain rfl := Option.some.inj hr2
      decide
    · rw [jalCal_in_i9 jy (by omega) (by omega)] at hr
      rw [jalCal_in_i9 (jy + 1) (by omega) (by omega)] at hr2
      obtain rfl := Option.some.inj hr
      obtain rfl := Option.some.inj hr2
      dsimp only
      by_cases ht9 : jy + 1 ≤ 1204
      · exact leapsucc_main 1181 29 jy (by norm_num) (by omega) (by omega)
      · exact leapsucc_top29 1181 29 jy (by norm_num) (by decide) (by decide) (by omega) (by omega)
  by_cases hk10 : jy < 1635
  · by_cases hc10 : jy = 1635 - 1
    · subst hc10
      rw [jalCal_in_i10 (1635 - 1) (by norm_num) (by norm_num)] at hr
      rw [show (1635 : Int) - 1 + 1 = 1635 from by norm_num] at hr2
      rw [jalCal_in_i11 1635 (by norm_num) (by norm_num)] at hr2
      obtain rfl := Option.some.inj hr
      obtain rfl := Option.some.inj hr2
      decide
    · rw [jalCal_in_i10 jy (by omega) (by omega)] at hr
      rw [jalCal_in_i10 (jy + 1) (by omega) (by omega)] at hr2
      obtain rfl := Option.some.inj hr
      obtain rfl := Option.some.inj hr2
      dsimp only
      by_cases ht10 : jy + 1 ≤ 1629
      · exact leapsucc_main 1210 425 jy (by norm_num) (by omega) (by omega)
      · exact leapsucc_top29 1210 425 jy (by norm_num) (by decide) (by decide) (by omega) (by omega)
  by_cases hk11 : jy < 2060
  · by_cases hc11 : jy = 2060 - 1
    · subst hc11
      rw [jalCal_in_i11 (2060 - 1) (by norm_num) (by norm_num)] at hr
      rw [show (2060 : Int) - 1 + 1 = 2060 from by norm_num] at hr2
      rw [jalCal_in_i12 2060 (by norm_num) (by norm_num)] at hr2
      obtain rfl := Option.some.inj hr
      obtain rfl := Option.some.inj hr2
      decide
    · rw [jalCal_in_i11 jy (by omega) (by omega)] at hr
      rw [jalCal_in_i11 (jy + 1) (by omega) (by omega)] at hr2
      obtain rfl := Option.some.inj hr
      obtain rfl := Option.some.inj hr2
      dsimp only
      by_cases ht11 : jy + 1 ≤ 2054
      · exact leapsucc_main 1635 425 jy (by norm_num) (by omega) (by omega)
      · exact leapsucc_top29 1635 425 jy (by norm_num) (by decide) (by decide) (by omega) (by omega)
  by_cases hk12 : jy < 2097
  · by_cases hc12 : jy = 2097 - 1
    · subst hc12
      rw [jalCal_in_i12 (2097 - 1) (by norm_num) (by norm_num)] at hr
      rw [show (2097 : Int) - 1 + 1 = 2097 from by norm_num] at hr2
      rw [jalCal_in_i13 2097 (by norm_num) (by norm_num)] at hr2
      obtain rfl := Option.some.inj hr
      obtain rfl := Option.some.inj hr2
      decide
    · rw [jalCal_in_i12 jy (by omega) (by omega)] at hr
      rw [jalCal_in_i12 (jy + 1) (by omega) (by omega)] at hr2
      obtain rfl := Option.some.inj hr
      obtain rfl := Option.some.inj hr2
      dsimp only
      by_cases ht12 : jy + 1 ≤ 2091
      · exact leapsucc_main 2060 37 jy (by norm_num) (by omega) (by omega)
      · exact leapsucc_top4 2060 37 jy (by norm_num) (by decide) (by decide) (by omega) (by omega)
  by_cases hk13 : jy < 2192
  · by_cases hc13 : jy = 2192 - 1
    · subst hc13
      rw [jalCal_in_i13 (2192 - 1) (by norm_num) (by norm_num)] at hr
      rw [show (2192 : Int) - 1 + 1 = 2192 from by norm_num] at hr2
      rw [jalCal_in_i14 2192 (by norm_num) (by norm_num)] at hr2
      obtain rfl := Option.some.inj hr
      obtain rfl := Option.some.inj hr2
      decide
    · rw [jalCal_in_i13 jy (by omega) (by omega)] at hr
      rw [jalCal_in_i13 (jy + 1) (by omega) (by omega)] at hr2
      obtain rfl := Option.some.inj hr
      obtain rfl := Option.some.inj hr2
      dsimp only
      by_cases ht13 : jy + 1 ≤ 2186
      · exact leapsucc_main 2097 95 jy (by norm_num) (by omega) (by omega)
      · exact leapsucc_top29 2097 95 jy (by norm_num) (by decide) (by decide) (by omega) (by omega)
  by_cases hk14 : jy < 2262
  · by_cases hc14 : jy = 2262 - 1
    · subst hc14
      rw [jalCal_in_i14 (2262 - 1) (by norm_num) (by norm_num)] at hr
      rw [show (2262 : Int) - 1 + 1 = 2262 from by norm_num] at hr2
      rw [jalCal_in_i15 2262 (by norm_num) (by norm_num)] at hr2
      obtain rfl := Option.some.inj hr
      obtain rfl := Option.some.inj hr2
      decide
    · rw [jalCal_in_i14 jy (by omega) (by omega)] at hr
      rw [jalCal_in_i14 (jy + 1) (by omega) (by omega)] at hr2
      obtain rfl := Option.some.inj hr
      obtain rfl := Option.some.inj hr2
      dsimp only
      by_cases ht14 : jy + 1 ≤ 2256
      · exact leapsucc_main 2192 70 jy (by norm_num) (by omega) (by omega)
      · exact leapsucc_top4 2192 70 jy (by norm_num) (by decide) (by decide) (by omega) (by omega)
  by_cases hk15 : jy < 2324
  · by_cases hc15 : jy = 2324 - 1
    · subst hc15
      rw [jalCal_in_i15 (2324 - 1) (by norm_num) (by norm_num)] at hr
      rw [show (2324 : Int) - 1 + 1 = 2324 from by norm_num] at hr2
      rw [jalCal_in_i16 2324 (by norm_num) (by norm_num)] at hr2
      obtain rfl := Option.some.inj hr
      obtain rfl := Option.some.inj hr2
      decide
    · rw [jalCal_in_i15 jy (by omega) (by omega)] at hr
      rw [jalCal_in_i15 (jy + 1) (by omega) (by omega)] at hr2
      obtain rfl := Option.some.inj hr
      obtain rfl := Option.some.inj hr2
      dsimp only
      by_cases ht15 : jy + 1 ≤ 2318
      · exact leapsucc_main 2262 62 jy (by norm_num) (by omega) (by omega)
      · exact leapsucc_top29 2262 62 jy (by norm_num) (by decide) (by decide) (by omega) (by omega)
  by_cases hk16 : jy < 2394
  · by_cases hc16 : jy = 2394 - 1
    · subst hc16
      rw [jalCal_in_i16 (2394 - 1) (by norm_num) (by norm_num)] at hr
      rw [show (2394 : Int) - 1 + 1 = 2394 from by norm_num] at hr2
      rw [jalCal_in_i17 2394 (by norm_num) (by norm_num)] at hr2
      obtain rfl := Option.some.inj hr
      obtain rfl := Option.some.inj hr2
      decide
    · rw [jalCal_in_i16 jy (by omega) (by omega)] at hr
      rw [jalCal_in_i16 (jy + 1) (by omega) (by omega)] at hr2
      obtain rfl := Option.some.inj hr
      obtain rfl := Option.some.inj hr2
      dsimp only
      by_cases ht16 : jy + 1 ≤ 2388
      · exact leapsucc_main 2324 70 jy (by norm_num) (by omega) (by omega)
      · exact leapsucc_top4 2324 70 jy (by norm_num) (by decide) (by decide) (by omega) (by omega)
  by_cases hk17 : jy < 2456
  · by_cases hc17 : jy = 2456 - 1
    · subst hc17
      rw [jalCal_in_i17 (2456 - 1) (by norm_num) (by norm_num)] at hr
      rw [show (2456 : Int) - 1 + 1 = 2456 from by norm_num] at hr2
      rw [jalCal_in_i18 2456 (by norm_num) (by norm_num)] at hr2
      obtain rfl := Option.some.inj hr
      obtain rfl := Option.some.inj hr2
      decide
    · rw [jalCal_in_i17 jy (by omega) (by omega)] at hr
      rw [jalCal_in_i17 (jy + 1) (by omega) (by omega)] at hr2
      obtain rfl := Option.some.inj hr
      obtain rfl := Option.some.inj hr2
      dsimp only
      by_cases ht17 : jy + 1 ≤ 2450
      · exact leapsucc_main 2394 62 jy (by norm_num) (by omega) (by omega)
      · exact leapsucc_top29 2394 62 jy (by norm_num) (by decide) (by decide) (by omega) (by omega)
  rw [jalCal_in_i18 jy (by omega) (by omega)] at hr
  rw [jalCal_in_i18 (jy + 1) (by omega) (by omega)] at hr2
  obtain rfl := Option.some.inj hr
  obtain rfl := Option.some.inj hr2
  dsimp only
  by_cases ht18 : jy + 1 ≤ 3172
  · exact leapsucc_main 2456 722 jy (by norm_num) (by omega) (by omega)
  · exact leapsucc_top29 2456 722 jy (by norm_num) (by decide) (by decide) (by omega) (by omega)
lemma jalCal_some_range (jy : Int) (r : JalCalResult) (hr : jalCal jy = some r) :
    -61 ≤ jy ∧ jy < 3178 ∧ r.gy = jy + 621 := by
  unfold jalCal at hr
  by_cases h : jy < -61 ∨ jy ≥ 3178
  · rw [if_pos h] at hr
    cases hr
  · rw [if_neg h] at hr
    dsimp only at hr
    refine ⟨by omega, by omega, ?_⟩
    obtain rfl := Option.some.inj hr
    rfl

lemma jalCal_isSome (jy : Int) (h1 : -61 ≤ jy) (h2 : jy < 3178) :
    ∃ r, jalCal jy = some r := by
  unfold jalCal
  rw [if_neg (by omega)]
  exact ⟨_, rfl⟩

lemma g2d_sub_one (y m d : Int) : g2d y m d - 1 = g2d y m (d - 1) := by
  simp only [g2d]
  ring

lemma toGregorian_val_gen (jy jm jd : Int) (r : JalCalResult) (hjc : jalCal jy = some r) :
    toGregorian jy jm jd = some (d2g (g2d r.gy 3 r.march + (jm - 1) * 31
      - jsDiv jm 7 * (jm - 7) + jd - 1)) := by
  unfold toGregorian j2d
  rw [hjc]
  rfl

lemma d2j_val_gen (n y : Int) (r : JalCalResult)
    (hgy : (d2g n).gy = y) (hjc : jalCal (y - 621) = some r) :
    d2j n = some (
      if n - g2d y 3 r.march ≥ 0 then
        if n - g2d y 3 r.march ≤ 185 then
          ⟨y - 621, 1 + jsDiv (n - g2d y 3 r.march) 31,
            jsMod (n - g2d y 3 r.march) 31 + 1⟩
        else
          ⟨y - 621, 7 + jsDiv (n - g2d y 3 r.march - 186) 30,
            jsMod (n - g2d y 3 r.march - 186) 30 + 1⟩
      else
        ⟨y - 621 - 1,
          7 + jsDiv (if r.leap = 1 then n - g2d y 3 r.march + 179 + 1
            else n - g2d y 3 r.march + 179) 30,
          jsMod (if r.leap = 1 then n - g2d y 3 r.march + 179 + 1
            else n - g2d y 3 r.march + 179) 30 + 1⟩) := by
  unfold d2j
  rw [hgy]
  dsimp only
  rw [hjc]
  simp only [Option.map_some']

lemma getPersianYearBoundaries_eq (y : Int) (s : GregDate) (b : Bool)
    (h1 : jalaaliToGregorian y 1 1 = some s) (h2 : isPersianLeapYear y = some b) :
    getPersianYearBoundaries y
      = (jalaaliToGregorian y 12 (if b then 30 else 29)).map fun e => (s, e) := by
  unfold getPersianYearBoundaries
  rw [h1, h2]

set_option maxHeartbeats 2000000 in
lemma boundaries_correct (y : Int) (hylo : -61 ≤ y) (hyhi : y ≤ 3176) :
    ∃ (b : Bool) (s e : GregDate),
      isPersianLeapYear y = some b ∧
      getPersianYearBoundaries y = some (s, e) ∧
      gregorianToJalaali s = some ⟨y, 1, 1⟩ ∧
      gregorianToJalaali e = some ⟨y, 12, if b then 30 else 29⟩ := by
  obtain ⟨r, hr⟩ := jalCal_isSome y (by omega) (by omega)
  obtain ⟨rl, rgy, rm⟩ := r
  obtain ⟨r2, hr2⟩ := jalCal_isSome (y + 1) (by omega) (by omega)
  obtain ⟨rl2, rgy2, rm2⟩ := r2
  obtain ⟨-, -, hgy⟩ := jalCal_some_range y ⟨rl, rgy, rm⟩ hr
  obtain ⟨-, -, hgy2⟩ := jalCal_some_range (y + 1) ⟨rl2, rgy2, rm2⟩ hr2
  dsimp only at hgy hgy2
  subst hgy
  subst hgy2
  obtain ⟨hmb1, hmb2⟩ := march_bounds_global y ⟨rl, y + 621, rm⟩ (by omega) (by omega) hr
  obtain ⟨hpb1, hpb2⟩ :=
    march_bounds_global (y + 1) ⟨rl2, y + 1 + 621, rm2⟩ (by omega) (by omega) hr2
  dsimp only at hmb1 hmb2 hpb1 hpb2
  have hyl := yearlen_global (y + 1) ⟨rl2, y + 1 + 621, rm2⟩ ⟨rl, y + 621, rm⟩
    (by omega) (by omega) hr2 (by rw [show y + 1 - 1 = y from by ring]; exact hr)
  have hls := leapsucc_global y ⟨rl, y + 621, rm⟩ ⟨rl2, y + 1 + 621, rm2⟩
    (by omega) (by omega) hr hr2
  dsimp only at hyl hls
  have hn1 : d2g (g2d (y + 621) 3 rm) = ⟨y + 621, 3, rm⟩ :=
    d2g_g2d (y + 621) 3 rm (by omega) (by omega) (by unfold gregValid; omega)
  have hn2 : d2g (g2d (y + 1 + 621) 3 (rm2 - 1)) = ⟨y + 1 + 621, 3, rm2 - 1⟩ :=
    d2g_g2d (y + 1 + 621) 3 (rm2 - 1) (by omega) (by omega) (by unfold gregValid; omega)
  have hstart : jalaaliToGregorian y 1 1 = some (d2g (g2d (y + 621) 3 rm)) := by
    unfold jalaaliToGregorian
    rw [toGregorian_val_gen y 1 1 ⟨rl, y + 621, rm⟩ hr]
    dsimp only
    rw [show g2d (y + 621) 3 rm + (1 - 1) * 31 - jsDiv 1 7 * (1 - 7) + 1 - 1
        = g2d (y + 621) 3 rm from by rw [show jsDiv 1 7 = 0 from by decide]; ring]
  have hstartj : gregorianToJalaali (d2g (g2d (y + 621) 3 rm)) = some ⟨y, 1, 1⟩ := by
    unfold gregorianToJalaali
    rw [hn1]
    dsimp only
    unfold toJalaali
    rw [d2j_val_gen (g2d (y + 621) 3 rm) (y + 621) ⟨rl, y + 621, rm⟩
      (by rw [hn1]) (by rw [show y + 621 - 621 = y from by ring]; exact hr)]
    dsimp only
    rw [show g2d (y + 621) 3 rm - g2d (y + 621) 3 rm = 0 from by ring]
    rw [if_pos (by norm_num : (0 : Int) ≥ 0), if_pos (by norm_num : (0 : Int) ≤ 185)]
    rw [show jsDiv 0 31 = 0 from by decide, show jsMod 0 31 = 0 from by decide]
    norm_num
  by_cases hl : rl = 0
  · -- leap year: 30 Esfand
    have hb : isPersianLeapYear y = some true := by
      unfold isPersianLeapYear isLeapJalaaliYear
      rw [hr]
      simp [hl]
    have hr1 : rl2 = 1 := hls.mpr hl
    rw [if_pos hr1] at hyl
    have hend : jalaaliToGregorian y 12 30 = some (d2g (g2d (y + 621) 3 rm + 365)) := by
      unfold jalaaliToGregorian
      rw [toGregorian_val_gen y 12 30 ⟨rl, y + 621, rm⟩ hr]
      dsimp only
      rw [show g2d (y + 621) 3 rm + (12 - 1) * 31 - jsDiv 12 7 * (12 - 7) + 30 - 1
          = g2d (y + 621) 3 rm + 365 from by rw [show jsDiv 12 7 = 1 from by decide]; ring]
    have harg : g2d (y + 621) 3 rm + 365 = g2d (y + 1 + 621) 3 (rm2 - 1) := by
      rw [show g2d (y + 621) 3 rm + 365 = g2d (y + 1 + 621) 3 rm2 - 1 from by omega,
        g2d_sub_one]
    refine ⟨true, d2g (g2d (y + 621) 3 rm), d2g (g2d (y + 621) 3 rm + 365),
      hb, ?_, hstartj, ?_⟩
    · rw [getPersianYearBoundaries_eq y (d2g (g2d (y + 621) 3 rm)) true hstart hb]
      rw [show (if (true : Bool) then (30 : Int) else 29) = 30 from rfl]
      rw [hend]
      rfl
    · rw [show (if (true : Bool) then (30 : Int) else 29) = 30 from rfl]
      unfold gregorianToJalaali
      rw [harg, hn2]
      dsimp only
      unfold toJalaali
      rw [d2j_val_gen (g2d (y + 1 + 621) 3 (rm2 - 1)) (y + 1 + 621) ⟨rl2, y + 1 + 621, rm2⟩
        (by rw [hn2]) (by rw [show y + 1 + 621 - 621 = y + 1 from by ring]; exact hr2)]
      dsimp only
      rw [show g2d (y + 1 + 621) 3 (rm2 - 1) - g2d (y + 1 + 621) 3 rm2 = -1 from by
        rw [← g2d_sub_one]; ring]
      rw [if_neg (by norm_num : ¬((-1 : Int) ≥ 0))]
      rw [if_pos hr1]
      rw [show jsDiv (-1 + 179 + 1) 30 = 5 from by decide,
        show jsMod (-1 + 179 + 1) 30 = 29 from by decide]
      norm_num
  · -- common year: 29 Esfand
    have hb : isPersianLeapYear y = some false := by
      unfold isPersianLeapYear isLeapJalaaliYear
      rw [hr]
      simp [hl]
    have hr1 : rl2 ≠ 1 := fun hh => hl (hls.mp hh)
    rw [if_neg hr1] at hyl
    have hend : jalaaliToGregorian y 12 29 = some (d2g (g2d (y + 621) 3 rm + 364)) := by
      unfold jalaaliToGregorian
      rw [toGregorian_val_gen y 12 29 ⟨rl, y + 621, rm⟩ hr]
      dsimp only
      rw [show g2d (y + 621) 3 rm + (12 - 1) * 31 - jsDiv 12 7 * (12 - 7) + 29 - 1
          = g2d (y + 621) 3 rm + 364 from by rw [show jsDiv 12 7 = 1 from by decide]; ring]
    have harg : g2d (y + 621) 3 rm + 364 = g2d (y + 1 + 621) 3 (rm2 - 1) := by
      rw [show g2d (y + 621) 3 rm + 364 = g2d (y + 1 + 621) 3 rm2 - 1 from by omega,
        g2d_sub_one]
    refine ⟨false, d2g (g2d (y + 621) 3 rm), d2g (g2d (y + 621) 3 rm + 364),
      hb, ?_, hstartj, ?_⟩
    · rw [getPersianYearBoundaries_eq y (d2g (g2d (y + 621) 3 rm)) false hstart hb]
      rw [show (if (false : Bool) then (30 : Int) else 29) = 29 from rfl]
      rw [hend]
      rfl
    · rw [show (if (false : Bool) then (30 : Int) else 29) = 29 from rfl]
      unfold gregorianToJalaali
      rw [harg, hn2]
      dsimp only
      unfold toJalaali
      rw [d2j_val_gen (g2d (y + 1 + 621) 3 (rm2 - 1)) (y + 1 + 621) ⟨rl2, y + 1 + 621, rm2⟩
        (by rw [hn2]) (by rw [show y + 1 + 621 - 621 = y + 1 from by ring]; exact hr2)]
      dsimp only
      rw [show g2d (y + 1 + 621) 3 (rm2 - 1) - g2d (y + 1 + 621) 3 rm2 = -1 from by
        rw [← g2d_sub_one]; ring]
      rw [if_neg (by norm_num : ¬((-1 : Int) ≥ 0))]
      rw [if_neg hr1]
      rw [show jsDiv (-1 + 179) 30 = 5 from by decide,
        show jsMod (-1 + 179) 30 = 28 from by decide]
      norm_num

/-- C5: getPersianYearBoundaries returns start = 1 Farvardin and
end = the last day of Esfand of the given Persian year, the end day being
30 exactly when isPersianLeapYear holds and 29 otherwise: for every
supported year y with y + 1 also supported (-61 <= y <= 3176), the leap
test succeeds with some b, the boundaries are some (s, e), and converting
s and e back to Jalaali gives y/1/1 and y/12/(30 or 29 by b); in
particular the 1403 boundaries end on 30 Esfand 1403 (2025-03-20) and the
1402 boundaries end on 29 Esfand 1402 (2024-03-19). -/
theorem fiscal_year_boundaries_correct :
    (∀ y : Int, -61 ≤ y → y ≤ 3176 →
      ∃ (b : Bool) (s e : GregDate),
        isPersianLeapYear y = some b ∧
        getPersianYearBoundaries y = some (s, e) ∧
        gregorianToJalaali s = some ⟨y, 1, 1⟩ ∧
        gregorianToJalaali e = some ⟨y, 12, if b then 30 else 29⟩) ∧
    getPersianYearBoundaries 1403 = some (⟨2024, 3, 20⟩, ⟨2025, 3, 20⟩) ∧
    gregorianToJalaali ⟨2025, 3, 20⟩ = some ⟨1403, 12, 30⟩ ∧
    isPersianLeapYear 1403 = some true ∧
    getPersianYearBoundaries 1402 = some (⟨2023, 3, 21⟩, ⟨2024, 3, 19⟩) ∧
    gregorianToJalaali ⟨2024, 3, 19⟩ = some ⟨1402, 12, 29⟩ ∧
    isPersianLeapYear 1402 = some false :=
  ⟨boundaries_correct, by decide, by decide, by decide, by decide, by decide, by decide⟩

theorem fiscal_year_boundaries_correct_witness :
    ∃ (b : Bool) (s e : GregDate),
      isPersianLeapYear 1400 = some b ∧
      getPersianYearBoundaries 1400 = some (s, e) ∧
      gregorianToJalaali s = some ⟨1400, 1, 1⟩ ∧
      gregorianToJalaali e = some ⟨1400, 12, if b then 30 else 29⟩ :=
  fiscal_year_boundaries_correct.1 1400 (by norm_num) (by norm_num)
